import Mathlib

/-!
# Constant folding in the PIR parser

A shallow embedding of the helpers that follow the grammar in
`compilers/pirc/new/pirparser.c` (the fold functions `fold_i_i`, `fold_n_i`, `fold_i_n`,
`fold_n_n`, `fold_s_s`, the evaluate functions, `concat_strings`, `check_value`,
`do_strength_reduction`) and of the grammar actions that call them, and the properties
of them that the specification states.

Conventions of the embedding.

* A C `int` is an `Int` in the range `INT_MIN .. INT_MAX`; the arithmetic of the machine
  is written with an explicit reduction `wrap_int`.
* A C `double` is a value of `Double`: NaN, an infinity, or a signed dyadic number.
  Comparisons and the conversion from `int` are defined exactly.  What rounds (the
  arithmetic of the floating point unit and of `libm`) is not part of the parser and
  is taken from a `machine`.
* A C string is the list of its bytes, without the terminating NUL.
* `yyerror` appends its message to the list of reported errors; `panic` and the traps
  of undefined operations end the call with a `fault`.
* A local that is declared without initialiser (`int result;`) starts with the
  content `uninit`, which is an argument of the embedded function.
-/

namespace Pirc

/-! ## The C type int -/

/-- Smallest value of a 32 bit int. -/
def INT_MIN : Int := -2147483648

/-- Largest value of a 32 bit int. -/
def INT_MAX : Int := 2147483647

/-- The values a C int can hold. -/
def is_int (x : Int) : Prop := INT_MIN ≤ x ∧ x ≤ INT_MAX

instance is_int_decidable (x : Int) : Decidable (is_int x) := by
  unfold is_int; infer_instance

/-- Two's complement reduction of a mathematical result to the range of int. -/
def wrap_int (x : Int) : Int := (x + 2147483648) % 4294967296 - 2147483648

/-- The conversion `(unsigned)a`. -/
def to_unsigned (a : Int) : Nat := (a % 4294967296).toNat

/-- The int value of a C truth value. -/
def b2i (c : Bool) : Int := if c then 1 else 0

/-! ## Operators -/

/-- Enumeration of mathematical operator types (`pir_math_operator`). -/
inductive pir_math_operator
  | OP_ADD | OP_INC | OP_SUB | OP_DEC | OP_DIV | OP_MUL | OP_MOD | OP_BOR | OP_BAND
  | OP_BXOR | OP_POW | OP_CONCAT | OP_LSR | OP_SHR | OP_SHL | OP_OR | OP_AND | OP_FDIV
  | OP_XOR | OP_ISEQ | OP_ISLE | OP_ISLT | OP_ISGE | OP_ISGT | OP_ISNE
  deriving DecidableEq, Repr

/-- Relational operator types (`pir_rel_operator`). -/
inductive pir_rel_operator
  | OP_NE | OP_EQ | OP_LT | OP_LE | OP_GT | OP_GE
  deriving DecidableEq, Repr

/-- The value of each enumerator of pir_math_operator: counting starts at 0. -/
def pir_math_operator.val : pir_math_operator → Int
  | .OP_ADD => 0 | .OP_INC => 1 | .OP_SUB => 2 | .OP_DEC => 3 | .OP_DIV => 4
  | .OP_MUL => 5 | .OP_MOD => 6 | .OP_BOR => 7 | .OP_BAND => 8 | .OP_BXOR => 9
  | .OP_POW => 10 | .OP_CONCAT => 11 | .OP_LSR => 12 | .OP_SHR => 13 | .OP_SHL => 14
  | .OP_OR => 15 | .OP_AND => 16 | .OP_FDIV => 17 | .OP_XOR => 18 | .OP_ISEQ => 19
  | .OP_ISLE => 20 | .OP_ISLT => 21 | .OP_ISGE => 22 | .OP_ISGT => 23 | .OP_ISNE => 24

/-- The value of each enumerator of pir_rel_operator: OP_NE is OP_ISNE + 1 and the
others count on from there. -/
def pir_rel_operator.val : pir_rel_operator → Int
  | .OP_NE => pir_math_operator.OP_ISNE.val + 1
  | .OP_EQ => pir_math_operator.OP_ISNE.val + 2
  | .OP_LT => pir_math_operator.OP_ISNE.val + 3
  | .OP_LE => pir_math_operator.OP_ISNE.val + 4
  | .OP_GT => pir_math_operator.OP_ISNE.val + 5
  | .OP_GE => pir_math_operator.OP_ISNE.val + 6

/-- Names of the binary operators (`opnames`). -/
def opnames : List String :=
  ["add", "inc", "sub", "dec", "div", "mul", "mod", "bor", "band", "bxor", "pow",
   "concat", "lsr", "shr", "shl", "or", "and", "fdiv", "xor", "iseq", "isle", "islt",
   "isge", "isgt", "isne", "ne", "eq", "lt", "le", "gt", "ge"]

/-- The element `opnames[op]`. -/
def opname (op : pir_math_operator) : String := opnames.getD op.val.toNat ""

/-! ## The C type double -/

/-- A double: NaN, an infinity with its sign, or the finite number
`(-1)^neg * m * 2^e`; the zeros are the finite numbers with `m = 0`.  The binary64
numbers are those with `m < 2^53` and `-1074 ≤ e ≤ 971`. -/
inductive Double
  | nan
  | inf (neg : Bool)
  | fin (neg : Bool) (m : Nat) (e : Int)
  deriving DecidableEq, Repr

/-- The integer of magnitude `m` and the given sign. -/
def signed (neg : Bool) (m : Nat) : Int := if neg then -(m : Int) else (m : Int)

/-- Conversion of an int to double; it is exact, an int has fewer than 53 bits. -/
def Double.of_int (i : Int) : Double := .fin (decide (i < 0)) i.natAbs 0

/-- Outcome of comparing two doubles. -/
inductive dorder
  | lt | eq | gt | unordered
  deriving DecidableEq, Repr

/-- Comparison of the integers `x` and `y`. -/
def int_order (x y : Int) : dorder :=
  if x < y then .lt else if x = y then .eq else .gt

/-- Comparison of two doubles by value: finite numbers are brought to the smaller of
the two exponents; NaN is unordered with everything. -/
def Double.order : Double → Double → dorder
  | .nan, _ => .unordered
  | _, .nan => .unordered
  | .inf s, .inf t => if s = t then .eq else if s then .lt else .gt
  | .inf s, .fin _ _ _ => if s then .lt else .gt
  | .fin _ _ _, .inf t => if t then .gt else .lt
  | .fin s1 m1 e1, .fin s2 m2 e2 =>
      int_order (signed s1 m1 * 2 ^ (e1 - min e1 e2).toNat)
        (signed s2 m2 * 2 ^ (e2 - min e1 e2).toNat)

/-- The C comparison `a == b` on doubles. -/
def d_eq (a b : Double) : Bool := decide (a.order b = .eq)

/-- The C comparison `a != b` on doubles. -/
def d_ne (a b : Double) : Bool := !d_eq a b

/-- The C comparison `a < b` on doubles. -/
def d_lt (a b : Double) : Bool := decide (a.order b = .lt)

/-- The C comparison `a <= b` on doubles. -/
def d_le (a b : Double) : Bool := decide (a.order b = .lt) || decide (a.order b = .eq)

/-- The C comparison `a > b` on doubles. -/
def d_gt (a b : Double) : Bool := decide (a.order b = .gt)

/-- The C comparison `a >= b` on doubles. -/
def d_ge (a b : Double) : Bool := decide (a.order b = .gt) || decide (a.order b = .eq)

/-- A double in a C condition: true unless it compares equal to zero. -/
def d_true (a : Double) : Bool := d_ne a (Double.of_int 0)

/-- The value of a finite double with its fraction discarded. -/
def Double.trunc : Double → Option Int
  | .fin s m e => some (signed s (if 0 ≤ e then m * 2 ^ e.toNat else m / 2 ^ (-e).toNat))
  | _ => none

/-- What the parser takes from its platform: the rounding arithmetic of double, the
functions `pow` and `floor` of the C library, and the result the hardware leaves where
the C standard gives none (a double outside the range of int converted to int, a shift
by a count outside `0 .. 31`). -/
structure machine where
  /-- the sum a + b of two doubles -/
  add : Double → Double → Double
  /-- the difference a - b of two doubles -/
  sub : Double → Double → Double
  /-- the product a * b of two doubles -/
  mul : Double → Double → Double
  /-- the quotient a / b of two doubles -/
  div : Double → Double → Double
  /-- the library function pow(a, b) -/
  pow : Double → Double → Double
  /-- the library function floor(a) -/
  floor : Double → Double
  /-- the conversion (int)d for a d whose truncation is no int -/
  cvt_invalid : Double → Int
  /-- the shifts a << b, a >> b and (unsigned)a >> b for a count outside 0 .. 31 -/
  shift_invalid : pir_math_operator → Int → Int → Int

/-- The conversion `(int)d`: truncation toward zero. -/
def double_to_int (mc : machine) (d : Double) : Int :=
  match d.trunc with
  | some t => if is_int t then t else wrap_int (mc.cvt_invalid d)
  | none => wrap_int (mc.cvt_invalid d)

/-! ## Constants -/

/-- The type tags of a constant (the enumeration pir_type of pircompunit.h, whose
enumerators the parser names). -/
inductive pir_type
  | INT_TYPE | NUM_TYPE | STRING_TYPE | PMC_TYPE | UNKNOWN_TYPE
  deriving DecidableEq, Repr

/-- A C string: its bytes, the terminating NUL left out. -/
abbrev cstring := List Nat

/-- The bytes of a string of ASCII characters. -/
def str (s : String) : cstring := s.toList.map Char.toNat

/-- A list of bytes that a C string can hold: every byte is in 1 .. 255. -/
def is_cstring (s : cstring) : Prop := ∀ x ∈ s, 0 < x ∧ x < 256

instance is_cstring_decidable (s : cstring) : Decidable (is_cstring s) := by
  unfold is_cstring; infer_instance

/-- The union val of a constant: the member that was stored. -/
inductive value
  | ival (i : Int)
  | nval (n : Double)
  | sval (s : cstring)
  | pval (s : cstring)
  deriving DecidableEq, Repr

/-- A constant node: type tag and value. -/
structure constant where
  /-- the tag c->type -/
  type : pir_type
  /-- the union c->val -/
  val : value
  deriving DecidableEq, Repr

/-- Modelled from the spec: new_const is defined in pircompunit.c, which is not part of
the sources at hand. It makes a constant, "a tagged union over integer, float, string,
named-PMC-constant", from the tag and the value given after it. -/
def new_const (type : pir_type) (v : value) : constant := { type := type, val := v }

/-! ## Errors and faults -/

/-- How a call ends when it does not return. -/
inductive fault
  /-- the call of panic with this message: a fatal internal error -/
  | panic (msg : String)
  /-- an operation on which the machine traps or that C leaves undefined -/
  | undefined (what : String)
  deriving DecidableEq, Repr

/-- The local result of a fold function and the messages it has given to yyerror. -/
structure fold_state (α : Type) where
  /-- the local variable result -/
  result : α
  /-- the messages reported so far, oldest first -/
  errors : List String

/-- Modelled from the spec: yyerror is not defined in pirparser.c. A call reports one
diagnostic "carrying a message"; here the message joins the reported ones. -/
def yyerror {α : Type} (st : fold_state α) (msg : String) : fold_state α :=
  { st with errors := st.errors ++ [msg] }

/-- The assignment result = v. -/
def set_result {α : Type} (st : fold_state α) (v : α) : fold_state α :=
  { st with result := v }

/-- What a fold function hands back: the constant it returns and the messages it
reported on the way. -/
structure folded where
  /-- the constant node returned -/
  const : constant
  /-- the messages given to yyerror, oldest first -/
  errors : List String
  deriving DecidableEq, Repr

/-- Equality of two outcomes can be decided. -/
instance except_decidable_eq {ε α : Type} [DecidableEq ε] [DecidableEq α] :
    DecidableEq (Except ε α) := fun x y =>
  match x, y with
  | .ok a, .ok b =>
      if h : a = b then isTrue (by rw [h]) else isFalse (fun h2 => h (by cases h2; rfl))
  | .error a, .error b =>
      if h : a = b then isTrue (by rw [h]) else isFalse (fun h2 => h (by cases h2; rfl))
  | .ok _, .error _ => isFalse (fun h => by cases h)
  | .error _, .ok _ => isFalse (fun h => by cases h)

/-! ## Integer operations of C -/

/-- The C expression a / b on ints: the quotient truncated toward zero. Division by
zero traps, and so does INT_MIN / -1, whose quotient is no int. -/
def c_div (a b : Int) : Except fault Int :=
  if b = 0 then .error (.undefined "integer division by zero")
  else if a = INT_MIN ∧ b = -1 then .error (.undefined "integer division overflow")
  else .ok (Int.tdiv a b)

/-- The C expression a % b on ints: the remainder of the truncating division, with
the same traps. -/
def c_mod (a b : Int) : Except fault Int :=
  if b = 0 then .error (.undefined "integer division by zero")
  else if a = INT_MIN ∧ b = -1 then .error (.undefined "integer division overflow")
  else .ok (Int.tmod a b)

/-- A shift count the C standard gives a meaning to. -/
def shift_ok (b : Int) : Prop := 0 ≤ b ∧ b < 32

instance shift_ok_decidable (b : Int) : Decidable (shift_ok b) := by
  unfold shift_ok; infer_instance

/-- The C expression a << b. -/
def c_shl (mc : machine) (a b : Int) : Int :=
  if shift_ok b then wrap_int (a * 2 ^ b.toNat)
  else wrap_int (mc.shift_invalid .OP_SHL a b)

/-- The C expression a >> b on ints: the arithmetic shift. -/
def c_shr (mc : machine) (a b : Int) : Int :=
  if shift_ok b then a / 2 ^ b.toNat
  else wrap_int (mc.shift_invalid .OP_SHR a b)

/-- The C expression (int)((unsigned)a >> b). -/
def c_lsr (mc : machine) (a b : Int) : Int :=
  if shift_ok b then wrap_int ((to_unsigned a / 2 ^ b.toNat : Nat) : Int)
  else wrap_int (mc.shift_invalid .OP_LSR a b)

/-- The C expressions a | b, a & b and a ^ b on ints, through the bit patterns. -/
def c_bits (f : Nat → Nat → Nat) (a b : Int) : Int :=
  wrap_int ((f (to_unsigned a) (to_unsigned b) : Nat) : Int)

/-! ## Strings of C -/

/-- The function strlen. -/
def strlen (s : cstring) : Nat := s.length

/-- The function strcmp: the strings are compared byte by byte, the end of a string
counting as the smallest byte; the result is -1 (smaller), 0 (equal) or 1 (larger). -/
def strcmp : cstring → cstring → Int
  | [], [] => 0
  | [], _ :: _ => -1
  | _ :: _, [] => 1
  | x :: xs, y :: ys => if x < y then -1 else if y < x then 1 else strcmp xs ys

/-- The memory calloc(n, sizeof (char)) hands out: n zero bytes. The allocation is
taken to succeed, as the assertion after it demands. -/
def calloc (n : Nat) : List Nat := List.replicate n 0

/-- The call strcpy(dst + off, src) on the buffer dst: the bytes of src and the
terminating NUL are written from position off on. There is no result when the write
would pass the end of the buffer. -/
def strcpy (dst : List Nat) (off : Nat) (src : cstring) : Option (List Nat) :=
  if off + src.length + 1 ≤ dst.length then
    some (dst.take off ++ (src ++ [0]) ++ dst.drop (off + src.length + 1))
  else none

/-- The C string a buffer holds: its bytes up to the first NUL. -/
def string_at (buf : List Nat) : cstring := buf.takeWhile (fun x => x != 0)

/-- The function concat_strings: both strings are copied into a new buffer of
strlen(a) + strlen(b) + 1 bytes and the new string is returned. (Freeing the old
strings has no counterpart here.) -/
def concat_strings (a b : cstring) : Option cstring :=
  let strlen_a := strlen a
  let newstr := calloc (strlen_a + strlen b + 1)
  match strcpy newstr 0 a with
  | none => none
  | some newstr1 =>
    match strcpy newstr1 strlen_a b with
    | none => none
    | some newstr2 => some (string_at newstr2)

/-- The function evaluate_s_s: compare string a with string b using the operator op.
The operator arrives as the int value of an enumerator; a value that is none of the
six relational operators takes the default branch. -/
def evaluate_s_s (a : cstring) (op : Int) (b : cstring) : Int :=
  let result := strcmp a b
  if op = pir_rel_operator.OP_NE.val then b2i (decide (result ≠ 0))
  else if op = pir_rel_operator.OP_EQ.val then b2i (decide (result = 0))
  else if op = pir_rel_operator.OP_LT.val then b2i (decide (result < 0))
  else if op = pir_rel_operator.OP_LE.val then b2i (decide (result ≤ 0))
  else if op = pir_rel_operator.OP_GT.val then b2i (decide (result > 0))
  else if op = pir_rel_operator.OP_GE.val then b2i (decide (result ≥ 0))
  else -1

/-! ## The fold functions -/

/-- The function fold_i_i: evaluates a op b for two ints and returns a constant node
with the result. -/
def fold_i_i (mc : machine) (uninit : Int) (a : Int) (op : pir_math_operator) (b : Int) :
    Except fault folded :=
  let st : fold_state Int := { result := uninit, errors := [] }
  let sw : Except fault (fold_state Int) :=
    match op with
    | .OP_ADD => .ok (set_result st (wrap_int (a + b)))
    | .OP_SUB => .ok (set_result st (wrap_int (a - b)))
    | .OP_DIV =>
        if b = 0 then .ok (yyerror st "cannot divide by 0!")
        else (c_div a b).map (set_result st)
    | .OP_MUL => .ok (set_result st (wrap_int (a * b)))
    | .OP_MOD => (c_mod a b).map (set_result st)
    | .OP_BOR => .ok (set_result st (c_bits Nat.lor a b))
    | .OP_BAND => .ok (set_result st (c_bits Nat.land a b))
    | .OP_BXOR => .ok (set_result st (c_bits Nat.xor a b))
    | .OP_POW =>
        .ok (set_result st (double_to_int mc (mc.pow (Double.of_int a) (Double.of_int b))))
    | .OP_CONCAT =>
        .ok (yyerror st "cannot concatenate operands of type 'int' and 'int'")
    | .OP_LSR => .ok (set_result st (c_lsr mc a b))
    | .OP_SHR => .ok (set_result st (c_shr mc a b))
    | .OP_SHL => .ok (set_result st (c_shl mc a b))
    | .OP_OR => .ok (set_result st (b2i (decide (a ≠ 0) || decide (b ≠ 0))))
    | .OP_AND => .ok (set_result st (b2i (decide (a ≠ 0) && decide (b ≠ 0))))
    | .OP_FDIV => (c_div a b).map (set_result st)
    | .OP_XOR => .ok (set_result st (c_bits Nat.xor a b))
    | .OP_ISEQ => .ok (set_result st (b2i (decide (a = b))))
    | .OP_ISLE => .ok (set_result st (b2i (decide (a ≤ b))))
    | .OP_ISLT => .ok (set_result st (b2i (decide (a < b))))
    | .OP_ISGE => .ok (set_result st (b2i (decide (a ≥ b))))
    | .OP_ISGT => .ok (set_result st (b2i (decide (a > b))))
    | .OP_ISNE => .ok (set_result st (b2i (decide (a ≠ b))))
    | .OP_INC | .OP_DEC => .error (.panic "detected 'inc' or 'dec' in fold_i_i()")
  sw.map fun st1 => { const := new_const .INT_TYPE (.ival st1.result), errors := st1.errors }

/-- The function fold_n_i: same as fold_i_i, except a is of type double. The int b is
converted to double wherever it meets a. -/
def fold_n_i (mc : machine) (uninit : Double) (a : Double) (op : pir_math_operator)
    (b : Int) : Except fault folded :=
  let st : fold_state Double := { result := uninit, errors := [] }
  let sw : Except fault (fold_state Double) :=
    match op with
    | .OP_ADD => .ok (set_result st (mc.add a (Double.of_int b)))
    | .OP_SUB => .ok (set_result st (mc.sub a (Double.of_int b)))
    | .OP_DIV =>
        if b = 0 then .ok (yyerror st "cannot divide by 0!")
        else .ok (set_result st (mc.div a (Double.of_int b)))
    | .OP_MUL => .ok (set_result st (mc.mul a (Double.of_int b)))
    | .OP_MOD | .OP_BOR | .OP_BAND | .OP_BXOR | .OP_SHR | .OP_SHL | .OP_LSR | .OP_XOR
    | .OP_CONCAT =>
        .ok (yyerror st
          ("cannot apply binary operator '" ++ opname op ++ "' to types 'num' and 'int'"))
    | .OP_POW => .ok (set_result st (mc.pow a (Double.of_int b)))
    | .OP_OR => .ok (set_result st (Double.of_int (b2i (d_true a || decide (b ≠ 0)))))
    | .OP_AND => .ok (set_result st (Double.of_int (b2i (d_true a && decide (b ≠ 0)))))
    | .OP_FDIV => .ok (set_result st (mc.floor (mc.div a (Double.of_int b))))
    | .OP_ISEQ => .ok (set_result st (Double.of_int (b2i (d_eq a (Double.of_int b)))))
    | .OP_ISLE => .ok (set_result st (Double.of_int (b2i (d_le a (Double.of_int b)))))
    | .OP_ISLT => .ok (set_result st (Double.of_int (b2i (d_lt a (Double.of_int b)))))
    | .OP_ISGE => .ok (set_result st (Double.of_int (b2i (d_ge a (Double.of_int b)))))
    | .OP_ISGT => .ok (set_result st (Double.of_int (b2i (d_gt a (Double.of_int b)))))
    | .OP_ISNE => .ok (set_result st (Double.of_int (b2i (d_ne a (Double.of_int b)))))
    | .OP_INC | .OP_DEC => .error (.panic "detected 'inc' or 'dec' in fold_n_i()")
  sw.map fun st1 => { const := new_const .NUM_TYPE (.nval st1.result), errors := st1.errors }

/-- The function fold_i_n: same as fold_i_i, except b is of type double. The int a is
converted to double wherever it meets b. -/
def fold_i_n (mc : machine) (uninit : Double) (a : Int) (op : pir_math_operator)
    (b : Double) : Except fault folded :=
  let st : fold_state Double := { result := uninit, errors := [] }
  let sw : Except fault (fold_state Double) :=
    match op with
    | .OP_ADD => .ok (set_result st (mc.add (Double.of_int a) b))
    | .OP_SUB => .ok (set_result st (mc.sub (Double.of_int a) b))
    | .OP_DIV =>
        if d_eq b (Double.of_int 0) then .ok (yyerror st "cannot divide by 0!")
        else .ok (set_result st (mc.div (Double.of_int a) b))
    | .OP_MUL => .ok (set_result st (mc.mul (Double.of_int a) b))
    | .OP_MOD | .OP_BOR | .OP_BAND | .OP_BXOR | .OP_LSR | .OP_SHR | .OP_SHL | .OP_XOR
    | .OP_CONCAT =>
        .ok (yyerror st
          ("cannot apply binary operator '" ++ opname op ++ "' to types 'int' and 'num'"))
    | .OP_POW => .ok (set_result st (mc.pow (Double.of_int a) b))
    | .OP_OR => .ok (set_result st (Double.of_int (b2i (decide (a ≠ 0) || d_true b))))
    | .OP_AND => .ok (set_result st (Double.of_int (b2i (decide (a ≠ 0) && d_true b))))
    | .OP_FDIV => .ok (set_result st (mc.floor (mc.div (Double.of_int a) b)))
    | .OP_ISEQ => .ok (set_result st (Double.of_int (b2i (d_eq (Double.of_int a) b))))
    | .OP_ISLE => .ok (set_result st (Double.of_int (b2i (d_le (Double.of_int a) b))))
    | .OP_ISLT => .ok (set_result st (Double.of_int (b2i (d_lt (Double.of_int a) b))))
    | .OP_ISGE => .ok (set_result st (Double.of_int (b2i (d_ge (Double.of_int a) b))))
    | .OP_ISGT => .ok (set_result st (Double.of_int (b2i (d_gt (Double.of_int a) b))))
    | .OP_ISNE => .ok (set_result st (Double.of_int (b2i (d_ne (Double.of_int a) b))))
    | .OP_INC | .OP_DEC => .error (.panic "detected 'inc' or 'dec' in fold_i_n()")
  sw.map fun st1 => { const := new_const .NUM_TYPE (.nval st1.result), errors := st1.errors }

/-- The function fold_n_n: same as fold_i_i, except that both a and b are of type
double. The cases OP_INC and OP_DEC leave the switch without a call of panic. -/
def fold_n_n (mc : machine) (uninit : Double) (a : Double) (op : pir_math_operator)
    (b : Double) : Except fault folded :=
  let st : fold_state Double := { result := uninit, errors := [] }
  let sw : Except fault (fold_state Double) :=
    match op with
    | .OP_ADD => .ok (set_result st (mc.add a b))
    | .OP_SUB => .ok (set_result st (mc.sub a b))
    | .OP_DIV =>
        if d_eq b (Double.of_int 0) then .ok (yyerror st "cannot divide by 0")
        else .ok (set_result st (mc.div a b))
    | .OP_MUL => .ok (set_result st (mc.mul a b))
    | .OP_POW => .ok (set_result st (mc.pow a b))
    | .OP_MOD | .OP_BOR | .OP_BAND | .OP_BXOR | .OP_CONCAT | .OP_LSR | .OP_SHR | .OP_SHL
    | .OP_XOR =>
        .ok (yyerror st
          ("cannot apply binary operator '" ++ opname op ++ "' to arguments of type number"))
    | .OP_OR => .ok (set_result st (Double.of_int (b2i (d_true a || d_true b))))
    | .OP_AND => .ok (set_result st (Double.of_int (b2i (d_true a && d_true b))))
    | .OP_FDIV =>
        if d_eq b (Double.of_int 0) then .ok (yyerror st "cannot divide by 0")
        else .ok (set_result st (mc.floor (mc.div a b)))
    | .OP_ISEQ => .ok (set_result st (Double.of_int (b2i (d_eq a b))))
    | .OP_ISLE => .ok (set_result st (Double.of_int (b2i (d_le a b))))
    | .OP_ISLT => .ok (set_result st (Double.of_int (b2i (d_lt a b))))
    | .OP_ISGE => .ok (set_result st (Double.of_int (b2i (d_ge a b))))
    | .OP_ISGT => .ok (set_result st (Double.of_int (b2i (d_gt a b))))
    | .OP_ISNE => .ok (set_result st (Double.of_int (b2i (d_ne a b))))
    | .OP_INC | .OP_DEC => .ok st
  sw.map fun st1 => { const := new_const .NUM_TYPE (.nval st1.result), errors := st1.errors }

/-- The function fold_s_s: evaluate a op b, where both a and b are strings. Each case
of its switch returns on its own. -/
def fold_s_s (a : cstring) (op : pir_math_operator) (b : cstring) : Except fault folded :=
  match op with
  | .OP_CONCAT =>
      match concat_strings a b with
      | some s => .ok { const := new_const .STRING_TYPE (.sval s), errors := [] }
      | none => .error (.undefined "write past the end of the new buffer")
  | .OP_ADD | .OP_SUB | .OP_DIV | .OP_MUL | .OP_POW | .OP_MOD | .OP_BOR | .OP_BAND
  | .OP_BXOR | .OP_LSR | .OP_SHR | .OP_SHL | .OP_XOR | .OP_OR | .OP_AND | .OP_FDIV =>
      .ok { const := new_const .STRING_TYPE (.sval a),
            errors := ["cannot apply binary operator '" ++ opname op ++
              "' to arguments of type number"] }
  | .OP_ISEQ | .OP_ISLE | .OP_ISLT | .OP_ISGE | .OP_ISGT | .OP_ISNE =>
      .ok { const := new_const .INT_TYPE (.ival (b2i (decide (1 = evaluate_s_s a op.val b)))),
            errors := [] }
  | .OP_INC | .OP_DEC => .error (.panic "detected 'inc' or 'dec' in fold_s_s()")

/-! ## Reading an outcome -/

/-- The call returned a constant node whose type tag is t. -/
def has_tag (r : Except fault folded) (t : pir_type) : Prop :=
  match r with
  | .ok f => f.const.type = t
  | .error _ => False

instance has_tag_decidable (r : Except fault folded) (t : pir_type) :
    Decidable (has_tag r t) := by
  unfold has_tag; cases r <;> infer_instance

/-! ## A machine to run the definitions on

The theorems below hold for every machine. Where one has to be named, to run a fold
function on given operands, it is the following: its sum, difference, product and
floor are the exact ones, which is what IEEE 754 arithmetic gives whenever the exact
result is a double; its quotient is exact when the magnitudes divide and cut off after
64 further bits otherwise; its pow is the exact power of a finite base for an exponent
that is a non-negative integer, and NaN in every other case. The results the C standard leaves open are
those of an x86 processor. -/

/-- The double with the opposite sign. -/
def Double.neg : Double → Double
  | .nan => .nan
  | .inf s => .inf (!s)
  | .fin s m e => .fin (!s) m e

/-- The exact sum. -/
def exact_add : Double → Double → Double
  | .nan, _ => .nan
  | _, .nan => .nan
  | .inf s, .inf t => if s = t then .inf s else .nan
  | .inf s, .fin _ _ _ => .inf s
  | .fin _ _ _, .inf t => .inf t
  | .fin s1 m1 e1, .fin s2 m2 e2 =>
      let z := signed s1 m1 * 2 ^ (e1 - min e1 e2).toNat
        + signed s2 m2 * 2 ^ (e2 - min e1 e2).toNat
      .fin (decide (z < 0)) z.natAbs (min e1 e2)

/-- The exact product. -/
def exact_mul : Double → Double → Double
  | .nan, _ => .nan
  | _, .nan => .nan
  | .inf s, .inf t => .inf (xor s t)
  | .inf s, .fin t m _ => if m = 0 then .nan else .inf (xor s t)
  | .fin s m _, .inf t => if m = 0 then .nan else .inf (xor s t)
  | .fin s1 m1 e1, .fin s2 m2 e2 => .fin (xor s1 s2) (m1 * m2) (e1 + e2)

/-- The quotient: exact when the magnitudes divide, else cut off after 64 further
bits. -/
def exact_div : Double → Double → Double
  | .nan, _ => .nan
  | _, .nan => .nan
  | .inf _, .inf _ => .nan
  | .inf s, .fin t _ _ => .inf (xor s t)
  | .fin s _ _, .inf t => .fin (xor s t) 0 0
  | .fin s1 m1 e1, .fin s2 m2 e2 =>
      if m2 = 0 then (if m1 = 0 then .nan else .inf (xor s1 s2))
      else if m1 % m2 = 0 then .fin (xor s1 s2) (m1 / m2) (e1 - e2)
      else .fin (xor s1 s2) (m1 * 2 ^ 64 / m2) (e1 - e2 - 64)

/-- The power of a finite base for an exponent that is a non-negative integer, exact;
NaN in every other case. -/
def exact_pow : Double → Double → Double
  | .fin s m e, y =>
      match y.trunc with
      | some n =>
          if 0 ≤ n ∧ d_eq y (Double.of_int n) = true then
            .fin (s && decide (n % 2 = 1)) (m ^ n.toNat) (e * n)
          else .nan
      | none => .nan
  | _, _ => .nan

/-- The largest integer not above the argument. -/
def exact_floor : Double → Double
  | .fin s m e =>
      if 0 ≤ e then .fin s m e
      else .fin s ((signed s m) / 2 ^ (-e).toNat).natAbs 0
  | d => d

/-- The machine of exact arithmetic. A conversion to int that has no result gives
INT_MIN, and a shift takes its count modulo 32. -/
def exact_machine : machine where
  add := exact_add
  sub := fun a b => exact_add a b.neg
  mul := exact_mul
  div := exact_div
  pow := exact_pow
  floor := exact_floor
  cvt_invalid := fun _ => INT_MIN
  shift_invalid := fun op a b =>
    match op with
    | .OP_SHL => a * 2 ^ (b % 32).toNat
    | .OP_SHR => a / 2 ^ (b % 32).toNat
    | .OP_LSR => ((to_unsigned a / 2 ^ (b % 32).toNat : Nat) : Int)
    | _ => 0

/-! ## Compile-time evaluation of conditions -/

/-- The doubles of the binary64 format among the values of Double. -/
def is_binary64 : Double → Prop
  | .fin _ m e => m < 2 ^ 53 ∧ -1074 ≤ e ∧ e ≤ 971
  | _ => True

/-- The function evaluate_n_n: compare a with b according to the relational operator
op, which arrives as the int value of an enumerator; any other value takes the default
branch. -/
def evaluate_n_n (a : Double) (op : Int) (b : Double) : Int :=
  if op = pir_rel_operator.OP_NE.val then b2i (d_ne a b)
  else if op = pir_rel_operator.OP_EQ.val then b2i (d_eq a b)
  else if op = pir_rel_operator.OP_LT.val then b2i (d_lt a b)
  else if op = pir_rel_operator.OP_LE.val then b2i (d_le a b)
  else if op = pir_rel_operator.OP_GT.val then b2i (d_gt a b)
  else if op = pir_rel_operator.OP_GE.val then b2i (d_ge a b)
  else 0

/-- The function evaluate_i_i: wrapper for evaluate_n_n; both ints are converted to
double by the call. -/
def evaluate_i_i (a : Int) (op : Int) (b : Int) : Int :=
  evaluate_n_n (Double.of_int a) op (Double.of_int b)

/-- The function evaluate_n_i: wrapper for evaluate_n_n; b is converted to double. -/
def evaluate_n_i (a : Double) (op : Int) (b : Int) : Int :=
  evaluate_n_n a op (Double.of_int b)

/-- The function evaluate_i_n: wrapper for evaluate_n_n; a is converted to double. -/
def evaluate_i_n (a : Int) (op : Int) (b : Double) : Int :=
  evaluate_n_n (Double.of_int a) op b

/-- The function evaluate_s: a string in boolean context. -/
def evaluate_s (s : cstring) : Int :=
  let strlen_s := strlen s
  if strlen_s > 0 then
    if strlen_s ≤ 3 then
      if strcmp s (str "0") = 0 ∨ strcmp s (str ".0") = 0
          ∨ strcmp s (str "0.") = 0 ∨ strcmp s (str "0.0") = 0 then 0
      else 1
    else 1
  else 0

/-- The function evaluate_c: a constant node in boolean context. The member of the
union that is read is the one of the type tag; reading a member that was not the one
stored has no defined result. -/
def evaluate_c (c : constant) : Except fault Int :=
  match c.type with
  | .INT_TYPE =>
      match c.val with
      | .ival i => .ok (b2i (decide (i ≠ 0)))
      | _ => .error (.undefined "read of a union member that was not stored")
  | .NUM_TYPE =>
      match c.val with
      | .nval n => .ok (b2i (d_ne n (Double.of_int 0)))
      | _ => .error (.undefined "read of a union member that was not stored")
  | .STRING_TYPE =>
      match c.val with
      | .sval s => .ok (evaluate_s s)
      | _ => .error (.undefined "read of a union member that was not stored")
  | .PMC_TYPE | .UNKNOWN_TYPE => .error (.panic "impossible constant type in evaluate_c()")

/-! ## Instructions

The types and functions of this section belong to pircompunit.c and pircompiler.h,
which the parser includes. The type of targets stays open: the parser reaches into a
target only through targets_equal, which the embedded functions take as an argument. -/

/-- Modelled from the spec: the type expression is declared in pircompunit.h, which is
not part of the sources at hand. An expression is "one of Target, Constant,
Key-as-expression"; the parser also makes expressions of identifiers, with
expr_from_ident. The constructors are named after the type tags the parser tests. -/
inductive expression (τ : Type)
  | EXPR_TARGET (t : τ)
  | EXPR_CONSTANT (c : constant)
  | EXPR_IDENT (id : cstring)
  | EXPR_KEY (k : List (expression τ))

/-- Modelled from the spec: the lexer_state of pircompiler.h, as far as the functions
embedded here use it. It holds the instruction under construction, "opcode name
(string) plus an ordered operand list", and the diagnostics reported so far. -/
structure lexer_state (τ : Type) where
  /-- the opcode name of the current instruction -/
  instr : cstring
  /-- the operands of the current instruction, in order -/
  operands : List (expression τ)
  /-- the messages reported through yyerror and pirerror, oldest first -/
  errors : List String

/-- Modelled from the spec: pirerror is not defined in pirparser.c; it reports one
diagnostic with the given message. -/
def pirerror {τ : Type} (lexer : lexer_state τ) (msg : String) : lexer_state τ :=
  { lexer with errors := lexer.errors ++ [msg] }

/-- Modelled from the spec: get_instr (pircompunit.c) gives the opcode name of the
current instruction. -/
def get_instr {τ : Type} (lexer : lexer_state τ) : cstring := lexer.instr

/-- Modelled from the spec: get_operand_count (pircompunit.c) gives the number of
operands of the current instruction. -/
def get_operand_count {τ : Type} (lexer : lexer_state τ) : Nat := lexer.operands.length

/-- Modelled from the spec: the call get_operands(lexer, 2, &x, &y) of pircompunit.c
hands out the first two operands of the current instruction ("the first two operands
are checked", says the comment of do_strength_reduction); an operand that does not
exist is a null pointer. -/
def get_operands {τ : Type} (lexer : lexer_state τ) :
    Option (expression τ) × Option (expression τ) :=
  (lexer.operands.get? 0, lexer.operands.get? 1)

/-- Modelled from the spec: remove_operand(lexer, n) of pircompunit.c takes the n-th
operand, counted from 1, out of the current instruction ("the second operand is
removed" for n = 2). -/
def remove_operand {τ : Type} (lexer : lexer_state τ) (n : Nat) : lexer_state τ :=
  { lexer with operands := lexer.operands.eraseIdx (n - 1) }

/-- Modelled from the spec: remove_all_operands (pircompunit.c) leaves the current
instruction without operands ("drop all operands"). -/
def remove_all_operands {τ : Type} (lexer : lexer_state τ) : lexer_state τ :=
  { lexer with operands := [] }

/-- Modelled from the spec: update_instr (pircompunit.c) gives the current instruction
a new opcode name ("rewrite opcode"). -/
def update_instr {τ : Type} (lexer : lexer_state τ) (name : cstring) : lexer_state τ :=
  { lexer with instr := name }

/-- Modelled from the spec: set_instr (pircompunit.c) sets the opcode name of the
current instruction. -/
def set_instr {τ : Type} (lexer : lexer_state τ) (name : cstring) : lexer_state τ :=
  { lexer with instr := name }

/-- Modelled from the spec: push_operand (pircompunit.c) adds an operand at the end of
the operand list. -/
def push_operand {τ : Type} (lexer : lexer_state τ) (e : expression τ) : lexer_state τ :=
  { lexer with operands := lexer.operands ++ [e] }

/-- Modelled from the spec: unshift_operand (pircompunit.c) adds an operand at the
front of the operand list. -/
def unshift_operand {τ : Type} (lexer : lexer_state τ) (e : expression τ) :
    lexer_state τ :=
  { lexer with operands := e :: lexer.operands }

/-- Modelled from the spec: set_instrf (pircompunit.c) sets the opcode name and appends
one operand for each item of its format string ("a small format-string-driven operand
appender"); the operands arrive here as the expressions the items stand for: a target
for T, a constant for C, an identifier for I. -/
def set_instrf {τ : Type} (lexer : lexer_state τ) (name : cstring)
    (args : List (expression τ)) : lexer_state τ :=
  args.foldl push_operand (set_instr lexer name)

/-- The element opnames[i] for an int i, as a C string. -/
def opnames_at (i : Int) : cstring := str (opnames.getD i.toNat "")

/-- The function check_value: whether the value of the constant equals val. The member
of the union that is read is the one of the type tag; a constant that is not numeric
gives 0. -/
def check_value (c : constant) (val : Int) : Except fault Int :=
  match c.type with
  | .INT_TYPE =>
      match c.val with
      | .ival i => .ok (b2i (decide (i = val)))
      | _ => .error (.undefined "read of a union member that was not stored")
  | .NUM_TYPE =>
      match c.val with
      | .nval n => .ok (b2i (d_eq n (Double.of_int val)))
      | _ => .error (.undefined "read of a union member that was not stored")
  | _ => .ok 0

/-- The function do_strength_reduction, on the current instruction of the lexer. The
two assertions on the operands it fetched end the call when they fail. -/
def do_strength_reduction {τ : Type} (targets_equal : τ → τ → Bool)
    (lexer : lexer_state τ) : Except fault (lexer_state τ) :=
  let instr := get_instr lexer
  let op : Option pir_math_operator :=
    if strcmp instr (str "add") = 0 then some .OP_ADD
    else if strcmp instr (str "sub") = 0 then some .OP_SUB
    else if strcmp instr (str "mul") = 0 then some .OP_MUL
    else if strcmp instr (str "div") = 0 then some .OP_DIV
    else if strcmp instr (str "fdiv") = 0 then some .OP_FDIV
    else none
  match op with
  | none => .ok lexer
  | some op =>
    let num_operands := get_operand_count lexer
    let reduced : lexer_state τ × Nat :=
      if num_operands > 2 then
        match get_operands lexer with
        | (some (.EXPR_TARGET t1), some (.EXPR_TARGET t2)) =>
            if targets_equal t1 t2 then (remove_operand lexer 2, num_operands - 1)
            else (lexer, num_operands)
        | _ => (lexer, num_operands)
      else (lexer, num_operands)
    let lexer1 := reduced.1
    if reduced.2 ≠ 2 then .ok lexer1
    else
      match get_operands lexer1 with
      | (some _, some arg2) =>
          match op with
          | .OP_ADD | .OP_SUB =>
              match arg2 with
              | .EXPR_CONSTANT c =>
                  match check_value c 0 with
                  | .error e => .error e
                  | .ok v0 =>
                    if v0 ≠ 0 then .ok (remove_all_operands (update_instr lexer1 (str "noop")))
                    else
                      match check_value c 1 with
                      | .error e => .error e
                      | .ok v1 =>
                        if v1 ≠ 0 then
                          .ok (remove_operand (update_instr lexer1 (opnames_at (op.val + 1))) 2)
                        else .ok lexer1
              | _ => .ok lexer1
          | .OP_MUL =>
              match arg2 with
              | .EXPR_CONSTANT c =>
                  match check_value c 0 with
                  | .error e => .error e
                  | .ok v0 =>
                    if v0 ≠ 0 then .ok (remove_operand (update_instr lexer1 (str "null")) 2)
                    else
                      match check_value c 1 with
                      | .error e => .error e
                      | .ok v1 =>
                        if v1 ≠ 0 then
                          .ok (remove_all_operands (update_instr lexer1 (str "noop")))
                        else .ok lexer1
              | _ => .ok lexer1
          | .OP_DIV | .OP_FDIV =>
              match arg2 with
              | .EXPR_CONSTANT c =>
                  match check_value c 0 with
                  | .error e => .error e
                  | .ok v0 =>
                    if v0 ≠ 0 then .ok (pirerror lexer1 "cannot divide by 0")
                    else
                      match check_value c 1 with
                      | .error e => .error e
                      | .ok v1 =>
                        if v1 ≠ 0 then
                          .ok (remove_all_operands (update_instr lexer1 (str "noop")))
                        else .ok lexer1
              | _ => .ok lexer1
          | _ => .ok lexer1
      | _ => .error (.undefined "assertion failed: arg1, arg2")

/-! ## Actions of the grammar -/

/-- The messages a fold function gave to yyerror arrive in the lexer, which is the
extra data of the scanner that the fold functions pass to yyerror. -/
def report_folded {τ : Type} (lexer : lexer_state τ) (r : Except fault folded) :
    Except fault (lexer_state τ × constant) :=
  match r with
  | .ok f => .ok ({ lexer with errors := lexer.errors ++ f.errors }, f.const)
  | .error e => .error e

/-- The action of a rule for binary_expr over two constants (cases 119 to 123 of
yyparse): set_instrf(lexer, "set", "%C", fold(...)), for the outcome of the fold
function of the rule. -/
def yyparse_binary_expr {τ : Type} (lexer : lexer_state τ) (r : Except fault folded) :
    Except fault (lexer_state τ) :=
  match report_folded lexer r with
  | .ok (lexer1, c) => .ok (set_instrf lexer1 (str "set") [.EXPR_CONSTANT c])
  | .error e => .error e

/-- Case 120 of yyparse, binary_expr: intc binop intc. -/
def yyparse_case_120 {τ : Type} (mc : machine) (uninit : Int) (lexer : lexer_state τ)
    (a : Int) (op : pir_math_operator) (b : Int) : Except fault (lexer_state τ) :=
  yyparse_binary_expr lexer (fold_i_i mc uninit a op b)

/-- Case 121 of yyparse, binary_expr: numc binop numc. -/
def yyparse_case_121 {τ : Type} (mc : machine) (uninit : Double) (lexer : lexer_state τ)
    (a : Double) (op : pir_math_operator) (b : Double) : Except fault (lexer_state τ) :=
  yyparse_binary_expr lexer (fold_n_n mc uninit a op b)

/-- Case 122 of yyparse, binary_expr: intc binop numc. -/
def yyparse_case_122 {τ : Type} (mc : machine) (uninit : Double) (lexer : lexer_state τ)
    (a : Int) (op : pir_math_operator) (b : Double) : Except fault (lexer_state τ) :=
  yyparse_binary_expr lexer (fold_i_n mc uninit a op b)

/-- Case 123 of yyparse, binary_expr: numc binop intc. -/
def yyparse_case_123 {τ : Type} (mc : machine) (uninit : Double) (lexer : lexer_state τ)
    (a : Double) (op : pir_math_operator) (b : Int) : Except fault (lexer_state τ) :=
  yyparse_binary_expr lexer (fold_n_i mc uninit a op b)

/-- Case 119 of yyparse, binary_expr: stringc binop stringc. -/
def yyparse_case_119 {τ : Type} (lexer : lexer_state τ)
    (a : cstring) (op : pir_math_operator) (b : cstring) : Except fault (lexer_state τ) :=
  yyparse_binary_expr lexer (fold_s_s a op b)

/-- Case 97 of yyparse, the assignment target = binary_expr, which runs after the
action of binary_expr: unshift_operand(lexer, expr_from_target(target)). -/
def yyparse_case_97 {τ : Type} (r : Except fault (lexer_state τ)) (t : τ) :
    Except fault (lexer_state τ) :=
  match r with
  | .ok lexer => .ok (unshift_operand lexer (.EXPR_TARGET t))
  | .error e => .error e

/-- Modelled from the spec: a target that is "a raw register (type + numeric id)",
such as the register 0 of type int. The embedded functions work for every type of
targets; this one serves where a target has to be named. -/
structure pir_register where
  /-- the type of the register -/
  type : pir_type
  /-- its number -/
  regno : Nat
  deriving DecidableEq, Repr

/-- Modelled from the spec: targets_equal on registers, "same register/symbol and same
key" for targets that have no key. -/
def registers_equal (a b : pir_register) : Bool := decide (a = b)

/-- The lexer at the start of a statement: no opcode, no operand, nothing reported. -/
def fresh_lexer : lexer_state pir_register := { instr := [], operands := [], errors := [] }

/-! ## Conditional statements -/

/-- The tokens of the rule rel_op. -/
inductive rel_op_token
  /-- the token != -/
  | TK_NE
  /-- the token == -/
  | TK_EQ
  /-- the token < -/
  | TK_LT
  /-- the token <= -/
  | TK_LE
  /-- the token >= -/
  | TK_GE
  /-- the token > -/
  | TK_GT
  deriving DecidableEq, Repr

/-- Cases 267 to 272 of yyparse, rel_op: the operator each token stands for. -/
def yyparse_rel_op : rel_op_token → pir_rel_operator
  | .TK_NE => .OP_NE
  | .TK_EQ => .OP_EQ
  | .TK_LT => .OP_LT
  | .TK_LE => .OP_LE
  | .TK_GE => .OP_GE
  | .TK_GT => .OP_GT

/-- Case 156 of yyparse, if_unless: "if"; no need to invert. -/
def yyparse_case_156 : Int := 0

/-- Case 157 of yyparse, if_unless: "unless"; yes, invert. -/
def yyparse_case_157 : Int := 1

/-- Case 151 of yyparse, condition: intc rel_op intc. -/
def yyparse_case_151 (a : Int) (op : pir_rel_operator) (b : Int) : Int :=
  evaluate_i_i a op.val b

/-- Case 152 of yyparse, condition: intc rel_op numc. -/
def yyparse_case_152 (a : Int) (op : pir_rel_operator) (b : Double) : Int :=
  evaluate_i_n a op.val b

/-- Case 153 of yyparse, condition: numc rel_op intc. -/
def yyparse_case_153 (a : Double) (op : pir_rel_operator) (b : Int) : Int :=
  evaluate_n_i a op.val b

/-- Case 154 of yyparse, condition: numc rel_op numc. -/
def yyparse_case_154 (a : Double) (op : pir_rel_operator) (b : Double) : Int :=
  evaluate_n_n a op.val b

/-- Case 155 of yyparse, condition: stringc rel_op stringc. -/
def yyparse_case_155 (a : cstring) (op : pir_rel_operator) (b : cstring) : Int :=
  evaluate_s_s a op.val b

/-- Case 146 of yyparse, conditional_instr: if_unless condition "goto" identifier. The
value -1 of the condition means that it is evaluated during runtime; invert_instr
belongs to pircompunit.c and is an argument here. -/
def yyparse_case_146 {τ : Type} (invert_instr : lexer_state τ → lexer_state τ)
    (lexer : lexer_state τ) (if_unless : Int) (condition : Int) (label : cstring) :
    lexer_state τ :=
  if condition = -1 then
    push_operand (if if_unless ≠ 0 then invert_instr lexer else lexer) (.EXPR_IDENT label)
  else
    if (condition = 0 ∧ if_unless ≠ 0) ∨ (condition = 1 ∧ ¬ (if_unless ≠ 0)) then
      set_instrf lexer (str "branch") [.EXPR_IDENT label]
    else
      set_instr lexer (str "noop")

/-- Case 134 of yyparse, conditional_instr: if_unless constant then identifier. -/
def yyparse_case_134 {τ : Type} (lexer : lexer_state τ) (if_unless : Int) (c : constant)
    (label : cstring) : Except fault (lexer_state τ) :=
  match evaluate_c c with
  | .error e => .error e
  | .ok v =>
    let istrue : Int := if if_unless ≠ 0 then b2i (decide (v = 0)) else v
    if istrue ≠ 0 then .ok (set_instrf lexer (str "branch") [.EXPR_IDENT label])
    else .ok (set_instr lexer (str "noop"))

/-- What a relational operator of the source text asks of the order its two operands
are in. Operands that are unordered (one is NaN) are unequal and nothing else. -/
def rel_holds : rel_op_token → dorder → Bool
  | .TK_NE, o => decide (o ≠ .eq)
  | .TK_EQ, o => decide (o = .eq)
  | .TK_LT, o => decide (o = .lt)
  | .TK_LE, o => decide (o = .lt ∨ o = .eq)
  | .TK_GE, o => decide (o = .gt ∨ o = .eq)
  | .TK_GT, o => decide (o = .gt)

/-- The order of two strings: the lexicographic order of their bytes. -/
def string_order (a b : cstring) : dorder :=
  if List.Lex (fun x y : Nat => x < y) a b then .lt
  else if a = b then .eq
  else .gt

/-- The text of a C string, as the format item %s prints it. -/
def cstring_text (s : cstring) : String := String.mk (s.map Char.ofNat)

/-- Modelled from the spec: yyerror on the lexer, which is not defined in pirparser.c;
the message joins the diagnostics reported so far. -/
def lexer_yyerror {τ : Type} (lexer : lexer_state τ) (msg : String) : lexer_state τ :=
  { lexer with errors := lexer.errors ++ [msg] }

/-- What create_if_instr uses of the symbols, all of it from pirsymbol.c and
pircompunit.c, which are not part of the sources at hand: the type of symbols, the
lookup find_symbol in the table the lexer holds, new_symbol, and target_from_symbol. -/
structure symbol_functions (σ τ : Type) where
  /-- the call find_symbol(lexer, name); none stands for the null pointer -/
  find_symbol : cstring → Option σ
  /-- the call new_symbol(name, type) -/
  new_symbol : cstring → pir_type → σ
  /-- the call target_from_symbol(sym) -/
  target_from_symbol : σ → τ

/-- The function create_if_instr: create an if or unless instruction, or their
variants if_null and unless_null. The format %T%I of set_instrf takes a target and an
identifier. -/
def create_if_instr {σ τ : Type} (sf : symbol_functions σ τ) (lexer : lexer_state τ)
    (invert hasnull : Int) (name label : cstring) : lexer_state τ :=
  let found : σ × lexer_state τ :=
    match sf.find_symbol name with
    | some sym => (sym, lexer)
    | none =>
        (sf.new_symbol name .UNKNOWN_TYPE,
          lexer_yyerror lexer ("symbol '" ++ cstring_text name ++ "' not declared'"))
  let sym := found.1
  let lexer1 := found.2
  if hasnull ≠ 0 then
    set_instrf lexer1 (if invert ≠ 0 then str "unless_null" else str "if_null")
      [.EXPR_TARGET (sf.target_from_symbol sym), .EXPR_IDENT label]
  else
    set_instrf lexer1 (if invert ≠ 0 then str "unless" else str "if")
      [.EXPR_TARGET (sf.target_from_symbol sym), .EXPR_IDENT label]

/-- Modelled from the spec: a symbol, by its "name" and "declared type". The embedded
functions work for every type of symbols; this one serves where one has to be named. -/
structure symbol where
  /-- the name of the symbol -/
  name : cstring
  /-- its declared type -/
  type : pir_type
  deriving DecidableEq, Repr

/-- Modelled from the spec: a target, "either a raw register (type + numeric id)" or
"a named symbol reference"; it serves where a target of a symbol has to be named. -/
inductive pir_target
  | register (r : pir_register)
  | of_symbol (s : symbol)
  deriving DecidableEq, Repr

/-- Modelled from the spec: the symbol functions over a table that is a list of
symbols; the lookup gives the first symbol of the name. -/
def table_functions (table : List symbol) : symbol_functions symbol pir_target where
  find_symbol := fun name => table.find? (fun s => decide (s.name = name))
  new_symbol := fun name type => { name := name, type := type }
  target_from_symbol := pir_target.of_symbol

/-- A constant whose union holds the member of its type tag; nothing is stored under
the tag UNKNOWN. -/
def constant.well_tagged (c : constant) : Prop :=
  match c.type, c.val with
  | .INT_TYPE, .ival _ => True
  | .NUM_TYPE, .nval _ => True
  | .STRING_TYPE, .sval _ => True
  | .PMC_TYPE, .pval _ => True
  | .UNKNOWN_TYPE, _ => True
  | _, _ => False

instance well_tagged_decidable (c : constant) : Decidable c.well_tagged := by
  unfold constant.well_tagged; split <;> infer_instance

/-! ## The parts of do_strength_reduction

The three steps of do_strength_reduction, each on its own, for the proofs about it. -/

/-- First step of do_strength_reduction: the operator of the opcode, if the opcode is
one of add, sub, mul, div and fdiv. -/
def strength_operator (instr : cstring) : Option pir_math_operator :=
  if strcmp instr (str "add") = 0 then some .OP_ADD
  else if strcmp instr (str "sub") = 0 then some .OP_SUB
  else if strcmp instr (str "mul") = 0 then some .OP_MUL
  else if strcmp instr (str "div") = 0 then some .OP_DIV
  else if strcmp instr (str "fdiv") = 0 then some .OP_FDIV
  else none

/-- Second step of do_strength_reduction: with more than two operands, the second of
two equal targets in front is removed; the lexer and the count of operands after it. -/
def strength_elide {τ : Type} (targets_equal : τ → τ → Bool) (lexer : lexer_state τ) :
    lexer_state τ × Nat :=
  if get_operand_count lexer > 2 then
    match get_operands lexer with
    | (some (.EXPR_TARGET t1), some (.EXPR_TARGET t2)) =>
        if targets_equal t1 t2 then (remove_operand lexer 2, get_operand_count lexer - 1)
        else (lexer, get_operand_count lexer)
    | _ => (lexer, get_operand_count lexer)
  else (lexer, get_operand_count lexer)

/-- The two branches that the cases of the switch share: what happens for a constant
that equals 0, what for one that equals 1. -/
def strength_constant {τ : Type} (lexer1 : lexer_state τ) (c : constant)
    (on_zero on_one : lexer_state τ) : Except fault (lexer_state τ) :=
  match check_value c 0 with
  | .error e => .error e
  | .ok v0 =>
    if v0 ≠ 0 then .ok on_zero
    else
      match check_value c 1 with
      | .error e => .error e
      | .ok v1 => if v1 ≠ 0 then .ok on_one else .ok lexer1

/-- Third step of do_strength_reduction: the switch on the operator, for an instruction
of two operands whose second is arg2. -/
def strength_switch {τ : Type} (op : pir_math_operator) (lexer1 : lexer_state τ)
    (arg2 : expression τ) : Except fault (lexer_state τ) :=
  match arg2 with
  | .EXPR_CONSTANT c =>
      match op with
      | .OP_ADD | .OP_SUB =>
          strength_constant lexer1 c (remove_all_operands (update_instr lexer1 (str "noop")))
            (remove_operand (update_instr lexer1 (opnames_at (op.val + 1))) 2)
      | .OP_MUL =>
          strength_constant lexer1 c (remove_operand (update_instr lexer1 (str "null")) 2)
            (remove_all_operands (update_instr lexer1 (str "noop")))
      | .OP_DIV | .OP_FDIV =>
          strength_constant lexer1 c (pirerror lexer1 "cannot divide by 0")
            (remove_all_operands (update_instr lexer1 (str "noop")))
      | _ => .ok lexer1
  | _ => .ok lexer1

/-- The three steps put together, as do_strength_reduction runs them. -/
def strength_steps {τ : Type} (targets_equal : τ → τ → Bool) (lexer : lexer_state τ) :
    Except fault (lexer_state τ) :=
  match strength_operator (get_instr lexer) with
  | none => .ok lexer
  | some op =>
    if (strength_elide targets_equal lexer).2 ≠ 2 then
      .ok (strength_elide targets_equal lexer).1
    else
      match get_operands (strength_elide targets_equal lexer).1 with
      | (some _, some arg2) => strength_switch op (strength_elide targets_equal lexer).1 arg2
      | _ => .error (.undefined "assertion failed: arg1, arg2")

/-- The instruction a condition known at compile time leaves in the lexer: branch to
the label when it is to be taken, noop when it is not. -/
def branch_or_noop {τ : Type} (lexer : lexer_state τ) (label : cstring) (taken : Bool) :
    lexer_state τ :=
  if taken then set_instrf lexer (str "branch") [.EXPR_IDENT label]
  else set_instr lexer (str "noop")

/-- The lexer at the start of a statement, for targets of registers and symbols. -/
def fresh_lexer_targets : lexer_state pir_target :=
  { instr := [], operands := [], errors := [] }

/-! ## Statements: errors, plain instructions, assignments, local declarations -/

/-- The parser aborts if there are more than 10 errors (MAX_NUM_ERRORS). -/
def MAX_NUM_ERRORS : Int := 10

/-- How the action of error_stat ends. -/
inductive error_stat_outcome
  /-- the message is printed and the process exits with EXIT_FAILURE -/
  | aborted (msg : String)
  /-- the macro yyerrok runs and parsing goes on -/
  | resumed
  deriving DecidableEq, Repr

/-- Case 73 of yyparse, error_stat: error "\n", for the count lexer->parse_errors. -/
def yyparse_case_73 (parse_errors : Int) : error_stat_outcome :=
  if parse_errors > MAX_NUM_ERRORS then .aborted "Too many errors. Compilation aborted.\n"
  else .resumed

/-- Case 78 of yyparse, parrot_op: "identifier". -/
def yyparse_case_78 {τ : Type} (lexer : lexer_state τ) (ident : cstring) : lexer_state τ :=
  set_instr lexer ident

/-- Case 86 of yyparse, op_arg: expression. -/
def yyparse_case_86 {τ : Type} (lexer : lexer_state τ) (e : expression τ) : lexer_state τ :=
  push_operand lexer e

/-- Case 79 of yyparse, opt_op_args: op_args, which runs when the operands of a plain
instruction are in the lexer. The function is_parrot_op is not part of the sources at
hand and is an argument. -/
def yyparse_case_79 {τ : Type} (is_parrot_op : cstring → Bool)
    (targets_equal : τ → τ → Bool) (lexer : lexer_state τ) : Except fault (lexer_state τ) :=
  let instr := get_instr lexer
  if !is_parrot_op instr then
    .ok (lexer_yyerror lexer ("'" ++ cstring_text instr ++ "' is not a parrot instruction"))
  else do_strength_reduction targets_equal lexer

/-- Case 106 of yyparse, assignment: target "+=" intc. The format item %i of set_instrf
takes an int, which becomes an int constant. -/
def yyparse_case_106 {τ : Type} (lexer : lexer_state τ) (t : τ) (n : Int) : lexer_state τ :=
  if n = 1 then set_instrf lexer (str "inc") [.EXPR_TARGET t]
  else if n = 0 then set_instr lexer (str "noop")
  else set_instrf lexer (str "add")
    [.EXPR_TARGET t, .EXPR_CONSTANT (new_const .INT_TYPE (.ival n))]

/-- Case 107 of yyparse, assignment: target "+=" numc. The format item %n of set_instrf
takes a double, which becomes a num constant. -/
def yyparse_case_107 {τ : Type} (lexer : lexer_state τ) (t : τ) (n : Double) :
    lexer_state τ :=
  if d_eq n (Double.of_int 1) then set_instrf lexer (str "inc") [.EXPR_TARGET t]
  else if d_eq n (Double.of_int 0) then set_instr lexer (str "noop")
  else set_instrf lexer (str "add")
    [.EXPR_TARGET t, .EXPR_CONSTANT (new_const .NUM_TYPE (.nval n))]

/-- Case 108 of yyparse, assignment: target "-=" intc. -/
def yyparse_case_108 {τ : Type} (lexer : lexer_state τ) (t : τ) (n : Int) : lexer_state τ :=
  if n = 1 then set_instrf lexer (str "dec") [.EXPR_TARGET t]
  else if n = 0 then set_instr lexer (str "noop")
  else set_instrf lexer (str "sub")
    [.EXPR_TARGET t, .EXPR_CONSTANT (new_const .INT_TYPE (.ival n))]

/-- Case 109 of yyparse, assignment: target "-=" numc. -/
def yyparse_case_109 {τ : Type} (lexer : lexer_state τ) (t : τ) (n : Double) :
    lexer_state τ :=
  if d_eq n (Double.of_int 1) then set_instrf lexer (str "dec") [.EXPR_TARGET t]
  else if d_eq n (Double.of_int 0) then set_instr lexer (str "noop")
  else set_instrf lexer (str "sub")
    [.EXPR_TARGET t, .EXPR_CONSTANT (new_const .NUM_TYPE (.nval n))]

/-- Case 113 of yyparse, assignment: target '=' target binop target. -/
def yyparse_case_113 {τ : Type} (targets_equal : τ → τ → Bool) (lexer : lexer_state τ)
    (t a : τ) (op : pir_math_operator) (b : τ) : lexer_state τ :=
  if targets_equal t a then
    set_instrf lexer (opnames_at op.val) [.EXPR_TARGET t, .EXPR_TARGET b]
  else
    set_instrf lexer (opnames_at op.val) [.EXPR_TARGET t, .EXPR_TARGET a, .EXPR_TARGET b]

/-- The instruction set with a target and the constant of a fold outcome, in a lexer
that also got the reports of the fold. -/
def set_folded {τ : Type} (lexer : lexer_state τ) (t : τ) (f : folded) : lexer_state τ :=
  { instr := str "set", operands := [.EXPR_TARGET t, .EXPR_CONSTANT f.const],
    errors := lexer.errors ++ f.errors }

/-- Modelled from the spec: a symbol of the symbol table, which pirsymbol.h declares
and the sources at hand do not hold: "name, declared type, allocated register id,
unique register flag". -/
structure declared_symbol where
  /-- the name -/
  name : cstring
  /-- the declared type -/
  type : pir_type
  /-- the allocated register id -/
  color : Int
  /-- the unique register flag -/
  unique_reg : Bool
  deriving DecidableEq, Repr

/-- An identifier of a .local directive with its flag, before the directive declares
it: what new_local is called with. -/
structure local_id where
  /-- the name -/
  name : cstring
  /-- whether :unique_reg was given -/
  has_unique_reg : Int
  deriving DecidableEq, Repr

/-- Modelled from the spec: new_local (pirsymbol.c) makes the entry of an identifier
for the list of a .local directive. -/
def new_local (name : cstring) (has_unique_reg : Int) : local_id :=
  { name := name, has_unique_reg := has_unique_reg }

/-- Modelled from the spec: add_local (pirsymbol.c) puts an entry into the list of a
.local directive; the list keeps the order of the source. -/
def add_local (list : List local_id) (id : local_id) : List local_id := list ++ [id]

/-- Modelled from the spec: the lookup of the symbol table (find_symbol of
pirsymbol.c), "lookup(name) -> Option<Symbol>", which "never mutates state": the
symbol of that name in the table of the subroutine. -/
def symbol_lookup (table : List declared_symbol) (name : cstring) : Option declared_symbol :=
  table.find? (fun s => decide (s.name = name))

/-- Modelled from the spec: the declaration of one name, "declare(name, type, flags) ->
Symbol | Error(DuplicateSymbol)". "Declaration order is insertion order", and
"redeclaration is an error but does not replace the existing symbol". How the
register id is allocated is left to the argument next_register. -/
def declare_symbol (next_register : List declared_symbol → pir_type → Int)
    (table : List declared_symbol) (type : pir_type) (id : local_id) : List declared_symbol :=
  match symbol_lookup table id.name with
  | some _ => table
  | none =>
      table ++ [{ name := id.name, type := type, color := next_register table type,
                  unique_reg := decide (id.has_unique_reg ≠ 0) }]

/-- Modelled from the spec: declare_local (pirsymbol.c) declares the names of a list
with their type, one after the other. -/
def declare_local (next_register : List declared_symbol → pir_type → Int)
    (table : List declared_symbol) (type : pir_type) (list : List local_id) :
    List declared_symbol :=
  list.foldl (fun tb id => declare_symbol next_register tb type id) table

/-- Case 165 of yyparse, local_var_name: identifier. The symbol table that find_symbol
searches is an argument next to the lexer. -/
def yyparse_case_165 {τ : Type} (table : List declared_symbol) (lexer : lexer_state τ)
    (ident : cstring) : lexer_state τ × cstring :=
  match symbol_lookup table ident with
  | some _ =>
      (lexer_yyerror lexer ("symbol '" ++ cstring_text ident ++ "' is already declared"),
        ident)
  | none => (lexer, ident)

/-- Case 164 of yyparse, local_id: local_var_name has_unique_reg. -/
def yyparse_case_164 (name : cstring) (has_unique_reg : Int) : local_id :=
  new_local name has_unique_reg

/-- Case 162 of yyparse, local_id_list: local_id. -/
def yyparse_case_162 (id : local_id) : List local_id := [id]

/-- Case 163 of yyparse, local_id_list: local_id_list ',' local_id. -/
def yyparse_case_163 (list : List local_id) (id : local_id) : List local_id :=
  add_local list id

/-- Case 161 of yyparse, local_decl: ".local" type local_id_list "\n". -/
def yyparse_case_161 (next_register : List declared_symbol → pir_type → Int)
    (table : List declared_symbol) (type : pir_type) (list : List local_id) :
    List declared_symbol :=
  declare_local next_register table type list

/-- The directive .local with one name, from the identifier to the declaration: the
lexer and the symbol table after it. -/
def local_decl_one {τ : Type} (next_register : List declared_symbol → pir_type → Int)
    (table : List declared_symbol) (lexer : lexer_state τ) (type : pir_type)
    (ident : cstring) (has_unique_reg : Int) : lexer_state τ × List declared_symbol :=
  let named := yyparse_case_165 table lexer ident
  let list := yyparse_case_162 (yyparse_case_164 named.2 has_unique_reg)
  (named.1, yyparse_case_161 next_register table type list)

/-- Whether an operand list has four operands or more of which the first three are
targets, the first equal to the second and to the third under targets_equal: the
lists from which two runs of do_strength_reduction each take an operand. -/
def three_equal_targets {τ : Type} (targets_equal : τ → τ → Bool) :
    List (expression τ) → Bool
  | .EXPR_TARGET t1 :: .EXPR_TARGET t2 :: .EXPR_TARGET t3 :: _ :: _ =>
      targets_equal t1 t2 && targets_equal t1 t3
  | _ => false

/-! ## Lemmas on the C operations -/

/-- A result inside the range of int is left alone by the reduction. -/
theorem wrap_int_of_is_int (x : Int) (h : is_int x) : wrap_int x = x := by
  unfold is_int INT_MIN INT_MAX at h
  unfold wrap_int
  omega

/-- Reading a buffer that holds the bytes of a C string and then a NUL gives back the
string. -/
theorem string_at_append_nul (s : cstring) (rest : List Nat) (h : is_cstring s) :
    string_at (s ++ 0 :: rest) = s := by
  induction s with
  | nil => simp [string_at]
  | cons x xs ih =>
      have hx : x ≠ 0 := by
        have := (h x (List.mem_cons_self x xs)).1
        omega
      have hxs : is_cstring xs := fun y hy => h y (List.mem_cons_of_mem x hy)
      have ih2 := ih hxs
      simp only [string_at] at ih2 ⊢
      have hne : (x != 0) = true := by simpa using hx
      simp [List.takeWhile, hne, ih2]

/-- The two calls of strcpy in concat_strings stay inside the new buffer, and the
buffer then holds a, b and a NUL. -/
theorem concat_strings_eq (a b : cstring) (ha : is_cstring a) (hb : is_cstring b) :
    concat_strings a b = some (a ++ b) := by
  have h1 : strcpy (calloc (strlen a + strlen b + 1)) 0 a
      = some (a ++ [0] ++ List.replicate (strlen b) 0) := by
    simp [strcpy, calloc, strlen]
  have h2 : strcpy (a ++ [0] ++ List.replicate (strlen b) 0) (strlen a) b
      = some (a ++ (b ++ [0])) := by
    simp [strcpy, strlen]
    omega
  have hab : is_cstring (a ++ b) := by
    intro x hx
    rcases List.mem_append.mp hx with h | h
    · exact ha x h
    · exact hb x h
  simp only [concat_strings, h1, h2]
  have := string_at_append_nul (a ++ b) [] hab
  simpa using this

/-! ## Folding of two ints and of two strings -/

/-- C1: for 32 bit ints a and b, fold_i_i returns without reporting anything the
constant tagged INT whose value is a + b for OP_ADD, a - b for OP_SUB and a * b for
OP_MUL, each time the mathematical result is an int. -/
theorem fold_i_i_add_sub_mul (mc : machine) (uninit a b : Int)
    (ha : is_int a) (hb : is_int b) :
    (is_int (a + b) → fold_i_i mc uninit a .OP_ADD b
        = .ok { const := new_const .INT_TYPE (.ival (a + b)), errors := [] }) ∧
    (is_int (a - b) → fold_i_i mc uninit a .OP_SUB b
        = .ok { const := new_const .INT_TYPE (.ival (a - b)), errors := [] }) ∧
    (is_int (a * b) → fold_i_i mc uninit a .OP_MUL b
        = .ok { const := new_const .INT_TYPE (.ival (a * b)), errors := [] }) := by
  have _ := ha
  have _ := hb
  refine ⟨fun h => ?_, fun h => ?_, fun h => ?_⟩ <;>
    simp [fold_i_i, set_result, Except.map, wrap_int_of_is_int _ h]

/-- C1 at 3 and 5: the three results are the ints 8, -2 and 15. -/
theorem fold_i_i_add_sub_mul_witness :
    is_int 3 ∧ is_int 5 ∧
    fold_i_i exact_machine 0 3 .OP_ADD 5
      = .ok { const := new_const .INT_TYPE (.ival 8), errors := [] } ∧
    fold_i_i exact_machine 0 3 .OP_SUB 5
      = .ok { const := new_const .INT_TYPE (.ival (-2)), errors := [] } ∧
    fold_i_i exact_machine 0 3 .OP_MUL 5
      = .ok { const := new_const .INT_TYPE (.ival 15), errors := [] } :=
  ⟨by decide, by decide,
   (fold_i_i_add_sub_mul exact_machine 0 3 5 (by decide) (by decide)).1 (by decide),
   (fold_i_i_add_sub_mul exact_machine 0 3 5 (by decide) (by decide)).2.1 (by decide),
   (fold_i_i_add_sub_mul exact_machine 0 3 5 (by decide) (by decide)).2.2 (by decide)⟩

/-- C2: for C strings a and b, fold_s_s with OP_CONCAT returns without reporting
anything the constant tagged STRING whose value is the bytes of a followed by the
bytes of b, of length strlen a + strlen b. -/
theorem fold_s_s_concat (a b : cstring) (ha : is_cstring a) (hb : is_cstring b) :
    fold_s_s a .OP_CONCAT b
      = .ok { const := new_const .STRING_TYPE (.sval (a ++ b)), errors := [] } ∧
    strlen (a ++ b) = strlen a + strlen b := by
  constructor
  · simp [fold_s_s, concat_strings_eq a b ha hb]
  · simp [strlen]

/-- C2 at "a" and "b": the result is the string "ab". -/
theorem fold_s_s_concat_witness :
    is_cstring (str "a") ∧ is_cstring (str "b") ∧
    fold_s_s (str "a") .OP_CONCAT (str "b")
      = .ok { const := new_const .STRING_TYPE (.sval (str "ab")), errors := [] } :=
  ⟨by decide, by decide, (fold_s_s_concat (str "a") (str "b") (by decide) (by decide)).1⟩

/-- For every pair of strings and each of the six operators iseq, isle, islt, isge,
isgt and isne, fold_s_s returns the int 0: evaluate_s_s is handed an enumerator of
pir_math_operator, which is none of the cases of its switch. -/
theorem fold_s_s_relational_zero (a b : cstring) (op : pir_math_operator)
    (h : op = .OP_ISEQ ∨ op = .OP_ISLE ∨ op = .OP_ISLT ∨ op = .OP_ISGE ∨ op = .OP_ISGT
      ∨ op = .OP_ISNE) :
    fold_s_s a op b = .ok { const := new_const .INT_TYPE (.ival 0), errors := [] } := by
  rcases h with h | h | h | h | h | h <;> subst h <;>
    simp [fold_s_s, evaluate_s_s, pir_math_operator.val, pir_rel_operator.val, b2i]

/-- C3, at the strings "a" and "a" and the operator OP_ISEQ: the two strings compare
equal, evaluate_s_s answers -1 to the operator value 19 it is handed, and fold_s_s
returns the int 0 where the claim has 1. -/
theorem fold_s_s_iseq_equal_strings :
    strcmp (str "a") (str "a") = 0 ∧
    evaluate_s_s (str "a") pir_math_operator.OP_ISEQ.val (str "a") = -1 ∧
    fold_s_s (str "a") .OP_ISEQ (str "a")
      = .ok { const := new_const .INT_TYPE (.ival 0), errors := [] } := by
  decide

/-- C4: for ints a and b and each of the operators iseq, isle, islt, isge, isgt and
isne, fold_i_i returns without reporting anything the int constant 1 when the
relation holds between a and b, and the int constant 0 when it does not. -/
theorem fold_i_i_relational (mc : machine) (uninit a b : Int) :
    fold_i_i mc uninit a .OP_ISEQ b
      = .ok { const := new_const .INT_TYPE (.ival (if a = b then 1 else 0)), errors := [] } ∧
    fold_i_i mc uninit a .OP_ISLE b
      = .ok { const := new_const .INT_TYPE (.ival (if a ≤ b then 1 else 0)), errors := [] } ∧
    fold_i_i mc uninit a .OP_ISLT b
      = .ok { const := new_const .INT_TYPE (.ival (if a < b then 1 else 0)), errors := [] } ∧
    fold_i_i mc uninit a .OP_ISGE b
      = .ok { const := new_const .INT_TYPE (.ival (if a ≥ b then 1 else 0)), errors := [] } ∧
    fold_i_i mc uninit a .OP_ISGT b
      = .ok { const := new_const .INT_TYPE (.ival (if a > b then 1 else 0)), errors := [] } ∧
    fold_i_i mc uninit a .OP_ISNE b
      = .ok { const := new_const .INT_TYPE (.ival (if a ≠ b then 1 else 0)), errors := [] } := by
  refine ⟨?_, ?_, ?_, ?_, ?_, ?_⟩ <;>
    simp [fold_i_i, set_result, Except.map, b2i]
/-! ## The type tag of a folded constant -/

/-- C5, at num×num: fold_n_n of 1.0, OP_ISEQ and 1.0 returns the num 1.0, a constant
whose tag is not INT. -/
theorem fold_n_n_iseq_not_int :
    fold_n_n exact_machine .nan (Double.of_int 1) .OP_ISEQ (Double.of_int 1)
      = .ok { const := new_const .NUM_TYPE (.nval (Double.of_int 1)), errors := [] } ∧
    ¬ has_tag (fold_n_n exact_machine .nan (Double.of_int 1) .OP_ISEQ (Double.of_int 1))
        .INT_TYPE := by
  decide

/-- C5 as amended: for each of the operators iseq, isle, islt, isge, isgt and isne
and all operands, the constant returned by fold_i_i and by fold_s_s carries the tag
INT, and the constant returned by fold_n_i, by fold_i_n and by fold_n_n carries the
tag NUM; the value of that num is the result of the comparison, 1 or 0, converted to
double (an int operand is converted to double before it is compared), and nothing is
reported. -/
theorem fold_relational_tags (mc : machine) (ui : Int) (ud : Double) (ai bi : Int)
    (ad bd : Double) (sa sb : cstring) (op : pir_math_operator)
    (h : op = .OP_ISEQ ∨ op = .OP_ISLE ∨ op = .OP_ISLT ∨ op = .OP_ISGE ∨ op = .OP_ISGT
      ∨ op = .OP_ISNE) :
    (has_tag (fold_i_i mc ui ai op bi) .INT_TYPE ∧
      has_tag (fold_s_s sa op sb) .INT_TYPE ∧
      has_tag (fold_n_i mc ud ad op bi) .NUM_TYPE ∧
      has_tag (fold_i_n mc ud ai op bd) .NUM_TYPE ∧
      has_tag (fold_n_n mc ud ad op bd) .NUM_TYPE) ∧
    (fold_n_n mc ud ad .OP_ISEQ bd
        = .ok { const := new_const .NUM_TYPE (.nval (Double.of_int (b2i (d_eq ad bd)))),
                errors := [] } ∧
      fold_n_n mc ud ad .OP_ISLE bd
        = .ok { const := new_const .NUM_TYPE (.nval (Double.of_int (b2i (d_le ad bd)))),
                errors := [] } ∧
      fold_n_n mc ud ad .OP_ISLT bd
        = .ok { const := new_const .NUM_TYPE (.nval (Double.of_int (b2i (d_lt ad bd)))),
                errors := [] } ∧
      fold_n_n mc ud ad .OP_ISGE bd
        = .ok { const := new_const .NUM_TYPE (.nval (Double.of_int (b2i (d_ge ad bd)))),
                errors := [] } ∧
      fold_n_n mc ud ad .OP_ISGT bd
        = .ok { const := new_const .NUM_TYPE (.nval (Double.of_int (b2i (d_gt ad bd)))),
                errors := [] } ∧
      fold_n_n mc ud ad .OP_ISNE bd
        = .ok { const := new_const .NUM_TYPE (.nval (Double.of_int (b2i (d_ne ad bd)))),
                errors := [] }) ∧
    (fold_n_i mc ud ad .OP_ISEQ bi
        = .ok { const := new_const .NUM_TYPE
                  (.nval (Double.of_int (b2i (d_eq ad (Double.of_int bi))))),
                errors := [] } ∧
      fold_n_i mc ud ad .OP_ISLE bi
        = .ok { const := new_const .NUM_TYPE
                  (.nval (Double.of_int (b2i (d_le ad (Double.of_int bi))))),
                errors := [] } ∧
      fold_n_i mc ud ad .OP_ISLT bi
        = .ok { const := new_const .NUM_TYPE
                  (.nval (Double.of_int (b2i (d_lt ad (Double.of_int bi))))),
                errors := [] } ∧
      fold_n_i mc ud ad .OP_ISGE bi
        = .ok { const := new_const .NUM_TYPE
                  (.nval (Double.of_int (b2i (d_ge ad (Double.of_int bi))))),
                errors := [] } ∧
      fold_n_i mc ud ad .OP_ISGT bi
        = .ok { const := new_const .NUM_TYPE
                  (.nval (Double.of_int (b2i (d_gt ad (Double.of_int bi))))),
                errors := [] } ∧
      fold_n_i mc ud ad .OP_ISNE bi
        = .ok { const := new_const .NUM_TYPE
                  (.nval (Double.of_int (b2i (d_ne ad (Double.of_int bi))))),
                errors := [] }) ∧
    (fold_i_n mc ud ai .OP_ISEQ bd
        = .ok { const := new_const .NUM_TYPE
                  (.nval (Double.of_int (b2i (d_eq (Double.of_int ai) bd)))),
                errors := [] } ∧
      fold_i_n mc ud ai .OP_ISLE bd
        = .ok { const := new_const .NUM_TYPE
                  (.nval (Double.of_int (b2i (d_le (Double.of_int ai) bd)))),
                errors := [] } ∧
      fold_i_n mc ud ai .OP_ISLT bd
        = .ok { const := new_const .NUM_TYPE
                  (.nval (Double.of_int (b2i (d_lt (Double.of_int ai) bd)))),
                errors := [] } ∧
      fold_i_n mc ud ai .OP_ISGE bd
        = .ok { const := new_const .NUM_TYPE
                  (.nval (Double.of_int (b2i (d_ge (Double.of_int ai) bd)))),
                errors := [] } ∧
      fold_i_n mc ud ai .OP_ISGT bd
        = .ok { const := new_const .NUM_TYPE
                  (.nval (Double.of_int (b2i (d_gt (Double.of_int ai) bd)))),
                errors := [] } ∧
      fold_i_n mc ud ai .OP_ISNE bd
        = .ok { const := new_const .NUM_TYPE
                  (.nval (Double.of_int (b2i (d_ne (Double.of_int ai) bd)))),
                errors := [] }) := by
  refine ⟨?_, ⟨rfl, rfl, rfl, rfl, rfl, rfl⟩, ⟨rfl, rfl, rfl, rfl, rfl, rfl⟩,
    ⟨rfl, rfl, rfl, rfl, rfl, rfl⟩⟩
  rcases h with h | h | h | h | h | h <;> subst h <;>
    simp [has_tag, fold_i_i, fold_s_s, fold_n_i, fold_i_n, fold_n_n, set_result,
      Except.map, new_const]

/-- C5 as amended, at the operator OP_ISLT with the operands 1 and 2, 1.0 and 2.0,
"abc" and "abd": the tags are INT, INT, NUM, NUM and NUM, and the three nums are 1.0,
as 1 is less than 2. -/
theorem fold_relational_tags_witness :
    (has_tag (fold_i_i exact_machine 0 1 .OP_ISLT 2) .INT_TYPE ∧
      has_tag (fold_s_s (str "abc") .OP_ISLT (str "abd")) .INT_TYPE ∧
      has_tag (fold_n_i exact_machine .nan (Double.of_int 1) .OP_ISLT 2) .NUM_TYPE ∧
      has_tag (fold_i_n exact_machine .nan 1 .OP_ISLT (Double.of_int 2)) .NUM_TYPE ∧
      has_tag (fold_n_n exact_machine .nan (Double.of_int 1) .OP_ISLT (Double.of_int 2))
        .NUM_TYPE) ∧
    fold_n_n exact_machine .nan (Double.of_int 1) .OP_ISLT (Double.of_int 2)
      = .ok { const := new_const .NUM_TYPE (.nval (Double.of_int 1)), errors := [] } ∧
    fold_n_i exact_machine .nan (Double.of_int 1) .OP_ISLT 2
      = .ok { const := new_const .NUM_TYPE (.nval (Double.of_int 1)), errors := [] } ∧
    fold_i_n exact_machine .nan 1 .OP_ISLT (Double.of_int 2)
      = .ok { const := new_const .NUM_TYPE (.nval (Double.of_int 1)), errors := [] } :=
  ⟨(fold_relational_tags exact_machine 0 .nan 1 2 (Double.of_int 1) (Double.of_int 2)
      (str "abc") (str "abd") .OP_ISLT (by decide)).1,
   (fold_relational_tags exact_machine 0 .nan 1 2 (Double.of_int 1) (Double.of_int 2)
      (str "abc") (str "abd") .OP_ISLT (by decide)).2.1.2.2.1,
   (fold_relational_tags exact_machine 0 .nan 1 2 (Double.of_int 1) (Double.of_int 2)
      (str "abc") (str "abd") .OP_ISLT (by decide)).2.2.1.2.2.1,
   (fold_relational_tags exact_machine 0 .nan 1 2 (Double.of_int 1) (Double.of_int 2)
      (str "abc") (str "abd") .OP_ISLT (by decide)).2.2.2.2.2.1⟩

/-- C6, at the ints 2 and 3: fold_i_i with OP_POW returns the int 8, a constant whose
tag is not NUM. -/
theorem fold_i_i_pow_not_num :
    fold_i_i exact_machine 0 2 .OP_POW 3
      = .ok { const := new_const .INT_TYPE (.ival 8), errors := [] } ∧
    ¬ has_tag (fold_i_i exact_machine 0 2 .OP_POW 3) .NUM_TYPE := by
  decide

/-- C6 as amended: for all ints a and b, fold_i_i with OP_POW returns a constant whose
tag is INT; its value is pow(a, b) converted to int. -/
theorem fold_i_i_pow_int (mc : machine) (uninit a b : Int) :
    has_tag (fold_i_i mc uninit a .OP_POW b) .INT_TYPE ∧
    fold_i_i mc uninit a .OP_POW b
      = .ok { const := new_const .INT_TYPE
                (.ival (double_to_int mc (mc.pow (Double.of_int a) (Double.of_int b)))),
              errors := [] } := by
  simp [has_tag, fold_i_i, set_result, Except.map, new_const]

/-- C7: for each of the operators add, sub, mul, div, pow and fdiv and all operands,
each of fold_n_i, fold_i_n and fold_n_n returns a constant whose tag is NUM. -/
theorem fold_num_arithmetic_tags (mc : machine) (ud : Double) (ai bi : Int)
    (ad bd : Double) (op : pir_math_operator)
    (h : op = .OP_ADD ∨ op = .OP_SUB ∨ op = .OP_MUL ∨ op = .OP_DIV ∨ op = .OP_POW
      ∨ op = .OP_FDIV) :
    has_tag (fold_n_i mc ud ad op bi) .NUM_TYPE ∧
    has_tag (fold_i_n mc ud ai op bd) .NUM_TYPE ∧
    has_tag (fold_n_n mc ud ad op bd) .NUM_TYPE := by
  by_cases hz : bi = 0 <;> by_cases hd : d_eq bd (Double.of_int 0) = true <;>
    rcases h with h | h | h | h | h | h <;> subst h <;>
    simp [has_tag, fold_n_i, fold_i_n, fold_n_n, set_result, yyerror, Except.map,
      new_const, hz, hd]

/-- C7 at the operator OP_ADD: fold_n_i of 3.0 and 5 is the num 8.0, and the folds of
3 and 5.0 and of 3.0 and 5.0 are tagged NUM as well. -/
theorem fold_num_arithmetic_tags_witness :
    fold_n_i exact_machine .nan (Double.of_int 3) .OP_ADD 5
      = .ok { const := new_const .NUM_TYPE (.nval (Double.of_int 8)), errors := [] } ∧
    has_tag (fold_n_i exact_machine .nan (Double.of_int 3) .OP_ADD 5) .NUM_TYPE ∧
    has_tag (fold_i_n exact_machine .nan 3 .OP_ADD (Double.of_int 5)) .NUM_TYPE ∧
    has_tag (fold_n_n exact_machine .nan (Double.of_int 3) .OP_ADD (Double.of_int 5))
      .NUM_TYPE :=
  ⟨by decide,
   fold_num_arithmetic_tags exact_machine .nan 3 5 (Double.of_int 3) (Double.of_int 5)
     .OP_ADD (by decide)⟩
/-! ## Division by zero -/

/-- Two integers are in the order eq exactly when they are the same. -/
theorem int_order_eq_iff (x y : Int) : int_order x y = .eq ↔ x = y := by
  unfold int_order
  by_cases h1 : x < y
  · simp [h1]; omega
  · by_cases h2 : x = y <;> simp [h1, h2]

/-- A double compares equal to zero exactly when it is one of the zeros. -/
theorem d_eq_zero_iff (b : Double) :
    d_eq b (Double.of_int 0) = true ↔ ∃ s e, b = .fin s 0 e := by
  cases b with
  | nan => simp [d_eq, Double.order, Double.of_int]
  | inf s => cases s <;> simp [d_eq, Double.order, Double.of_int]
  | fin s m e =>
      have hp : (2 : Int) ^ (e - min e 0).toNat ≠ 0 := pow_ne_zero _ (by norm_num)
      cases s <;> simp [d_eq, Double.order, Double.of_int, int_order_eq_iff, signed, hp]

/-- C8: for each of fold_i_i, fold_n_i, fold_i_n and fold_n_n and every left operand,
OP_DIV with a right operand equal to zero (the int 0, a double that compares equal to
zero) reports a divide-by-zero error. No division is performed: the constant returned
holds the content the local result had on entry, whatever the machine and the left
operand are. -/
theorem fold_div_by_zero (mc : machine) (ui : Int) (ud : Double) (ai : Int)
    (ad bd : Double) (hb : d_eq bd (Double.of_int 0) = true) :
    fold_i_i mc ui ai .OP_DIV 0
      = .ok { const := new_const .INT_TYPE (.ival ui), errors := ["cannot divide by 0!"] } ∧
    fold_n_i mc ud ad .OP_DIV 0
      = .ok { const := new_const .NUM_TYPE (.nval ud), errors := ["cannot divide by 0!"] } ∧
    fold_i_n mc ud ai .OP_DIV bd
      = .ok { const := new_const .NUM_TYPE (.nval ud), errors := ["cannot divide by 0!"] } ∧
    fold_n_n mc ud ad .OP_DIV bd
      = .ok { const := new_const .NUM_TYPE (.nval ud), errors := ["cannot divide by 0"] } := by
  simp [fold_i_i, fold_n_i, fold_i_n, fold_n_n, set_result, yyerror, Except.map, hb]

/-- C8 at the left operands 1 and 1.0 and the right operands 0 and -0.0. -/
theorem fold_div_by_zero_witness :
    d_eq (.fin true 0 0) (Double.of_int 0) = true ∧
    fold_i_i exact_machine 7 1 .OP_DIV 0
      = .ok { const := new_const .INT_TYPE (.ival 7), errors := ["cannot divide by 0!"] } ∧
    fold_n_i exact_machine .nan (Double.of_int 1) .OP_DIV 0
      = .ok { const := new_const .NUM_TYPE (.nval .nan), errors := ["cannot divide by 0!"] } ∧
    fold_i_n exact_machine .nan 1 .OP_DIV (.fin true 0 0)
      = .ok { const := new_const .NUM_TYPE (.nval .nan), errors := ["cannot divide by 0!"] } ∧
    fold_n_n exact_machine .nan (Double.of_int 1) .OP_DIV (.fin true 0 0)
      = .ok { const := new_const .NUM_TYPE (.nval .nan), errors := ["cannot divide by 0"] } :=
  ⟨by decide,
   fold_div_by_zero exact_machine 7 .nan 1 (Double.of_int 1) (.fin true 0 0) (by decide)⟩

/-- C9, at the left operand 1 and the right operand zero: with OP_FDIV, fold_i_i
divides 1 by 0 and reports nothing, fold_n_i and fold_i_n return the floor of the
quotient by zero and report nothing; only fold_n_n reports the division by zero. -/
theorem fold_fdiv_by_zero_unguarded :
    fold_i_i exact_machine 0 1 .OP_FDIV 0
      = .error (.undefined "integer division by zero") ∧
    fold_n_i exact_machine .nan (Double.of_int 1) .OP_FDIV 0
      = .ok { const := new_const .NUM_TYPE (.nval (.inf false)), errors := [] } ∧
    fold_i_n exact_machine .nan 1 .OP_FDIV (Double.of_int 0)
      = .ok { const := new_const .NUM_TYPE (.nval (.inf false)), errors := [] } ∧
    fold_n_n exact_machine .nan (Double.of_int 1) .OP_FDIV (Double.of_int 0)
      = .ok { const := new_const .NUM_TYPE (.nval .nan), errors := ["cannot divide by 0"] } := by
  decide

/-- With OP_FDIV and the right operand 0, on every machine and for every left operand:
fold_i_i ends in the division by zero, and fold_n_i and fold_i_n return
floor(a / 0.0) with an empty list of reports. -/
theorem fold_fdiv_by_zero_general (mc : machine) (ui : Int) (ud : Double) (ai : Int)
    (ad : Double) :
    fold_i_i mc ui ai .OP_FDIV 0 = .error (.undefined "integer division by zero") ∧
    fold_n_i mc ud ad .OP_FDIV 0
      = .ok { const := new_const .NUM_TYPE
                (.nval (mc.floor (mc.div ad (Double.of_int 0)))), errors := [] } ∧
    fold_i_n mc ud ai .OP_FDIV (Double.of_int 0)
      = .ok { const := new_const .NUM_TYPE
                (.nval (mc.floor (mc.div (Double.of_int ai) (Double.of_int 0)))),
              errors := [] } := by
  simp [fold_i_i, fold_n_i, fold_i_n, c_div, set_result, Except.map]

/-- C10, at the ints 1 and 0, and for every left operand: fold_i_i with OP_MOD and the
right operand 0 evaluates a % 0, which ends the call in the division by zero; nothing
is reported and no constant is returned. -/
theorem fold_i_i_mod_by_zero :
    fold_i_i exact_machine 0 1 .OP_MOD 0 = .error (.undefined "integer division by zero") ∧
    ∀ (mc : machine) (uninit a : Int),
      fold_i_i mc uninit a .OP_MOD 0 = .error (.undefined "integer division by zero") := by
  refine ⟨by decide, ?_⟩
  intro mc uninit a
  simp [fold_i_i, c_mod, Except.map]

/-! ## Lemmas on strcmp and on the comparison of doubles -/

/-- The function strcmp answers 0 exactly on equal strings. -/
theorem strcmp_eq_zero_iff (a b : cstring) : strcmp a b = 0 ↔ a = b := by
  induction a generalizing b with
  | nil => cases b <;> simp [strcmp]
  | cons x xs ih =>
      cases b with
      | nil => simp [strcmp]
      | cons y ys =>
          simp only [strcmp]
          by_cases h1 : x < y
          · simp [h1]; omega
          · by_cases h2 : y < x
            · simp [h1, h2]; omega
            · have hxy : x = y := by omega
              simp [h1, h2, ih ys, hxy]

/-- The function strcmp answers a negative number exactly when the first string comes
before the second in the lexicographic order of their bytes. -/
theorem strcmp_neg_iff (a b : cstring) :
    strcmp a b < 0 ↔ List.Lex (fun x y : Nat => x < y) a b := by
  induction a generalizing b with
  | nil =>
      cases b with
      | nil => simp [strcmp]
      | cons y ys => simp [strcmp]; exact List.Lex.nil
  | cons x xs ih =>
      cases b with
      | nil => simp [strcmp]
      | cons y ys =>
          simp only [strcmp]
          by_cases h1 : x < y
          · simp only [h1, if_true]
            constructor
            · intro _; exact List.Lex.rel h1
            · intro _; omega
          · by_cases h2 : y < x
            · simp only [h1, h2, if_false, if_true]
              constructor
              · intro h; omega
              · intro h
                cases h with
                | cons h3 => omega
                | rel h3 => exact absurd h3 h1
            · have hxy : x = y := by omega
              subst hxy
              simp only [h1, if_false]
              rw [ih ys]
              constructor
              · intro h; exact List.Lex.cons h
              · intro h
                cases h with
                | cons h3 => exact h3
                | rel h3 => exact absurd h3 h1

/-- Swapping the arguments of strcmp changes the sign of its answer. -/
theorem strcmp_swap (a b : cstring) : strcmp b a = - strcmp a b := by
  induction a generalizing b with
  | nil => cases b <;> simp [strcmp]
  | cons x xs ih =>
      cases b with
      | nil => simp [strcmp]
      | cons y ys =>
          simp only [strcmp]
          by_cases h1 : x < y
          · have h2 : ¬ y < x := by omega
            simp [h1, h2]
          · by_cases h2 : y < x
            · simp [h1, h2]
            · simp [h1, h2, ih ys]

/-- The function strcmp answers a positive number exactly when the second string comes
before the first. -/
theorem strcmp_pos_iff (a b : cstring) :
    0 < strcmp a b ↔ List.Lex (fun x y : Nat => x < y) b a := by
  rw [← strcmp_neg_iff b a, strcmp_swap a b]
  omega

/-- The sign carries the integer it was taken from. -/
theorem signed_natAbs (i : Int) : signed (decide (i < 0)) i.natAbs = i := by
  unfold signed
  by_cases h : i < 0
  · simp only [h, decide_True, if_true]; omega
  · simp only [h, decide_False]; simp only [Bool.false_eq_true, if_false]; omega

/-- Two ints converted to double are in the order the ints are in. -/
theorem order_of_int (a b : Int) :
    (Double.of_int a).order (Double.of_int b) = int_order a b := by
  simp [Double.of_int, Double.order, signed_natAbs]

/-- An int converted to double is a number of the binary64 format. -/
theorem of_int_is_binary64 (a : Int) (h : is_int a) : is_binary64 (Double.of_int a) := by
  unfold is_int INT_MIN INT_MAX at h
  simp only [Double.of_int, is_binary64]
  refine ⟨?_, by norm_num, by norm_num⟩
  omega

/-- The int of a C truth value is 1 exactly for true. -/
theorem b2i_eq_one_iff (c : Bool) : b2i c = 1 ↔ c = true := by
  cases c <;> simp [b2i]

/-- The int of a C truth value is 0 exactly for false. -/
theorem b2i_eq_zero_iff (c : Bool) : b2i c = 0 ↔ c = false := by
  cases c <;> simp [b2i]

/-- The truncated quotient of two integers whose product is not negative is not
negative. -/
theorem tdiv_nonneg_of_mul_nonneg (a b : Int) (h : 0 ≤ a * b) : 0 ≤ Int.tdiv a b := by
  rcases le_total 0 a with ha | ha <;> rcases le_total 0 b with hb | hb
  · exact Int.tdiv_nonneg ha hb
  · have h0 : a * b = 0 := le_antisymm (by nlinarith) h
    rcases mul_eq_zero.mp h0 with h1 | h1 <;> simp [h1]
  · have h0 : a * b = 0 := le_antisymm (by nlinarith) h
    rcases mul_eq_zero.mp h0 with h1 | h1 <;> simp [h1]
  · have := Int.tdiv_nonneg (neg_nonneg.mpr ha) (neg_nonneg.mpr hb)
    rwa [Int.neg_tdiv, Int.tdiv_neg, neg_neg] at this

/-- The truncated quotient of two integers whose product is not positive is not
positive. -/
theorem tdiv_nonpos_of_mul_nonpos (a b : Int) (h : a * b ≤ 0) : Int.tdiv a b ≤ 0 := by
  have h2 : 0 ≤ (-a) * b := by nlinarith
  have := tdiv_nonneg_of_mul_nonneg (-a) b h2
  rw [Int.neg_tdiv] at this
  omega

/-! ## Folding: floor division of ints, operators the num pairs reject -/

/-- C12: for 32 bit ints a and b with b ≠ 0, the pair INT_MIN, -1 left out, fold_i_i
with OP_FDIV returns without reporting anything the constant tagged INT whose value is
a / b truncated toward zero: the quotient of the magnitudes, taken down, with the sign
of the exact quotient. -/
theorem fold_i_i_fdiv (mc : machine) (uninit a b : Int) (ha : is_int a) (hb : is_int b)
    (hb0 : b ≠ 0) (hov : ¬ (a = INT_MIN ∧ b = -1)) :
    fold_i_i mc uninit a .OP_FDIV b
      = .ok { const := new_const .INT_TYPE (.ival (Int.tdiv a b)), errors := [] } ∧
    (Int.tdiv a b).natAbs = a.natAbs / b.natAbs ∧
    (0 ≤ a * b → 0 ≤ Int.tdiv a b) ∧ (a * b ≤ 0 → Int.tdiv a b ≤ 0) := by
  have _ := ha
  have _ := hb
  refine ⟨?_, ?_, ?_, ?_⟩
  · simp [fold_i_i, c_div, set_result, Except.map, hb0, hov]
  · exact Int.natAbs_tdiv a b
  · exact tdiv_nonneg_of_mul_nonneg a b
  · exact tdiv_nonpos_of_mul_nonpos a b

/-- C12 at -7 and 2: the int -3, and at 7 and 2: the int 3. -/
theorem fold_i_i_fdiv_witness :
    (fold_i_i exact_machine 0 (-7) .OP_FDIV 2
      = .ok { const := new_const .INT_TYPE (.ival (-3)), errors := [] }) ∧
    (fold_i_i exact_machine 0 7 .OP_FDIV 2
      = .ok { const := new_const .INT_TYPE (.ival 3), errors := [] }) :=
  ⟨(fold_i_i_fdiv exact_machine 0 (-7) 2 (by decide) (by decide) (by decide) (by decide)).1,
   (fold_i_i_fdiv exact_machine 0 7 2 (by decide) (by decide) (by decide) (by decide)).1⟩

/-- C13: for each of fold_n_i, fold_i_n and fold_n_n, each of the operators bor, band,
bxor, shl, shr, lsr, xor and concat, and all operands, the error that the operator
cannot be applied is reported, with the name of the operator; the constant returned
holds the content the local result had on entry. -/
theorem fold_num_unsupported (mc : machine) (ud : Double) (ai bi : Int) (ad bd : Double)
    (op : pir_math_operator)
    (h : op = .OP_BOR ∨ op = .OP_BAND ∨ op = .OP_BXOR ∨ op = .OP_SHL ∨ op = .OP_SHR
      ∨ op = .OP_LSR ∨ op = .OP_XOR ∨ op = .OP_CONCAT) :
    fold_n_i mc ud ad op bi
      = .ok { const := new_const .NUM_TYPE (.nval ud),
              errors := ["cannot apply binary operator '" ++ opname op
                ++ "' to types 'num' and 'int'"] } ∧
    fold_i_n mc ud ai op bd
      = .ok { const := new_const .NUM_TYPE (.nval ud),
              errors := ["cannot apply binary operator '" ++ opname op
                ++ "' to types 'int' and 'num'"] } ∧
    fold_n_n mc ud ad op bd
      = .ok { const := new_const .NUM_TYPE (.nval ud),
              errors := ["cannot apply binary operator '" ++ opname op
                ++ "' to arguments of type number"] } := by
  rcases h with h | h | h | h | h | h | h | h <;> subst h <;>
    simp [fold_n_i, fold_i_n, fold_n_n, yyerror, Except.map]

/-- C13 at the operator bor and the operands 6.0 and 3. -/
theorem fold_num_unsupported_witness :
    fold_n_i exact_machine .nan (Double.of_int 6) .OP_BOR 3
      = .ok { const := new_const .NUM_TYPE (.nval .nan),
              errors := ["cannot apply binary operator 'bor' to types 'num' and 'int'"] } ∧
    fold_i_n exact_machine .nan 6 .OP_BOR (Double.of_int 3)
      = .ok { const := new_const .NUM_TYPE (.nval .nan),
              errors := ["cannot apply binary operator 'bor' to types 'int' and 'num'"] } ∧
    fold_n_n exact_machine .nan (Double.of_int 6) .OP_BOR (Double.of_int 3)
      = .ok { const := new_const .NUM_TYPE (.nval .nan),
              errors := ["cannot apply binary operator 'bor' to arguments of type number"] } :=
  fold_num_unsupported exact_machine .nan 6 3 (Double.of_int 6) (Double.of_int 3) .OP_BOR
    (by decide)

/-- C14, at the operands 7.0 and 2.0: fold_n_n with mod reports that the operator
cannot be applied and computes nothing, and so do fold_n_i and fold_i_n at 7 and 2. -/
theorem fold_num_mod_reports :
    fold_n_n exact_machine .nan (Double.of_int 7) .OP_MOD (Double.of_int 2)
      = .ok { const := new_const .NUM_TYPE (.nval .nan),
              errors := ["cannot apply binary operator 'mod' to arguments of type number"] } ∧
    fold_n_i exact_machine .nan (Double.of_int 7) .OP_MOD 2
      = .ok { const := new_const .NUM_TYPE (.nval .nan),
              errors := ["cannot apply binary operator 'mod' to types 'num' and 'int'"] } ∧
    fold_i_n exact_machine .nan 7 .OP_MOD (Double.of_int 2)
      = .ok { const := new_const .NUM_TYPE (.nval .nan),
              errors := ["cannot apply binary operator 'mod' to types 'int' and 'num'"] } := by
  decide

/-- C14 as amended: for each of the pairs num×int, int×num and num×num and every right
operand, folding mod reports that the operator cannot be applied to the pair and
computes nothing: mod is among the operators rejected for the pairs with a num. -/
theorem fold_num_mod_rejected (mc : machine) (ud : Double) (ai bi : Int) (ad bd : Double) :
    fold_n_i mc ud ad .OP_MOD bi
      = .ok { const := new_const .NUM_TYPE (.nval ud),
              errors := ["cannot apply binary operator 'mod' to types 'num' and 'int'"] } ∧
    fold_i_n mc ud ai .OP_MOD bd
      = .ok { const := new_const .NUM_TYPE (.nval ud),
              errors := ["cannot apply binary operator 'mod' to types 'int' and 'num'"] } ∧
    fold_n_n mc ud ad .OP_MOD bd
      = .ok { const := new_const .NUM_TYPE (.nval ud),
              errors := ["cannot apply binary operator 'mod' to arguments of type number"] } := by
  refine ⟨?_, ?_, ?_⟩ <;>
    simp [fold_n_i, fold_i_n, fold_n_n, yyerror, Except.map] <;> decide

/-! ## Compile-time evaluation -/

/-- Two integers are in the order lt exactly when the first is the smaller. -/
theorem int_order_lt_iff (x y : Int) : int_order x y = .lt ↔ x < y := by
  unfold int_order
  by_cases h1 : x < y
  · simp [h1]
  · by_cases h2 : x = y <;> simp [h1, h2]

/-- Two integers are in the order gt exactly when the first is the larger. -/
theorem int_order_gt_iff (x y : Int) : int_order x y = .gt ↔ y < x := by
  unfold int_order
  by_cases h1 : x < y
  · simp [h1]; omega
  · by_cases h2 : x = y
    · simp [h2]
    · simp [h1, h2]; omega


/-- C15: for 32 bit ints a and b and each relational operator, evaluate_i_i returns 1
when the relation holds between the ints and 0 when it does not. The conversion to
double inside changes nothing: both operands become numbers of the binary64 format
that are in the order the ints are in. -/
theorem evaluate_i_i_relational (a b : Int) (ha : is_int a) (hb : is_int b) :
    evaluate_i_i a pir_rel_operator.OP_NE.val b = (if a ≠ b then 1 else 0) ∧
    evaluate_i_i a pir_rel_operator.OP_EQ.val b = (if a = b then 1 else 0) ∧
    evaluate_i_i a pir_rel_operator.OP_LT.val b = (if a < b then 1 else 0) ∧
    evaluate_i_i a pir_rel_operator.OP_LE.val b = (if a ≤ b then 1 else 0) ∧
    evaluate_i_i a pir_rel_operator.OP_GT.val b = (if a > b then 1 else 0) ∧
    evaluate_i_i a pir_rel_operator.OP_GE.val b = (if a ≥ b then 1 else 0) ∧
    is_binary64 (Double.of_int a) ∧ is_binary64 (Double.of_int b) ∧
    (Double.of_int a).order (Double.of_int b) = int_order a b := by
  refine ⟨?_, ?_, ?_, ?_, ?_, ?_, of_int_is_binary64 a ha, of_int_is_binary64 b hb,
    order_of_int a b⟩ <;>
    simp only [evaluate_i_i, evaluate_n_n, pir_rel_operator.val, pir_math_operator.val,
      d_ne, d_eq, d_lt, d_le, d_gt, d_ge, order_of_int, b2i, int_order_eq_iff,
      int_order_lt_iff, int_order_gt_iff] <;>
    rcases lt_trichotomy a b with h | h | h
  all_goals first
    | (subst h; simp)
    | (have e1 := h.le; have e2 := h.ne; have e3 := h.ne.symm; have e4 := h.not_lt
       have e5 := not_le.mpr h
       simp [h, e1, e2, e3, e4, e5])

/-- C15 at 3 and 3 with the operator OP_GE: the answer is 1. -/
theorem evaluate_i_i_relational_witness :
    evaluate_i_i 3 pir_rel_operator.OP_GE.val 3 = 1 :=
  (evaluate_i_i_relational 3 3 (by decide) (by decide)).2.2.2.2.2.1

/-- C16: for all strings a and b and each relational operator, evaluate_s_s returns 1
when the relation holds between a and b in the lexicographic order of their bytes, and
0 when it does not. -/
theorem evaluate_s_s_relational (a b : cstring) :
    (evaluate_s_s a pir_rel_operator.OP_NE.val b = 1 ↔ a ≠ b) ∧
    (evaluate_s_s a pir_rel_operator.OP_NE.val b = 0 ↔ ¬ a ≠ b) ∧
    (evaluate_s_s a pir_rel_operator.OP_EQ.val b = 1 ↔ a = b) ∧
    (evaluate_s_s a pir_rel_operator.OP_EQ.val b = 0 ↔ ¬ a = b) ∧
    (evaluate_s_s a pir_rel_operator.OP_LT.val b = 1
      ↔ List.Lex (fun x y : Nat => x < y) a b) ∧
    (evaluate_s_s a pir_rel_operator.OP_LT.val b = 0
      ↔ ¬ List.Lex (fun x y : Nat => x < y) a b) ∧
    (evaluate_s_s a pir_rel_operator.OP_LE.val b = 1
      ↔ (List.Lex (fun x y : Nat => x < y) a b ∨ a = b)) ∧
    (evaluate_s_s a pir_rel_operator.OP_LE.val b = 0
      ↔ ¬ (List.Lex (fun x y : Nat => x < y) a b ∨ a = b)) ∧
    (evaluate_s_s a pir_rel_operator.OP_GT.val b = 1
      ↔ List.Lex (fun x y : Nat => x < y) b a) ∧
    (evaluate_s_s a pir_rel_operator.OP_GT.val b = 0
      ↔ ¬ List.Lex (fun x y : Nat => x < y) b a) ∧
    (evaluate_s_s a pir_rel_operator.OP_GE.val b = 1
      ↔ (List.Lex (fun x y : Nat => x < y) b a ∨ a = b)) ∧
    (evaluate_s_s a pir_rel_operator.OP_GE.val b = 0
      ↔ ¬ (List.Lex (fun x y : Nat => x < y) b a ∨ a = b)) := by
  have hn := strcmp_neg_iff a b
  have hp := strcmp_pos_iff a b
  have hz := strcmp_eq_zero_iff a b
  have hle : strcmp a b ≤ 0 ↔ (List.Lex (fun x y : Nat => x < y) a b ∨ a = b) := by
    rw [← hn, ← hz]; omega
  have hge : strcmp a b ≥ 0 ↔ (List.Lex (fun x y : Nat => x < y) b a ∨ a = b) := by
    rw [← hp, ← hz]; omega
  refine ⟨?_, ?_, ?_, ?_, ?_, ?_, ?_, ?_, ?_, ?_, ?_, ?_⟩ <;>
    simp only [evaluate_s_s, pir_rel_operator.val, pir_math_operator.val] <;>
    norm_num [b2i_eq_one_iff, b2i_eq_zero_iff, hn, hp, hz, hle, hge]

/-- The string "abc" comes before "abd": evaluate_s_s answers 1 to OP_LT. -/
theorem evaluate_s_s_abc_abd :
    evaluate_s_s (str "abc") pir_rel_operator.OP_LT.val (str "abd") = 1 := by
  decide

/-- The answer of evaluate_s is 0 on five lists of bytes and 1 on every other. -/
theorem evaluate_s_eq (s : cstring) :
    evaluate_s s
      = if (s = [] ∨ s = [48] ∨ s = [46, 48] ∨ s = [48, 46] ∨ s = [48, 46, 48]) then 0
        else 1 := by
  have e1 : str "0" = [48] := by decide
  have e2 : str ".0" = [46, 48] := by decide
  have e3 : str "0." = [48, 46] := by decide
  have e4 : str "0.0" = [48, 46, 48] := by decide
  simp only [evaluate_s, strcmp_eq_zero_iff, e1, e2, e3, e4, strlen]
  by_cases h0 : s = []
  · simp [h0]
  · have hpos : s.length > 0 := List.length_pos.mpr h0
    by_cases h3 : s.length ≤ 3
    · simp [hpos, h3, h0]
    · have hne : ¬ (s = [48] ∨ s = [46, 48] ∨ s = [48, 46] ∨ s = [48, 46, 48]) := by
        rintro (h | h | h | h) <;> (rw [h] at h3; simp at h3)
      simp [hpos, h3, h0, hne]

/-- C17: evaluate_s returns 0 exactly on the five strings "", "0", ".0", "0." and
"0.0", and 1 on every other string, among them "00" and every string of more than
three bytes; the answer depends on nothing but whether the string is one of the five,
so the test of the length changes no result. -/
theorem evaluate_s_false_iff (s : cstring) :
    (evaluate_s s = 0 ↔
      (s = str "" ∨ s = str "0" ∨ s = str ".0" ∨ s = str "0." ∨ s = str "0.0")) ∧
    (evaluate_s s = 1 ↔
      ¬ (s = str "" ∨ s = str "0" ∨ s = str ".0" ∨ s = str "0." ∨ s = str "0.0")) ∧
    (3 < strlen s → evaluate_s s = 1) ∧
    evaluate_s (str "00") = 1 := by
  have e0 : str "" = [] := by decide
  have e1 : str "0" = [48] := by decide
  have e2 : str ".0" = [46, 48] := by decide
  have e3 : str "0." = [48, 46] := by decide
  have e4 : str "0.0" = [48, 46, 48] := by decide
  have key := evaluate_s_eq s
  refine ⟨?_, ?_, ?_, by decide⟩
  · rw [key, e0, e1, e2, e3, e4]
    split_ifs with h <;> simp [h]
  · rw [key, e0, e1, e2, e3, e4]
    split_ifs with h <;> simp [h]
  · intro h
    rw [key]
    have hne : ¬ (s = [] ∨ s = [48] ∨ s = [46, 48] ∨ s = [48, 46] ∨ s = [48, 46, 48]) := by
      rintro (h1 | h1 | h1 | h1 | h1) <;> (rw [h1] at h; simp [strlen] at h)
    simp [hne]

/-- C18: evaluate_c returns 1 for a constant tagged INT or NUM exactly when its value
is not zero (a double is zero when it is one of the two zeros), 0 otherwise, and for a
constant tagged STRING what evaluate_s returns for its string. So 0 and 0.0 are false
and -1 is true. -/
theorem evaluate_c_truth (i : Int) (n : Double) (s : cstring) :
    evaluate_c (new_const .INT_TYPE (.ival i)) = .ok (if i ≠ 0 then 1 else 0) ∧
    (evaluate_c (new_const .NUM_TYPE (.nval n)) = .ok 1 ↔ ¬ ∃ sg e, n = .fin sg 0 e) ∧
    (evaluate_c (new_const .NUM_TYPE (.nval n)) = .ok 0 ↔ ∃ sg e, n = .fin sg 0 e) ∧
    evaluate_c (new_const .STRING_TYPE (.sval s)) = .ok (evaluate_s s) ∧
    evaluate_c (new_const .INT_TYPE (.ival 0)) = .ok 0 ∧
    evaluate_c (new_const .NUM_TYPE (.nval (Double.of_int 0))) = .ok 0 ∧
    evaluate_c (new_const .INT_TYPE (.ival (-1))) = .ok 1 := by
  have hz := d_eq_zero_iff n
  refine ⟨?_, ?_, ?_, ?_, by decide, by decide, by decide⟩
  · by_cases h : i = 0 <;> simp [evaluate_c, new_const, b2i, h]
  · rw [← hz]
    simp [evaluate_c, new_const, b2i_eq_one_iff, d_ne]
  · rw [← hz]
    simp [evaluate_c, new_const, b2i_eq_zero_iff, d_ne]
  · simp [evaluate_c, new_const]

/-- C19: evaluate_c ends in the call of panic exactly when the type tag of the constant
is PMC or UNKNOWN; for a constant tagged INT, NUM or STRING that holds a value of its
type it returns the truth value 0 or 1. -/
theorem evaluate_c_panic_iff (c : constant) (i : Int) (n : Double) (s : cstring) :
    ((∃ msg, evaluate_c c = .error (.panic msg))
      ↔ (c.type = .PMC_TYPE ∨ c.type = .UNKNOWN_TYPE)) ∧
    (evaluate_c (new_const .INT_TYPE (.ival i)) = .ok 0
      ∨ evaluate_c (new_const .INT_TYPE (.ival i)) = .ok 1) ∧
    (evaluate_c (new_const .NUM_TYPE (.nval n)) = .ok 0
      ∨ evaluate_c (new_const .NUM_TYPE (.nval n)) = .ok 1) ∧
    (evaluate_c (new_const .STRING_TYPE (.sval s)) = .ok 0
      ∨ evaluate_c (new_const .STRING_TYPE (.sval s)) = .ok 1) := by
  refine ⟨?_, ?_, ?_, ?_⟩
  · rcases c with ⟨t, v⟩
    cases t <;> cases v <;> simp [evaluate_c]
  · by_cases h : i = 0 <;> simp [evaluate_c, new_const, b2i, h]
  · cases h : d_ne n (Double.of_int 0) <;> simp [evaluate_c, new_const, b2i, h]
  · have h := evaluate_s_eq s
    by_cases h3 : (s = [] ∨ s = [48] ∨ s = [46, 48] ∨ s = [48, 46] ∨ s = [48, 46, 48])
    · left; rw [if_pos h3] at h; simp [evaluate_c, new_const, h]
    · right; rw [if_neg h3] at h; simp [evaluate_c, new_const, h]

/-! ## The assignment of a folded division by zero -/

/-- For every left operand, target and machine, the statement t = a / 0 over int
constants leaves the instruction set with two operands, the target and a constant
tagged INT that holds what the local result of fold_i_i held on entry, next to the
report of the division by zero. -/
theorem assign_div_by_zero_general {τ : Type} (mc : machine) (uninit a : Int)
    (lexer : lexer_state τ) (t : τ) (h : lexer.operands = []) :
    yyparse_case_97 (yyparse_case_120 mc uninit lexer a .OP_DIV 0) t
      = .ok { instr := str "set",
              operands := [.EXPR_TARGET t, .EXPR_CONSTANT (new_const .INT_TYPE (.ival uninit))],
              errors := lexer.errors ++ ["cannot divide by 0!"] } := by
  simp [yyparse_case_97, yyparse_case_120, yyparse_binary_expr, report_folded, fold_i_i,
    yyerror, Except.map, set_instrf, set_instr, push_operand, unshift_operand, h]

/-- C11, at the statement that assigns 1 / 0 to the int register 0: fold_i_i reports
the division by zero and returns a constant all the same, tagged INT and holding what
its local result held on entry (here 7), and the instruction set is emitted with the
register and that constant as operands. -/
theorem assign_div_by_zero_emits_set :
    fold_i_i exact_machine 7 1 .OP_DIV 0
      = .ok { const := new_const .INT_TYPE (.ival 7), errors := ["cannot divide by 0!"] } ∧
    yyparse_case_97 (yyparse_case_120 exact_machine 7 fresh_lexer 1 .OP_DIV 0)
        { type := .INT_TYPE, regno := 0 }
      = .ok { instr := str "set",
              operands := [.EXPR_TARGET { type := .INT_TYPE, regno := 0 },
                           .EXPR_CONSTANT (new_const .INT_TYPE (.ival 7))],
              errors := ["cannot divide by 0!"] } :=
  ⟨rfl, rfl⟩

/-! ## Strength reduction -/

/-- The opcode names that do_strength_reduction looks at lead to their operator. -/
theorem strength_reduction_operator (instr : cstring)
    (h : instr = str "add" ∨ instr = str "sub" ∨ instr = str "mul" ∨ instr = str "div"
      ∨ instr = str "fdiv") :
    ∃ op : pir_math_operator,
      (if strcmp instr (str "add") = 0 then some pir_math_operator.OP_ADD
        else if strcmp instr (str "sub") = 0 then some pir_math_operator.OP_SUB
        else if strcmp instr (str "mul") = 0 then some pir_math_operator.OP_MUL
        else if strcmp instr (str "div") = 0 then some pir_math_operator.OP_DIV
        else if strcmp instr (str "fdiv") = 0 then some pir_math_operator.OP_FDIV
        else none) = some op ∧
      (op = .OP_ADD ∨ op = .OP_SUB ∨ op = .OP_MUL ∨ op = .OP_DIV ∨ op = .OP_FDIV) := by
  rcases h with h | h | h | h | h <;> subst h
  · exact ⟨.OP_ADD, by decide, by decide⟩
  · exact ⟨.OP_SUB, by decide, by decide⟩
  · exact ⟨.OP_MUL, by decide, by decide⟩
  · exact ⟨.OP_DIV, by decide, by decide⟩
  · exact ⟨.OP_FDIV, by decide, by decide⟩

/-- C20: for each of the opcodes add, sub, mul, div and fdiv and every instruction of
three operands whose first two operands are targets that targets_equal finds equal
and whose third operand is no constant, do_strength_reduction keeps the opcode, takes
the second operand out and leaves the first and the third; nothing is reported. -/
theorem strength_reduction_equal_targets {τ : Type} (targets_equal : τ → τ → Bool)
    (lexer : lexer_state τ) (t1 t2 : τ) (e3 : expression τ)
    (hop : lexer.instr = str "add" ∨ lexer.instr = str "sub" ∨ lexer.instr = str "mul"
      ∨ lexer.instr = str "div" ∨ lexer.instr = str "fdiv")
    (hops : lexer.operands = [.EXPR_TARGET t1, .EXPR_TARGET t2, e3])
    (heq : targets_equal t1 t2 = true)
    (h3 : ∀ c, e3 ≠ .EXPR_CONSTANT c) :
    do_strength_reduction targets_equal lexer
      = .ok { instr := lexer.instr, operands := [.EXPR_TARGET t1, e3],
              errors := lexer.errors } := by
  rcases lexer with ⟨instr, operands, errors⟩
  simp only at hop hops
  subst hops
  obtain ⟨op, hsel, hop5⟩ := strength_reduction_operator instr hop
  unfold do_strength_reduction
  simp only [get_instr, hsel]
  cases e3 with
  | EXPR_CONSTANT c => exact absurd rfl (h3 c)
  | EXPR_TARGET t =>
      rcases hop5 with h | h | h | h | h <;> subst h <;>
        simp [get_operand_count, get_operands, remove_operand, heq]
  | EXPR_IDENT i =>
      rcases hop5 with h | h | h | h | h <;> subst h <;>
        simp [get_operand_count, get_operands, remove_operand, heq]
  | EXPR_KEY k =>
      rcases hop5 with h | h | h | h | h <;> subst h <;>
        simp [get_operand_count, get_operands, remove_operand, heq]

/-- C20 at add $I0, $I0, $I1: the instruction becomes add $I0, $I1. -/
theorem strength_reduction_equal_targets_witness :
    do_strength_reduction registers_equal
        { instr := str "add",
          operands := [.EXPR_TARGET { type := .INT_TYPE, regno := 0 },
                       .EXPR_TARGET { type := .INT_TYPE, regno := 0 },
                       .EXPR_TARGET { type := .INT_TYPE, regno := 1 }],
          errors := [] }
      = .ok { instr := str "add",
              operands := [.EXPR_TARGET { type := .INT_TYPE, regno := 0 },
                           .EXPR_TARGET { type := .INT_TYPE, regno := 1 }],
              errors := [] } :=
  strength_reduction_equal_targets registers_equal
    { instr := str "add",
      operands := [.EXPR_TARGET { type := .INT_TYPE, regno := 0 },
                   .EXPR_TARGET { type := .INT_TYPE, regno := 0 },
                   .EXPR_TARGET { type := .INT_TYPE, regno := 1 }],
      errors := [] }
    { type := .INT_TYPE, regno := 0 } { type := .INT_TYPE, regno := 0 }
    (.EXPR_TARGET { type := .INT_TYPE, regno := 1 })
    (Or.inl rfl) rfl (by decide) (by simp)

/-! ## Strength reduction of two operands -/

/-- The opcode add leads do_strength_reduction to OP_ADD. -/
theorem strength_operator_add :
    (if strcmp (str "add") (str "add") = 0 then some pir_math_operator.OP_ADD
      else if strcmp (str "add") (str "sub") = 0 then some pir_math_operator.OP_SUB
      else if strcmp (str "add") (str "mul") = 0 then some pir_math_operator.OP_MUL
      else if strcmp (str "add") (str "div") = 0 then some pir_math_operator.OP_DIV
      else if strcmp (str "add") (str "fdiv") = 0 then some pir_math_operator.OP_FDIV
      else none) = some .OP_ADD := by decide

/-- The opcode sub leads do_strength_reduction to OP_SUB. -/
theorem strength_operator_sub :
    (if strcmp (str "sub") (str "add") = 0 then some pir_math_operator.OP_ADD
      else if strcmp (str "sub") (str "sub") = 0 then some pir_math_operator.OP_SUB
      else if strcmp (str "sub") (str "mul") = 0 then some pir_math_operator.OP_MUL
      else if strcmp (str "sub") (str "div") = 0 then some pir_math_operator.OP_DIV
      else if strcmp (str "sub") (str "fdiv") = 0 then some pir_math_operator.OP_FDIV
      else none) = some .OP_SUB := by decide

/-- The opcode mul leads do_strength_reduction to OP_MUL. -/
theorem strength_operator_mul :
    (if strcmp (str "mul") (str "add") = 0 then some pir_math_operator.OP_ADD
      else if strcmp (str "mul") (str "sub") = 0 then some pir_math_operator.OP_SUB
      else if strcmp (str "mul") (str "mul") = 0 then some pir_math_operator.OP_MUL
      else if strcmp (str "mul") (str "div") = 0 then some pir_math_operator.OP_DIV
      else if strcmp (str "mul") (str "fdiv") = 0 then some pir_math_operator.OP_FDIV
      else none) = some .OP_MUL := by decide

/-- The opcode div leads do_strength_reduction to OP_DIV. -/
theorem strength_operator_div :
    (if strcmp (str "div") (str "add") = 0 then some pir_math_operator.OP_ADD
      else if strcmp (str "div") (str "sub") = 0 then some pir_math_operator.OP_SUB
      else if strcmp (str "div") (str "mul") = 0 then some pir_math_operator.OP_MUL
      else if strcmp (str "div") (str "div") = 0 then some pir_math_operator.OP_DIV
      else if strcmp (str "div") (str "fdiv") = 0 then some pir_math_operator.OP_FDIV
      else none) = some .OP_DIV := by decide

/-- The opcode fdiv leads do_strength_reduction to OP_FDIV. -/
theorem strength_operator_fdiv :
    (if strcmp (str "fdiv") (str "add") = 0 then some pir_math_operator.OP_ADD
      else if strcmp (str "fdiv") (str "sub") = 0 then some pir_math_operator.OP_SUB
      else if strcmp (str "fdiv") (str "mul") = 0 then some pir_math_operator.OP_MUL
      else if strcmp (str "fdiv") (str "div") = 0 then some pir_math_operator.OP_DIV
      else if strcmp (str "fdiv") (str "fdiv") = 0 then some pir_math_operator.OP_FDIV
      else none) = some .OP_FDIV := by decide

/-- The entries of opnames after add and after sub are inc and dec. -/
theorem opnames_after_add_sub :
    opnames_at (pir_math_operator.OP_ADD.val + 1) = str "inc" ∧
    opnames_at (pir_math_operator.OP_SUB.val + 1) = str "dec" := by decide

/-- The opcode names add and sub differ. -/
theorem str_sub_ne_add : str "sub" ≠ str "add" := by decide

/-- C22: for an add or sub instruction of two operands whose second is a constant:
an INT or NUM constant equal to 0 makes the instruction noop without operands, one
equal to 1 makes add into inc and sub into dec with the first operand alone, and
every other INT or NUM constant and every STRING constant leaves the instruction as
it is; nothing is reported. -/
theorem strength_reduction_add_sub {τ : Type} (targets_equal : τ → τ → Bool)
    (instr : cstring) (errs : List String) (dest : expression τ) (i : Int) (n : Double)
    (s : cstring) (hop : instr = str "add" ∨ instr = str "sub") :
    do_strength_reduction targets_equal
        { instr := instr,
          operands := [dest, .EXPR_CONSTANT (new_const .INT_TYPE (.ival i))],
          errors := errs }
      = .ok (if i = 0 then { instr := str "noop", operands := [], errors := errs }
        else if i = 1 then
          { instr := if instr = str "add" then str "inc" else str "dec",
            operands := [dest], errors := errs }
        else
          { instr := instr,
            operands := [dest, .EXPR_CONSTANT (new_const .INT_TYPE (.ival i))],
            errors := errs }) ∧
    do_strength_reduction targets_equal
        { instr := instr,
          operands := [dest, .EXPR_CONSTANT (new_const .NUM_TYPE (.nval n))],
          errors := errs }
      = .ok (if d_eq n (Double.of_int 0) = true then
          { instr := str "noop", operands := [], errors := errs }
        else if d_eq n (Double.of_int 1) = true then
          { instr := if instr = str "add" then str "inc" else str "dec",
            operands := [dest], errors := errs }
        else
          { instr := instr,
            operands := [dest, .EXPR_CONSTANT (new_const .NUM_TYPE (.nval n))],
            errors := errs }) ∧
    do_strength_reduction targets_equal
        { instr := instr,
          operands := [dest, .EXPR_CONSTANT (new_const .STRING_TYPE (.sval s))],
          errors := errs }
      = .ok { instr := instr,
              operands := [dest, .EXPR_CONSTANT (new_const .STRING_TYPE (.sval s))],
              errors := errs } := by
  rcases hop with h | h <;> subst h <;> refine ⟨?_, ?_, ?_⟩
  all_goals unfold do_strength_reduction
  all_goals simp only [get_instr, strength_operator_add, strength_operator_sub,
    opnames_after_add_sub.1, opnames_after_add_sub.2]
  all_goals
    by_cases h0 : i = 0 <;> by_cases h1 : i = 1 <;>
    cases hd0 : d_eq n (Double.of_int 0) <;> cases hd1 : d_eq n (Double.of_int 1) <;>
    simp [get_operand_count, get_operands, check_value, new_const, b2i, remove_operand,
      remove_all_operands, update_instr, h0, h1, hd0, hd1, str_sub_ne_add]

/-- C22 at add $I0, 0 and add $I0, 1 and sub $I0, 1: they become noop, inc $I0 and
dec $I0. -/
theorem strength_reduction_add_sub_witness :
    do_strength_reduction registers_equal
        { instr := str "add",
          operands := [.EXPR_TARGET { type := .INT_TYPE, regno := 0 },
                       .EXPR_CONSTANT (new_const .INT_TYPE (.ival 0))],
          errors := [] }
      = .ok { instr := str "noop", operands := [], errors := [] } ∧
    do_strength_reduction registers_equal
        { instr := str "add",
          operands := [.EXPR_TARGET { type := .INT_TYPE, regno := 0 },
                       .EXPR_CONSTANT (new_const .INT_TYPE (.ival 1))],
          errors := [] }
      = .ok { instr := str "inc",
              operands := [.EXPR_TARGET { type := .INT_TYPE, regno := 0 }],
              errors := [] } ∧
    do_strength_reduction registers_equal
        { instr := str "sub",
          operands := [.EXPR_TARGET { type := .INT_TYPE, regno := 0 },
                       .EXPR_CONSTANT (new_const .INT_TYPE (.ival 1))],
          errors := [] }
      = .ok { instr := str "dec",
              operands := [.EXPR_TARGET { type := .INT_TYPE, regno := 0 }],
              errors := [] } :=
  ⟨(strength_reduction_add_sub registers_equal (str "add") []
      (.EXPR_TARGET { type := .INT_TYPE, regno := 0 }) 0 .nan [] (Or.inl rfl)).1,
   (strength_reduction_add_sub registers_equal (str "add") []
      (.EXPR_TARGET { type := .INT_TYPE, regno := 0 }) 1 .nan [] (Or.inl rfl)).1,
   (strength_reduction_add_sub registers_equal (str "sub") []
      (.EXPR_TARGET { type := .INT_TYPE, regno := 0 }) 1 .nan [] (Or.inr rfl)).1⟩

/-- C23: for a mul instruction of two operands whose second is a constant: an INT or
NUM constant equal to 0 makes the instruction null with the first operand alone, one
equal to 1 makes it noop without operands, and every other constant leaves the
instruction as it is; nothing is reported. -/
theorem strength_reduction_mul {τ : Type} (targets_equal : τ → τ → Bool)
    (errs : List String) (dest : expression τ) (i : Int) (n : Double) (s : cstring) :
    do_strength_reduction targets_equal
        { instr := str "mul",
          operands := [dest, .EXPR_CONSTANT (new_const .INT_TYPE (.ival i))],
          errors := errs }
      = .ok (if i = 0 then { instr := str "null", operands := [dest], errors := errs }
        else if i = 1 then { instr := str "noop", operands := [], errors := errs }
        else
          { instr := str "mul",
            operands := [dest, .EXPR_CONSTANT (new_const .INT_TYPE (.ival i))],
            errors := errs }) ∧
    do_strength_reduction targets_equal
        { instr := str "mul",
          operands := [dest, .EXPR_CONSTANT (new_const .NUM_TYPE (.nval n))],
          errors := errs }
      = .ok (if d_eq n (Double.of_int 0) = true then
          { instr := str "null", operands := [dest], errors := errs }
        else if d_eq n (Double.of_int 1) = true then
          { instr := str "noop", operands := [], errors := errs }
        else
          { instr := str "mul",
            operands := [dest, .EXPR_CONSTANT (new_const .NUM_TYPE (.nval n))],
            errors := errs }) ∧
    do_strength_reduction targets_equal
        { instr := str "mul",
          operands := [dest, .EXPR_CONSTANT (new_const .STRING_TYPE (.sval s))],
          errors := errs }
      = .ok { instr := str "mul",
              operands := [dest, .EXPR_CONSTANT (new_const .STRING_TYPE (.sval s))],
              errors := errs } := by
  refine ⟨?_, ?_, ?_⟩
  all_goals unfold do_strength_reduction
  all_goals simp only [get_instr, strength_operator_mul]
  all_goals
    by_cases h0 : i = 0 <;> by_cases h1 : i = 1 <;>
    cases hd0 : d_eq n (Double.of_int 0) <;> cases hd1 : d_eq n (Double.of_int 1) <;>
    simp [get_operand_count, get_operands, check_value, new_const, b2i, remove_operand,
      remove_all_operands, update_instr,
      h0, h1, hd0, hd1]

/-- C24: for a div or fdiv instruction of two operands whose second is a constant: an
INT or NUM constant equal to 0 has the division by zero reported and leaves opcode and
operands as they are, one equal to 1 makes the instruction noop without operands, and
every other constant leaves the instruction as it is and nothing is reported. -/
theorem strength_reduction_div {τ : Type} (targets_equal : τ → τ → Bool)
    (instr : cstring) (errs : List String) (dest : expression τ) (i : Int) (n : Double)
    (s : cstring) (hop : instr = str "div" ∨ instr = str "fdiv") :
    do_strength_reduction targets_equal
        { instr := instr,
          operands := [dest, .EXPR_CONSTANT (new_const .INT_TYPE (.ival i))],
          errors := errs }
      = .ok (if i = 0 then
          { instr := instr,
            operands := [dest, .EXPR_CONSTANT (new_const .INT_TYPE (.ival i))],
            errors := errs ++ ["cannot divide by 0"] }
        else if i = 1 then { instr := str "noop", operands := [], errors := errs }
        else
          { instr := instr,
            operands := [dest, .EXPR_CONSTANT (new_const .INT_TYPE (.ival i))],
            errors := errs }) ∧
    do_strength_reduction targets_equal
        { instr := instr,
          operands := [dest, .EXPR_CONSTANT (new_const .NUM_TYPE (.nval n))],
          errors := errs }
      = .ok (if d_eq n (Double.of_int 0) = true then
          { instr := instr,
            operands := [dest, .EXPR_CONSTANT (new_const .NUM_TYPE (.nval n))],
            errors := errs ++ ["cannot divide by 0"] }
        else if d_eq n (Double.of_int 1) = true then
          { instr := str "noop", operands := [], errors := errs }
        else
          { instr := instr,
            operands := [dest, .EXPR_CONSTANT (new_const .NUM_TYPE (.nval n))],
            errors := errs }) ∧
    do_strength_reduction targets_equal
        { instr := instr,
          operands := [dest, .EXPR_CONSTANT (new_const .STRING_TYPE (.sval s))],
          errors := errs }
      = .ok { instr := instr,
              operands := [dest, .EXPR_CONSTANT (new_const .STRING_TYPE (.sval s))],
              errors := errs } := by
  rcases hop with h | h <;> subst h <;> refine ⟨?_, ?_, ?_⟩
  all_goals unfold do_strength_reduction
  all_goals simp only [get_instr, strength_operator_div, strength_operator_fdiv]
  all_goals
    by_cases h0 : i = 0 <;> by_cases h1 : i = 1 <;>
    cases hd0 : d_eq n (Double.of_int 0) <;> cases hd1 : d_eq n (Double.of_int 1) <;>
    simp [get_operand_count, get_operands, check_value, new_const, b2i, remove_operand,
      remove_all_operands, update_instr, pirerror,
      h0, h1, hd0, hd1]

/-- C24 at div $I0, 0 and div $I0, 1: the first stays and the division by zero is
reported, the second becomes noop. -/
theorem strength_reduction_div_witness :
    do_strength_reduction registers_equal
        { instr := str "div",
          operands := [.EXPR_TARGET { type := .INT_TYPE, regno := 0 },
                       .EXPR_CONSTANT (new_const .INT_TYPE (.ival 0))],
          errors := [] }
      = .ok { instr := str "div",
              operands := [.EXPR_TARGET { type := .INT_TYPE, regno := 0 },
                           .EXPR_CONSTANT (new_const .INT_TYPE (.ival 0))],
              errors := ["cannot divide by 0"] } ∧
    do_strength_reduction registers_equal
        { instr := str "div",
          operands := [.EXPR_TARGET { type := .INT_TYPE, regno := 0 },
                       .EXPR_CONSTANT (new_const .INT_TYPE (.ival 1))],
          errors := [] }
      = .ok { instr := str "noop", operands := [], errors := [] } :=
  ⟨(strength_reduction_div registers_equal (str "div") []
      (.EXPR_TARGET { type := .INT_TYPE, regno := 0 }) 0 .nan [] (Or.inl rfl)).1,
   (strength_reduction_div registers_equal (str "div") []
      (.EXPR_TARGET { type := .INT_TYPE, regno := 0 }) 1 .nan [] (Or.inl rfl)).1⟩

/-! ## Strength reduction: what is left alone -/

/-- C25: for every instruction whose opcode is none of add, sub, mul, div and fdiv,
whatever its operands are, do_strength_reduction leaves the opcode and the operand
list as they are and reports nothing. -/
theorem strength_reduction_other_opcode {τ : Type} (targets_equal : τ → τ → Bool)
    (lexer : lexer_state τ)
    (h : lexer.instr ≠ str "add" ∧ lexer.instr ≠ str "sub" ∧ lexer.instr ≠ str "mul"
      ∧ lexer.instr ≠ str "div" ∧ lexer.instr ≠ str "fdiv") :
    do_strength_reduction targets_equal lexer = .ok lexer := by
  obtain ⟨h1, h2, h3, h4, h5⟩ := h
  unfold do_strength_reduction
  simp [get_instr, strcmp_eq_zero_iff, h1, h2, h3, h4, h5]

/-- C25 at inc $I0 and at set $I0, 1. -/
theorem strength_reduction_other_opcode_witness :
    do_strength_reduction registers_equal
        { instr := str "inc",
          operands := [.EXPR_TARGET { type := .INT_TYPE, regno := 0 }], errors := [] }
      = .ok { instr := str "inc",
              operands := [.EXPR_TARGET { type := .INT_TYPE, regno := 0 }],
              errors := [] } ∧
    do_strength_reduction registers_equal
        { instr := str "set",
          operands := [.EXPR_TARGET { type := .INT_TYPE, regno := 0 },
                       .EXPR_CONSTANT (new_const .INT_TYPE (.ival 1))],
          errors := [] }
      = .ok { instr := str "set",
              operands := [.EXPR_TARGET { type := .INT_TYPE, regno := 0 },
                           .EXPR_CONSTANT (new_const .INT_TYPE (.ival 1))],
              errors := [] } :=
  ⟨strength_reduction_other_opcode registers_equal
      { instr := str "inc",
        operands := [.EXPR_TARGET { type := .INT_TYPE, regno := 0 }], errors := [] }
      (by decide),
   strength_reduction_other_opcode registers_equal
      { instr := str "set",
        operands := [.EXPR_TARGET { type := .INT_TYPE, regno := 0 },
                     .EXPR_CONSTANT (new_const .INT_TYPE (.ival 1))],
        errors := [] }
      (by decide)⟩

/-! ## Strength reduction: the shape of its outcome -/

/-- The function do_strength_reduction is its three steps put together. -/
theorem strength_reduction_steps {τ : Type} (targets_equal : τ → τ → Bool)
    (lexer : lexer_state τ) :
    do_strength_reduction targets_equal lexer = strength_steps targets_equal lexer := by
  unfold do_strength_reduction strength_steps
  simp only [strength_operator, get_instr]
  cases hsel : (if strcmp lexer.instr (str "add") = 0 then some pir_math_operator.OP_ADD
      else if strcmp lexer.instr (str "sub") = 0 then some pir_math_operator.OP_SUB
      else if strcmp lexer.instr (str "mul") = 0 then some pir_math_operator.OP_MUL
      else if strcmp lexer.instr (str "div") = 0 then some pir_math_operator.OP_DIV
      else if strcmp lexer.instr (str "fdiv") = 0 then some pir_math_operator.OP_FDIV
      else none) with
  | none => rfl
  | some op =>
      have he : strength_elide targets_equal lexer =
          (if get_operand_count lexer > 2 then
            match get_operands lexer with
            | (some (.EXPR_TARGET t1), some (.EXPR_TARGET t2)) =>
                if targets_equal t1 t2 then
                  (remove_operand lexer 2, get_operand_count lexer - 1)
                else (lexer, get_operand_count lexer)
            | _ => (lexer, get_operand_count lexer)
          else (lexer, get_operand_count lexer)) := rfl
      rw [he]
      generalize (if get_operand_count lexer > 2 then
            match get_operands lexer with
            | (some (.EXPR_TARGET t1), some (.EXPR_TARGET t2)) =>
                if targets_equal t1 t2 then
                  (remove_operand lexer 2, get_operand_count lexer - 1)
                else (lexer, get_operand_count lexer)
            | _ => (lexer, get_operand_count lexer)
          else (lexer, get_operand_count lexer)) = red
      by_cases h2 : red.2 ≠ 2
      · simp only [if_pos h2]
      · simp only [if_neg h2]
        rcases hg : get_operands red.1 with ⟨a1, a2⟩
        cases a1 <;> cases a2
        · rfl
        · rfl
        · rfl
        · rename_i x1 x2
          cases x2 <;> cases op <;> rfl

/-- The function check_value returns on a constant that holds the member of its tag. -/
theorem check_value_ok (c : constant) (k : Int) (h : c.well_tagged) :
    ∃ v, check_value c k = .ok v := by
  rcases c with ⟨t, v⟩
  cases t <;> cases v <;> simp [constant.well_tagged] at h <;> simp [check_value]

/-- Which of its three outcomes strength_constant takes depends on the constant alone. -/
theorem strength_constant_choice {τ : Type} (c : constant) (h : c.well_tagged) :
    (∀ (l z o : lexer_state τ), strength_constant l c z o = .ok z) ∨
    (∀ (l z o : lexer_state τ), strength_constant l c z o = .ok o) ∨
    (∀ (l z o : lexer_state τ), strength_constant l c z o = .ok l) := by
  obtain ⟨v0, h0⟩ := check_value_ok c 0 h
  obtain ⟨v1, h1⟩ := check_value_ok c 1 h
  by_cases hv0 : v0 ≠ 0
  · left; intro l z o; simp [strength_constant, h0, hv0]
  · by_cases hv1 : v1 ≠ 0
    · right; left; intro l z o
      simp only [strength_constant, h0, h1, if_neg hv0, if_pos hv1]
    · right; right; intro l z o
      simp only [strength_constant, h0, h1, if_neg hv0, if_neg hv1]

/-- The opcodes that the switch writes are none that do_strength_reduction looks at. -/
theorem strength_operator_rewritten :
    strength_operator (str "noop") = none ∧ strength_operator (str "null") = none ∧
    strength_operator (opnames_at (pir_math_operator.OP_ADD.val + 1)) = none ∧
    strength_operator (opnames_at (pir_math_operator.OP_SUB.val + 1)) = none := by
  decide

/-- The outcome of the switch: opcode and operands depend on nothing but opcode,
operands and the second operand; either they are the ones that came in, or the opcode
is one that do_strength_reduction does not look at. -/
theorem strength_switch_outcome {τ : Type} (op : pir_math_operator) (instr : cstring)
    (operands : List (expression τ)) (arg2 : expression τ)
    (hop : op = .OP_ADD ∨ op = .OP_SUB ∨ op = .OP_MUL ∨ op = .OP_DIV ∨ op = .OP_FDIV)
    (hwt : ∀ c, arg2 = .EXPR_CONSTANT c → c.well_tagged) :
    ∃ (i1 : cstring) (o1 : List (expression τ)) (msgs : List String),
      (∀ errs, strength_switch op { instr := instr, operands := operands, errors := errs }
          arg2 = .ok { instr := i1, operands := o1, errors := errs ++ msgs }) ∧
      ((i1 = instr ∧ o1 = operands) ∨ strength_operator i1 = none) := by
  have same : ∃ (i1 : cstring) (o1 : List (expression τ)) (msgs : List String),
      (∀ errs, (Except.ok { instr := instr, operands := operands, errors := errs } :
          Except fault (lexer_state τ))
        = .ok { instr := i1, operands := o1, errors := errs ++ msgs }) ∧
      ((i1 = instr ∧ o1 = operands) ∨ strength_operator i1 = none) :=
    ⟨instr, operands, [], fun errs => by simp, Or.inl ⟨rfl, rfl⟩⟩
  cases arg2 with
  | EXPR_TARGET t => simpa [strength_switch] using same
  | EXPR_IDENT i => simpa [strength_switch] using same
  | EXPR_KEY k => simpa [strength_switch] using same
  | EXPR_CONSTANT c =>
      have hc := hwt c rfl
      rcases strength_constant_choice (τ := τ) c hc with h | h | h
      · rcases hop with e | e | e | e | e <;> subst e <;> simp only [strength_switch, h]
        · exact ⟨str "noop", [], [], fun errs => by simp [remove_all_operands, update_instr],
            Or.inr strength_operator_rewritten.1⟩
        · exact ⟨str "noop", [], [], fun errs => by simp [remove_all_operands, update_instr],
            Or.inr strength_operator_rewritten.1⟩
        · exact ⟨str "null", operands.eraseIdx 1, [],
            fun errs => by simp [remove_operand, update_instr],
            Or.inr strength_operator_rewritten.2.1⟩
        · exact ⟨instr, operands, ["cannot divide by 0"], fun errs => by simp [pirerror],
            Or.inl ⟨rfl, rfl⟩⟩
        · exact ⟨instr, operands, ["cannot divide by 0"], fun errs => by simp [pirerror],
            Or.inl ⟨rfl, rfl⟩⟩
      · rcases hop with e | e | e | e | e <;> subst e <;> simp only [strength_switch, h]
        · exact ⟨opnames_at (pir_math_operator.OP_ADD.val + 1), operands.eraseIdx 1, [],
            fun errs => by simp [remove_operand, update_instr],
            Or.inr strength_operator_rewritten.2.2.1⟩
        · exact ⟨opnames_at (pir_math_operator.OP_SUB.val + 1), operands.eraseIdx 1, [],
            fun errs => by simp [remove_operand, update_instr],
            Or.inr strength_operator_rewritten.2.2.2⟩
        · exact ⟨str "noop", [], [], fun errs => by simp [remove_all_operands, update_instr],
            Or.inr strength_operator_rewritten.1⟩
        · exact ⟨str "noop", [], [], fun errs => by simp [remove_all_operands, update_instr],
            Or.inr strength_operator_rewritten.1⟩
        · exact ⟨str "noop", [], [], fun errs => by simp [remove_all_operands, update_instr],
            Or.inr strength_operator_rewritten.1⟩
      · rcases hop with e | e | e | e | e <;> subst e <;> simp only [strength_switch, h] <;>
          exact same

/-- The operator that strength_operator finds is one of the five. -/
theorem strength_operator_five (instr : cstring) (op : pir_math_operator)
    (h : strength_operator instr = some op) :
    op = .OP_ADD ∨ op = .OP_SUB ∨ op = .OP_MUL ∨ op = .OP_DIV ∨ op = .OP_FDIV := by
  unfold strength_operator at h
  split_ifs at h <;> simp_all

/-- An opcode that is none of the five has no operator. -/
theorem strength_operator_none_iff (instr : cstring) :
    strength_operator instr = none ↔
      (instr ≠ str "add" ∧ instr ≠ str "sub" ∧ instr ≠ str "mul" ∧ instr ≠ str "div"
        ∧ instr ≠ str "fdiv") := by
  unfold strength_operator
  simp only [strcmp_eq_zero_iff]
  constructor
  · intro h
    split_ifs at h
    exact ⟨by assumption, by assumption, by assumption, by assumption, by assumption⟩
  · rintro ⟨h1, h2, h3, h4, h5⟩
    simp [h1, h2, h3, h4, h5]

/-- An opcode without operator: do_strength_reduction returns the lexer it got. -/
theorem strength_reduction_no_operator {τ : Type} (targets_equal : τ → τ → Bool)
    (lexer : lexer_state τ) (h : strength_operator lexer.instr = none) :
    do_strength_reduction targets_equal lexer = .ok lexer := by
  rw [strength_reduction_steps]
  simp [strength_steps, get_instr, h]

/-- Fewer than two operands: do_strength_reduction returns the lexer it got. -/
theorem strength_reduction_few_operands {τ : Type} (targets_equal : τ → τ → Bool)
    (lexer : lexer_state τ) (h : lexer.operands.length < 2) :
    do_strength_reduction targets_equal lexer = .ok lexer := by
  rw [strength_reduction_steps]
  unfold strength_steps
  cases strength_operator (get_instr lexer) with
  | none => rfl
  | some op =>
      have h1 : ¬ lexer.operands.length > 2 := by omega
      have h2 : lexer.operands.length ≠ 2 := by omega
      simp [strength_elide, get_operand_count, h1, h2]

/-- Two operands: do_strength_reduction is the switch on the second of them. -/
theorem strength_reduction_two_operands {τ : Type} (targets_equal : τ → τ → Bool)
    (instr : cstring) (e1 e2 : expression τ) (errs : List String)
    (op : pir_math_operator) (h : strength_operator instr = some op) :
    do_strength_reduction targets_equal
        { instr := instr, operands := [e1, e2], errors := errs }
      = strength_switch op { instr := instr, operands := [e1, e2], errors := errs } e2 := by
  rw [strength_reduction_steps]
  simp [strength_steps, get_instr, h, strength_elide, get_operand_count, get_operands]

/-- Three operands with two equal targets in front: the second steps out and the
switch follows on the two that are left. -/
theorem strength_reduction_elided_three {τ : Type} (targets_equal : τ → τ → Bool)
    (instr : cstring) (t1 t2 : τ) (e3 : expression τ) (errs : List String)
    (op : pir_math_operator) (h : strength_operator instr = some op)
    (heq : targets_equal t1 t2 = true) :
    do_strength_reduction targets_equal
        { instr := instr, operands := [.EXPR_TARGET t1, .EXPR_TARGET t2, e3],
          errors := errs }
      = do_strength_reduction targets_equal
          { instr := instr, operands := [.EXPR_TARGET t1, e3], errors := errs } := by
  rw [strength_reduction_steps, strength_reduction_steps]
  simp [strength_steps, get_instr, h, strength_elide, get_operand_count, get_operands,
    remove_operand, heq]

/-- Four operands or more with two equal targets in front: the second steps out and
nothing else happens. -/
theorem strength_reduction_elided_more {τ : Type} (targets_equal : τ → τ → Bool)
    (instr : cstring) (t1 t2 : τ) (e3 e4 : expression τ) (rest : List (expression τ))
    (errs : List String) (op : pir_math_operator) (h : strength_operator instr = some op)
    (heq : targets_equal t1 t2 = true) :
    do_strength_reduction targets_equal
        { instr := instr,
          operands := .EXPR_TARGET t1 :: .EXPR_TARGET t2 :: e3 :: e4 :: rest,
          errors := errs }
      = .ok { instr := instr, operands := .EXPR_TARGET t1 :: e3 :: e4 :: rest,
              errors := errs } := by
  rw [strength_reduction_steps]
  simp [strength_steps, get_instr, h, strength_elide, get_operand_count, get_operands,
    remove_operand, heq]

/-- Three operands or more whose first two are not two equal targets:
do_strength_reduction returns the lexer it got. -/
theorem strength_reduction_not_elided {τ : Type} (targets_equal : τ → τ → Bool)
    (instr : cstring) (e1 e2 e3 : expression τ) (rest : List (expression τ))
    (errs : List String)
    (hne : ∀ t1 t2, e1 = .EXPR_TARGET t1 → e2 = .EXPR_TARGET t2 →
      targets_equal t1 t2 = false) :
    do_strength_reduction targets_equal
        { instr := instr, operands := e1 :: e2 :: e3 :: rest, errors := errs }
      = .ok { instr := instr, operands := e1 :: e2 :: e3 :: rest, errors := errs } := by
  rw [strength_reduction_steps]
  unfold strength_steps
  cases strength_operator
      (get_instr ({ instr := instr, operands := e1 :: e2 :: e3 :: rest, errors := errs } :
        lexer_state τ)) with
  | none => rfl
  | some op =>
      cases e1 <;> cases e2 <;>
        simp [strength_elide, get_operand_count, get_operands]
      rename_i t1 t2
      simp [hne t1 t2 rfl rfl]

/-- The outcome of do_strength_reduction on at most two operands: opcode and operands
depend on nothing but the opcode and operands that came in; either they are those, or
the opcode is one that do_strength_reduction does not look at. -/
theorem strength_reduction_outcome {τ : Type} (targets_equal : τ → τ → Bool)
    (instr : cstring) (operands : List (expression τ)) (hlen : operands.length ≤ 2)
    (hwt : ∀ c, .EXPR_CONSTANT c ∈ operands → c.well_tagged) :
    ∃ (i1 : cstring) (o1 : List (expression τ)) (msgs : List String),
      (∀ errs, do_strength_reduction targets_equal
          { instr := instr, operands := operands, errors := errs }
        = .ok { instr := i1, operands := o1, errors := errs ++ msgs }) ∧
      ((i1 = instr ∧ o1 = operands) ∨ strength_operator i1 = none) := by
  cases hso : strength_operator instr with
  | none =>
      exact ⟨instr, operands, [], fun errs => by
        simpa using strength_reduction_no_operator targets_equal
          { instr := instr, operands := operands, errors := errs } hso,
        Or.inl ⟨rfl, rfl⟩⟩
  | some op =>
      match operands, hlen, hwt with
      | [], _, _ =>
          exact ⟨instr, [], [], fun errs => by
            simpa using strength_reduction_few_operands targets_equal
              { instr := instr, operands := [], errors := errs } (by simp),
            Or.inl ⟨rfl, rfl⟩⟩
      | [e1], _, _ =>
          exact ⟨instr, [e1], [], fun errs => by
            simpa using strength_reduction_few_operands targets_equal
              { instr := instr, operands := [e1], errors := errs } (by simp),
            Or.inl ⟨rfl, rfl⟩⟩
      | [e1, e2], _, hwt2 =>
          obtain ⟨i1, o1, msgs, hrun, hshape⟩ :=
            strength_switch_outcome op instr [e1, e2] e2
              (strength_operator_five instr op hso)
              (fun c hc => hwt2 c (by simp [hc]))
          exact ⟨i1, o1, msgs, fun errs => by
            rw [strength_reduction_two_operands targets_equal instr e1 e2 errs op hso]
            exact hrun errs, hshape⟩
      | _ :: _ :: _ :: _, h3, _ => exact absurd h3 (by simp)

/-- On at most two operands, a second run of do_strength_reduction changes neither
opcode nor operands. -/
theorem strength_reduction_twice_two {τ : Type} (targets_equal : τ → τ → Bool)
    (instr : cstring) (operands : List (expression τ)) (errs : List String)
    (hlen : operands.length ≤ 2)
    (hwt : ∀ c, .EXPR_CONSTANT c ∈ operands → c.well_tagged) :
    ∃ l1 l2,
      do_strength_reduction targets_equal
        { instr := instr, operands := operands, errors := errs } = .ok l1 ∧
      do_strength_reduction targets_equal l1 = .ok l2 ∧
      l2.instr = l1.instr ∧ l2.operands = l1.operands := by
  obtain ⟨i1, o1, msgs, hrun, hshape⟩ :=
    strength_reduction_outcome targets_equal instr operands hlen hwt
  rcases hshape with ⟨hi, ho⟩ | hnone
  · subst hi; subst ho
    exact ⟨_, _, hrun errs, hrun (errs ++ msgs), rfl, rfl⟩
  · exact ⟨_, _, hrun errs,
      strength_reduction_no_operator targets_equal _ hnone, rfl, rfl⟩

/-- On at most three operands, a second run of do_strength_reduction changes neither
opcode nor operands. -/
theorem strength_reduction_twice {τ : Type} (targets_equal : τ → τ → Bool)
    (instr : cstring) (operands : List (expression τ)) (errs : List String)
    (hlen : operands.length ≤ 3)
    (hwt : ∀ c, .EXPR_CONSTANT c ∈ operands → c.well_tagged) :
    ∃ l1 l2,
      do_strength_reduction targets_equal
        { instr := instr, operands := operands, errors := errs } = .ok l1 ∧
      do_strength_reduction targets_equal l1 = .ok l2 ∧
      l2.instr = l1.instr ∧ l2.operands = l1.operands := by
  by_cases h2 : operands.length ≤ 2
  · exact strength_reduction_twice_two targets_equal instr operands errs h2 hwt
  · match operands, hlen, h2, hwt with
    | [e1, e2, e3], _, _, hwt3 =>
        cases hso : strength_operator instr with
        | none =>
            have hrun := strength_reduction_no_operator targets_equal
              { instr := instr, operands := [e1, e2, e3], errors := errs } hso
            exact ⟨_, _, hrun, hrun, rfl, rfl⟩
        | some op =>
            by_cases heq : ∃ t1 t2, e1 = .EXPR_TARGET t1 ∧ e2 = .EXPR_TARGET t2
                ∧ targets_equal t1 t2 = true
            · obtain ⟨t1, t2, h1, h2', h3⟩ := heq
              subst h1; subst h2'
              rw [strength_reduction_elided_three targets_equal instr t1 t2 e3 errs op
                hso h3]
              exact strength_reduction_twice_two targets_equal instr _ errs (by simp)
                (fun c hc => hwt3 c (by
                  simp only [List.mem_cons] at hc ⊢
                  rcases hc with hc | hc | hc
                  · exact Or.inl hc
                  · exact Or.inr (Or.inr (Or.inl hc))
                  · exact Or.inr (Or.inr (Or.inr hc))))
            · have hne : ∀ t1 t2, e1 = .EXPR_TARGET t1 → e2 = .EXPR_TARGET t2 →
                  targets_equal t1 t2 = false := by
                intro t1 t2 h1 h2'
                cases hte : targets_equal t1 t2 with
                | false => rfl
                | true => exact absurd ⟨t1, t2, h1, h2', hte⟩ heq
              have hrun := strength_reduction_not_elided targets_equal instr e1 e2 e3 []
                errs hne
              exact ⟨_, _, hrun, hrun, rfl, rfl⟩
    | [], _, h, _ => exact absurd (by simp) h
    | [_], _, h, _ => exact absurd (by simp) h
    | [_, _], _, h, _ => exact absurd (by simp) h
    | _ :: _ :: _ :: _ :: _, h, _, _ => exact absurd h (by simp)

/-! ## Strength reduction: three operands and more -/

/-- C21, at add $I0, $I1, $I1: the operands 2 and 3 are equal targets, and the
instruction keeps its three operands; it does not become add $I0, $I1. -/
theorem strength_reduction_last_two_equal :
    do_strength_reduction registers_equal
        { instr := str "add",
          operands := [.EXPR_TARGET { type := .INT_TYPE, regno := 0 },
                       .EXPR_TARGET { type := .INT_TYPE, regno := 1 },
                       .EXPR_TARGET { type := .INT_TYPE, regno := 1 }],
          errors := [] }
      = .ok { instr := str "add",
              operands := [.EXPR_TARGET { type := .INT_TYPE, regno := 0 },
                           .EXPR_TARGET { type := .INT_TYPE, regno := 1 },
                           .EXPR_TARGET { type := .INT_TYPE, regno := 1 }],
              errors := [] } ∧
    do_strength_reduction registers_equal
        { instr := str "add",
          operands := [.EXPR_TARGET { type := .INT_TYPE, regno := 0 },
                       .EXPR_TARGET { type := .INT_TYPE, regno := 1 },
                       .EXPR_TARGET { type := .INT_TYPE, regno := 1 }],
          errors := [] }
      ≠ .ok { instr := str "add",
              operands := [.EXPR_TARGET { type := .INT_TYPE, regno := 0 },
                           .EXPR_TARGET { type := .INT_TYPE, regno := 1 }],
              errors := [] } := by
  have h : do_strength_reduction registers_equal
        { instr := str "add",
          operands := [.EXPR_TARGET { type := .INT_TYPE, regno := 0 },
                       .EXPR_TARGET { type := .INT_TYPE, regno := 1 },
                       .EXPR_TARGET { type := .INT_TYPE, regno := 1 }],
          errors := [] }
      = .ok { instr := str "add",
              operands := [.EXPR_TARGET { type := .INT_TYPE, regno := 0 },
                           .EXPR_TARGET { type := .INT_TYPE, regno := 1 },
                           .EXPR_TARGET { type := .INT_TYPE, regno := 1 }],
              errors := [] } := rfl
  refine ⟨h, ?_⟩
  rw [h]
  simp

/-- C21 as amended: for each of the opcodes add, sub, mul, div and fdiv and every
instruction of three operands: when the operands 1 and 2 are targets that
targets_equal finds equal, do_strength_reduction takes operand 2 out and goes on as
for the instruction of the operands 1 and 3; when the operands 1 and 2 are not two
equal targets, the three operands stay, whatever operand 3 is. -/
theorem strength_reduction_three_operands {τ : Type} (targets_equal : τ → τ → Bool)
    (instr : cstring) (errs : List String) (t1 t2 : τ) (e1 e2 e3 : expression τ)
    (hop : instr = str "add" ∨ instr = str "sub" ∨ instr = str "mul" ∨ instr = str "div"
      ∨ instr = str "fdiv") :
    (targets_equal t1 t2 = true →
      do_strength_reduction targets_equal
          { instr := instr, operands := [.EXPR_TARGET t1, .EXPR_TARGET t2, e3],
            errors := errs }
        = do_strength_reduction targets_equal
            { instr := instr, operands := [.EXPR_TARGET t1, e3], errors := errs }) ∧
    ((∀ a b, e1 = .EXPR_TARGET a → e2 = .EXPR_TARGET b → targets_equal a b = false) →
      do_strength_reduction targets_equal
          { instr := instr, operands := [e1, e2, e3], errors := errs }
        = .ok { instr := instr, operands := [e1, e2, e3], errors := errs }) := by
  obtain ⟨op, hsel, _⟩ := strength_reduction_operator instr hop
  have hso : strength_operator instr = some op := hsel
  exact ⟨fun heq => strength_reduction_elided_three targets_equal instr t1 t2 e3 errs op
      hso heq,
    fun hne => strength_reduction_not_elided targets_equal instr e1 e2 e3 [] errs hne⟩

/-- C21 as amended, at add $I0, $I0, $I1, which goes on as add $I0, $I1, and at
add $I0, $I1, $I1, which stays. -/
theorem strength_reduction_three_operands_witness :
    do_strength_reduction registers_equal
        { instr := str "add",
          operands := [.EXPR_TARGET { type := .INT_TYPE, regno := 0 },
                       .EXPR_TARGET { type := .INT_TYPE, regno := 0 },
                       .EXPR_TARGET { type := .INT_TYPE, regno := 1 }],
          errors := [] }
      = do_strength_reduction registers_equal
          { instr := str "add",
            operands := [.EXPR_TARGET { type := .INT_TYPE, regno := 0 },
                         .EXPR_TARGET { type := .INT_TYPE, regno := 1 }],
            errors := [] } ∧
    do_strength_reduction registers_equal
        { instr := str "add",
          operands := [.EXPR_TARGET { type := .INT_TYPE, regno := 0 },
                       .EXPR_TARGET { type := .INT_TYPE, regno := 1 },
                       .EXPR_TARGET { type := .INT_TYPE, regno := 1 }],
          errors := [] }
      = .ok { instr := str "add",
              operands := [.EXPR_TARGET { type := .INT_TYPE, regno := 0 },
                           .EXPR_TARGET { type := .INT_TYPE, regno := 1 },
                           .EXPR_TARGET { type := .INT_TYPE, regno := 1 }],
              errors := [] } :=
  ⟨(strength_reduction_three_operands registers_equal (str "add") []
      { type := .INT_TYPE, regno := 0 } { type := .INT_TYPE, regno := 0 }
      (.EXPR_TARGET { type := .INT_TYPE, regno := 0 })
      (.EXPR_TARGET { type := .INT_TYPE, regno := 0 })
      (.EXPR_TARGET { type := .INT_TYPE, regno := 1 }) (Or.inl rfl)).1 (by decide),
   (strength_reduction_three_operands registers_equal (str "add") []
      { type := .INT_TYPE, regno := 0 } { type := .INT_TYPE, regno := 0 }
      (.EXPR_TARGET { type := .INT_TYPE, regno := 0 })
      (.EXPR_TARGET { type := .INT_TYPE, regno := 1 })
      (.EXPR_TARGET { type := .INT_TYPE, regno := 1 }) (Or.inl rfl)).2
      (by intro a b ha hb; cases ha; cases hb; decide)⟩

/-- C26, at add $I0, $I0, $I1, $I2: the instruction has four operands, and
do_strength_reduction takes the second out; the operand list does not stay. -/
theorem strength_reduction_four_operands :
    do_strength_reduction registers_equal
        { instr := str "add",
          operands := [.EXPR_TARGET { type := .INT_TYPE, regno := 0 },
                       .EXPR_TARGET { type := .INT_TYPE, regno := 0 },
                       .EXPR_TARGET { type := .INT_TYPE, regno := 1 },
                       .EXPR_TARGET { type := .INT_TYPE, regno := 2 }],
          errors := [] }
      = .ok { instr := str "add",
              operands := [.EXPR_TARGET { type := .INT_TYPE, regno := 0 },
                           .EXPR_TARGET { type := .INT_TYPE, regno := 1 },
                           .EXPR_TARGET { type := .INT_TYPE, regno := 2 }],
              errors := [] } ∧
    do_strength_reduction registers_equal
        { instr := str "add",
          operands := [.EXPR_TARGET { type := .INT_TYPE, regno := 0 },
                       .EXPR_TARGET { type := .INT_TYPE, regno := 0 },
                       .EXPR_TARGET { type := .INT_TYPE, regno := 1 },
                       .EXPR_TARGET { type := .INT_TYPE, regno := 2 }],
          errors := [] }
      ≠ .ok { instr := str "add",
              operands := [.EXPR_TARGET { type := .INT_TYPE, regno := 0 },
                           .EXPR_TARGET { type := .INT_TYPE, regno := 0 },
                           .EXPR_TARGET { type := .INT_TYPE, regno := 1 },
                           .EXPR_TARGET { type := .INT_TYPE, regno := 2 }],
              errors := [] } := by
  have h : do_strength_reduction registers_equal
        { instr := str "add",
          operands := [.EXPR_TARGET { type := .INT_TYPE, regno := 0 },
                       .EXPR_TARGET { type := .INT_TYPE, regno := 0 },
                       .EXPR_TARGET { type := .INT_TYPE, regno := 1 },
                       .EXPR_TARGET { type := .INT_TYPE, regno := 2 }],
          errors := [] }
      = .ok { instr := str "add",
              operands := [.EXPR_TARGET { type := .INT_TYPE, regno := 0 },
                           .EXPR_TARGET { type := .INT_TYPE, regno := 1 },
                           .EXPR_TARGET { type := .INT_TYPE, regno := 2 }],
              errors := [] } := rfl
  refine ⟨h, ?_⟩
  rw [h]
  simp

/-- C26 as amended: for each of the opcodes add, sub, mul, div and fdiv,
do_strength_reduction leaves opcode and operands as they are when the instruction has
no operand or one; when it has four operands or more, the second operand is taken out
if the first two are targets that targets_equal finds equal, and else opcode and
operands stay as they are. Nothing is reported. -/
theorem strength_reduction_other_counts {τ : Type} (targets_equal : τ → τ → Bool)
    (instr : cstring) (errs : List String) (few : List (expression τ)) (t1 t2 : τ)
    (e1 e2 e3 e4 : expression τ) (rest : List (expression τ))
    (hop : instr = str "add" ∨ instr = str "sub" ∨ instr = str "mul" ∨ instr = str "div"
      ∨ instr = str "fdiv") :
    (few.length < 2 →
      do_strength_reduction targets_equal
          { instr := instr, operands := few, errors := errs }
        = .ok { instr := instr, operands := few, errors := errs }) ∧
    (targets_equal t1 t2 = true →
      do_strength_reduction targets_equal
          { instr := instr,
            operands := .EXPR_TARGET t1 :: .EXPR_TARGET t2 :: e3 :: e4 :: rest,
            errors := errs }
        = .ok { instr := instr, operands := .EXPR_TARGET t1 :: e3 :: e4 :: rest,
                errors := errs }) ∧
    ((∀ a b, e1 = .EXPR_TARGET a → e2 = .EXPR_TARGET b → targets_equal a b = false) →
      do_strength_reduction targets_equal
          { instr := instr, operands := e1 :: e2 :: e3 :: e4 :: rest, errors := errs }
        = .ok { instr := instr, operands := e1 :: e2 :: e3 :: e4 :: rest,
                errors := errs }) := by
  obtain ⟨op, hsel, _⟩ := strength_reduction_operator instr hop
  have hso : strength_operator instr = some op := hsel
  exact ⟨fun hlen => strength_reduction_few_operands targets_equal
      { instr := instr, operands := few, errors := errs } hlen,
    fun heq => strength_reduction_elided_more targets_equal instr t1 t2 e3 e4 rest errs op
      hso heq,
    fun hne => strength_reduction_not_elided targets_equal instr e1 e2 e3 (e4 :: rest) errs
      hne⟩

/-- C26 as amended, at add $I0 with its one operand, and at add $I0, $I0, $I1, $I2,
which loses its second operand. -/
theorem strength_reduction_other_counts_witness :
    do_strength_reduction registers_equal
        { instr := str "add",
          operands := [.EXPR_TARGET { type := .INT_TYPE, regno := 0 }], errors := [] }
      = .ok { instr := str "add",
              operands := [.EXPR_TARGET { type := .INT_TYPE, regno := 0 }],
              errors := [] } ∧
    do_strength_reduction registers_equal
        { instr := str "add",
          operands := [.EXPR_TARGET { type := .INT_TYPE, regno := 0 },
                       .EXPR_TARGET { type := .INT_TYPE, regno := 0 },
                       .EXPR_TARGET { type := .INT_TYPE, regno := 1 },
                       .EXPR_TARGET { type := .INT_TYPE, regno := 2 }],
          errors := [] }
      = .ok { instr := str "add",
              operands := [.EXPR_TARGET { type := .INT_TYPE, regno := 0 },
                           .EXPR_TARGET { type := .INT_TYPE, regno := 1 },
                           .EXPR_TARGET { type := .INT_TYPE, regno := 2 }],
              errors := [] } :=
  ⟨(strength_reduction_other_counts registers_equal (str "add") []
      [.EXPR_TARGET { type := .INT_TYPE, regno := 0 }]
      { type := .INT_TYPE, regno := 0 } { type := .INT_TYPE, regno := 0 }
      (.EXPR_TARGET { type := .INT_TYPE, regno := 0 })
      (.EXPR_TARGET { type := .INT_TYPE, regno := 0 })
      (.EXPR_TARGET { type := .INT_TYPE, regno := 1 })
      (.EXPR_TARGET { type := .INT_TYPE, regno := 2 }) [] (Or.inl rfl)).1 (by decide),
   (strength_reduction_other_counts registers_equal (str "add") []
      [.EXPR_TARGET { type := .INT_TYPE, regno := 0 }]
      { type := .INT_TYPE, regno := 0 } { type := .INT_TYPE, regno := 0 }
      (.EXPR_TARGET { type := .INT_TYPE, regno := 0 })
      (.EXPR_TARGET { type := .INT_TYPE, regno := 0 })
      (.EXPR_TARGET { type := .INT_TYPE, regno := 1 })
      (.EXPR_TARGET { type := .INT_TYPE, regno := 2 }) [] (Or.inl rfl)).2.1 (by decide)⟩

/-- C27, at add $I0, $I0, $I0, $I1: the first run of do_strength_reduction leaves
add $I0, $I0, $I1, and a second run makes add $I0, $I1 of that: two runs do not give
what one run gives. -/
theorem strength_reduction_not_idempotent :
    do_strength_reduction registers_equal
        { instr := str "add",
          operands := [.EXPR_TARGET { type := .INT_TYPE, regno := 0 },
                       .EXPR_TARGET { type := .INT_TYPE, regno := 0 },
                       .EXPR_TARGET { type := .INT_TYPE, regno := 0 },
                       .EXPR_TARGET { type := .INT_TYPE, regno := 1 }],
          errors := [] }
      = .ok { instr := str "add",
              operands := [.EXPR_TARGET { type := .INT_TYPE, regno := 0 },
                           .EXPR_TARGET { type := .INT_TYPE, regno := 0 },
                           .EXPR_TARGET { type := .INT_TYPE, regno := 1 }],
              errors := [] } ∧
    do_strength_reduction registers_equal
        { instr := str "add",
          operands := [.EXPR_TARGET { type := .INT_TYPE, regno := 0 },
                       .EXPR_TARGET { type := .INT_TYPE, regno := 0 },
                       .EXPR_TARGET { type := .INT_TYPE, regno := 1 }],
          errors := [] }
      = .ok { instr := str "add",
              operands := [.EXPR_TARGET { type := .INT_TYPE, regno := 0 },
                           .EXPR_TARGET { type := .INT_TYPE, regno := 1 }],
              errors := [] } ∧
    ([.EXPR_TARGET { type := .INT_TYPE, regno := 0 },
      .EXPR_TARGET { type := .INT_TYPE, regno := 1 }] : List (expression pir_register))
      ≠ [.EXPR_TARGET { type := .INT_TYPE, regno := 0 },
         .EXPR_TARGET { type := .INT_TYPE, regno := 0 },
         .EXPR_TARGET { type := .INT_TYPE, regno := 1 }] := by
  refine ⟨rfl, rfl, ?_⟩
  simp

/-- The opcodes that do_strength_reduction looks at have an operator. -/
theorem strength_operator_some (instr : cstring)
    (h : instr = str "add" ∨ instr = str "sub" ∨ instr = str "mul" ∨ instr = str "div"
      ∨ instr = str "fdiv") :
    ∃ op, strength_operator instr = some op := by
  rcases h with h | h | h | h | h <;> subst h
  · exact ⟨_, strength_operator_add⟩
  · exact ⟨_, strength_operator_sub⟩
  · exact ⟨_, strength_operator_mul⟩
  · exact ⟨_, strength_operator_div⟩
  · exact ⟨_, strength_operator_fdiv⟩

/-- The shape of an operand list for which three_equal_targets holds. -/
theorem three_equal_targets_shape {τ : Type} (targets_equal : τ → τ → Bool)
    (operands : List (expression τ)) (h : three_equal_targets targets_equal operands = true) :
    ∃ t1 t2 t3 e4 rest,
      operands = .EXPR_TARGET t1 :: .EXPR_TARGET t2 :: .EXPR_TARGET t3 :: e4 :: rest ∧
      targets_equal t1 t2 = true ∧ targets_equal t1 t3 = true := by
  unfold three_equal_targets at h
  split at h
  · rename_i t1 t2 t3 e4 rest
    simp only [Bool.and_eq_true] at h
    exact ⟨t1, t2, t3, e4, rest, rfl, h.1, h.2⟩
  · exact absurd h (by simp)

/-- Four operands or more, outside the lists of three_equal_targets: a second run of
do_strength_reduction changes neither opcode nor operands. -/
theorem strength_reduction_twice_more {τ : Type} (targets_equal : τ → τ → Bool)
    (instr : cstring) (e1 e2 e3 e4 : expression τ) (rest : List (expression τ))
    (errs : List String)
    (h : strength_operator instr = none
      ∨ three_equal_targets targets_equal (e1 :: e2 :: e3 :: e4 :: rest) = false) :
    ∃ l1 l2,
      do_strength_reduction targets_equal
        { instr := instr, operands := e1 :: e2 :: e3 :: e4 :: rest, errors := errs }
        = .ok l1 ∧
      do_strength_reduction targets_equal l1 = .ok l2 ∧
      l2.instr = l1.instr ∧ l2.operands = l1.operands := by
  cases hso : strength_operator instr with
  | none =>
      have hrun := strength_reduction_no_operator targets_equal
        { instr := instr, operands := e1 :: e2 :: e3 :: e4 :: rest, errors := errs } hso
      exact ⟨_, _, hrun, hrun, rfl, rfl⟩
  | some op =>
      have h3 : three_equal_targets targets_equal (e1 :: e2 :: e3 :: e4 :: rest) = false := by
        rcases h with h | h
        · rw [hso] at h; cases h
        · exact h
      by_cases heq : ∃ t1 t2, e1 = .EXPR_TARGET t1 ∧ e2 = .EXPR_TARGET t2
          ∧ targets_equal t1 t2 = true
      · obtain ⟨t1, t2, h1, h2, h12⟩ := heq
        subst h1; subst h2
        have hfirst := strength_reduction_elided_more targets_equal instr t1 t2 e3 e4 rest
          errs op hso h12
        have hsecond := strength_reduction_not_elided targets_equal instr
          (.EXPR_TARGET t1) e3 e4 rest errs (fun a b ha hb => by
            cases ha
            subst hb
            simpa [three_equal_targets, h12] using h3)
        exact ⟨_, _, hfirst, hsecond, rfl, rfl⟩
      · have hrun := strength_reduction_not_elided targets_equal instr e1 e2 e3
          (e4 :: rest) errs (fun a b ha hb => by
            cases hte : targets_equal a b with
            | false => rfl
            | true => exact absurd ⟨a, b, ha, hb, hte⟩ heq)
        exact ⟨_, _, hrun, hrun, rfl, rfl⟩

/-- On a list of three_equal_targets, under one of the five opcodes, a second run of
do_strength_reduction does not leave both opcode and operands of the first. -/
theorem strength_reduction_twice_differs {τ : Type} (targets_equal : τ → τ → Bool)
    (instr : cstring) (operands : List (expression τ)) (errs : List String)
    (op : pir_math_operator) (hso : strength_operator instr = some op)
    (h3 : three_equal_targets targets_equal operands = true)
    (hwt : ∀ c, .EXPR_CONSTANT c ∈ operands → c.well_tagged) :
    ∃ l1 l2,
      do_strength_reduction targets_equal
        { instr := instr, operands := operands, errors := errs } = .ok l1 ∧
      do_strength_reduction targets_equal l1 = .ok l2 ∧
      ¬ (l2.instr = l1.instr ∧ l2.operands = l1.operands) := by
  obtain ⟨t1, t2, t3, e4, rest, hops, h12, h13⟩ :=
    three_equal_targets_shape targets_equal operands h3
  subst hops
  have hfirst := strength_reduction_elided_more targets_equal instr t1 t2
    (.EXPR_TARGET t3) e4 rest errs op hso h12
  cases rest with
  | nil =>
      obtain ⟨i1, o1, msgs, hrun, hshape⟩ :=
        strength_reduction_outcome targets_equal instr [.EXPR_TARGET t1, e4] (by simp)
          (fun c hc => hwt c (by
            simp only [List.mem_cons] at hc ⊢
            rcases hc with hc | hc | hc
            · exact Or.inl hc
            · exact Or.inr (Or.inr (Or.inr (Or.inl hc)))
            · exact absurd hc (List.not_mem_nil _)))
      refine ⟨_, { instr := i1, operands := o1, errors := errs ++ msgs }, hfirst, ?_, ?_⟩
      · rw [strength_reduction_elided_three targets_equal instr t1 t3 e4 errs op hso h13]
        exact hrun errs
      · rintro ⟨hi, ho⟩
        simp only at hi ho
        rcases hshape with ⟨_, ho1⟩ | hnone
        · rw [ho1] at ho
          exact absurd (congrArg List.length ho) (by simp)
        · rw [hi, hso] at hnone
          cases hnone
  | cons e5 rest1 =>
      have hsecond := strength_reduction_elided_more targets_equal instr t1 t3 e4 e5
        rest1 errs op hso h13
      refine ⟨_, _, hfirst, hsecond, ?_⟩
      rintro ⟨_, ho⟩
      exact absurd (congrArg List.length ho) (by simp)

/-- C27 as amended: do_strength_reduction is idempotent on every instruction but
those that have one of the opcodes add, sub, mul, div and fdiv and four operands or
more of which the first three are targets, the first equal to the second and to the
third. For every other instruction, of any opcode and with any number and kind of
operands (a constant among them holding the member of its tag),
do_strength_reduction returns, it returns again on what it returned, and the second
run leaves the opcode and the operand list of the first. For the instructions set
apart both runs return as well, and the second run changes opcode or operand list. -/
theorem strength_reduction_idempotent {τ : Type} (targets_equal : τ → τ → Bool)
    (lexer : lexer_state τ)
    (hwt : ∀ c, .EXPR_CONSTANT c ∈ lexer.operands → c.well_tagged) :
    (¬ ((lexer.instr = str "add" ∨ lexer.instr = str "sub" ∨ lexer.instr = str "mul"
          ∨ lexer.instr = str "div" ∨ lexer.instr = str "fdiv")
        ∧ three_equal_targets targets_equal lexer.operands = true) →
      ∃ l1 l2,
        do_strength_reduction targets_equal lexer = .ok l1 ∧
        do_strength_reduction targets_equal l1 = .ok l2 ∧
        l2.instr = l1.instr ∧ l2.operands = l1.operands) ∧
    (((lexer.instr = str "add" ∨ lexer.instr = str "sub" ∨ lexer.instr = str "mul"
          ∨ lexer.instr = str "div" ∨ lexer.instr = str "fdiv")
        ∧ three_equal_targets targets_equal lexer.operands = true) →
      ∃ l1 l2,
        do_strength_reduction targets_equal lexer = .ok l1 ∧
        do_strength_reduction targets_equal l1 = .ok l2 ∧
        ¬ (l2.instr = l1.instr ∧ l2.operands = l1.operands)) := by
  obtain ⟨instr, operands, errs⟩ := lexer
  simp only at hwt ⊢
  constructor
  · intro hne
    by_cases hlen : operands.length ≤ 3
    · exact strength_reduction_twice targets_equal instr operands errs hlen hwt
    · match operands, hlen, hne with
      | [], hl, _ => exact absurd (by simp) hl
      | [_], hl, _ => exact absurd (by simp) hl
      | [_, _], hl, _ => exact absurd (by simp) hl
      | [_, _, _], hl, _ => exact absurd (by simp) hl
      | e1 :: e2 :: e3 :: e4 :: rest, _, hne4 =>
          refine strength_reduction_twice_more targets_equal instr e1 e2 e3 e4 rest errs ?_
          cases h3 : three_equal_targets targets_equal (e1 :: e2 :: e3 :: e4 :: rest) with
          | false => exact Or.inr rfl
          | true =>
              refine Or.inl ((strength_operator_none_iff instr).mpr ?_)
              refine ⟨?_, ?_, ?_, ?_, ?_⟩ <;> intro hi <;> apply hne4 <;>
                simp [hi, h3]
  · rintro ⟨hop, h3⟩
    obtain ⟨op, hso⟩ := strength_operator_some instr hop
    exact strength_reduction_twice_differs targets_equal instr operands errs op hso h3 hwt

/-- C27 as amended, at add $I0, $I0, 1, at add $I0, $I0, $I1, $I2 and at
add $I0, $I0, $I0, $I1: on the first the second run leaves inc $I0, on the second it
leaves add $I0, $I1, $I2, and on the third, which is set apart, it changes what the
first run left. -/
theorem strength_reduction_idempotent_witness :
    (∃ l1 l2,
      do_strength_reduction registers_equal
        { instr := str "add",
          operands := [.EXPR_TARGET { type := .INT_TYPE, regno := 0 },
                       .EXPR_TARGET { type := .INT_TYPE, regno := 0 },
                       .EXPR_CONSTANT (new_const .INT_TYPE (.ival 1))],
          errors := [] } = .ok l1 ∧
      do_strength_reduction registers_equal l1 = .ok l2 ∧
      l2.instr = l1.instr ∧ l2.operands = l1.operands) ∧
    (∃ l1 l2,
      do_strength_reduction registers_equal
        { instr := str "add",
          operands := [.EXPR_TARGET { type := .INT_TYPE, regno := 0 },
                       .EXPR_TARGET { type := .INT_TYPE, regno := 0 },
                       .EXPR_TARGET { type := .INT_TYPE, regno := 1 },
                       .EXPR_TARGET { type := .INT_TYPE, regno := 2 }],
          errors := [] } = .ok l1 ∧
      do_strength_reduction registers_equal l1 = .ok l2 ∧
      l2.instr = l1.instr ∧ l2.operands = l1.operands) ∧
    (∃ l1 l2,
      do_strength_reduction registers_equal
        { instr := str "add",
          operands := [.EXPR_TARGET { type := .INT_TYPE, regno := 0 },
                       .EXPR_TARGET { type := .INT_TYPE, regno := 0 },
                       .EXPR_TARGET { type := .INT_TYPE, regno := 0 },
                       .EXPR_TARGET { type := .INT_TYPE, regno := 1 }],
          errors := [] } = .ok l1 ∧
      do_strength_reduction registers_equal l1 = .ok l2 ∧
      ¬ (l2.instr = l1.instr ∧ l2.operands = l1.operands)) :=
  ⟨(strength_reduction_idempotent registers_equal
      { instr := str "add",
        operands := [.EXPR_TARGET { type := .INT_TYPE, regno := 0 },
                     .EXPR_TARGET { type := .INT_TYPE, regno := 0 },
                     .EXPR_CONSTANT (new_const .INT_TYPE (.ival 1))],
        errors := [] }
      (by
        intro c hc
        simp at hc
        subst hc
        decide)).1 (by decide),
   (strength_reduction_idempotent registers_equal
      { instr := str "add",
        operands := [.EXPR_TARGET { type := .INT_TYPE, regno := 0 },
                     .EXPR_TARGET { type := .INT_TYPE, regno := 0 },
                     .EXPR_TARGET { type := .INT_TYPE, regno := 1 },
                     .EXPR_TARGET { type := .INT_TYPE, regno := 2 }],
        errors := [] }
      (by
        intro c hc
        simp at hc)).1 (by decide),
   (strength_reduction_idempotent registers_equal
      { instr := str "add",
        operands := [.EXPR_TARGET { type := .INT_TYPE, regno := 0 },
                     .EXPR_TARGET { type := .INT_TYPE, regno := 0 },
                     .EXPR_TARGET { type := .INT_TYPE, regno := 0 },
                     .EXPR_TARGET { type := .INT_TYPE, regno := 1 }],
        errors := [] }
      (by
        intro c hc
        simp at hc)).2 (by decide)⟩

/-! ## Conditions known at compile time -/

/-- On a constant tagged INT, NUM or STRING that holds a value of its type,
evaluate_c returns 0 or 1. -/
theorem evaluate_c_zero_or_one (c : constant) (i : Int) (n : Double) (s : cstring)
    (hc : c = new_const .INT_TYPE (.ival i) ∨ c = new_const .NUM_TYPE (.nval n)
      ∨ c = new_const .STRING_TYPE (.sval s)) :
    ∃ v, evaluate_c c = .ok v ∧ (v = 0 ∨ v = 1) := by
  rcases hc with h | h | h <;> subst h
  · by_cases h : i = 0
    · exact ⟨0, by simp [evaluate_c, new_const, b2i, h], Or.inl rfl⟩
    · exact ⟨1, by simp [evaluate_c, new_const, b2i, h], Or.inr rfl⟩
  · cases h : d_ne n (Double.of_int 0)
    · exact ⟨0, by simp [evaluate_c, new_const, b2i, h], Or.inl rfl⟩
    · exact ⟨1, by simp [evaluate_c, new_const, b2i, h], Or.inr rfl⟩
  · have h := evaluate_s_eq s
    by_cases h3 : (s = [] ∨ s = [48] ∨ s = [46, 48] ∨ s = [48, 46] ∨ s = [48, 46, 48])
    · rw [if_pos h3] at h
      exact ⟨0, by simp [evaluate_c, new_const, h], Or.inl rfl⟩
    · rw [if_neg h3] at h
      exact ⟨1, by simp [evaluate_c, new_const, h], Or.inr rfl⟩

/-- C28: for every constant tagged INT, NUM or STRING and every label, evaluate_c
returns a truth value v, and the statement if c goto L leaves branch L when v is 1 and
noop when it is 0, while unless c goto L leaves noop when v is 1 and branch L when it
is 0; so one of the two forms branches and the other does not. -/
theorem constant_condition {τ : Type} (lexer : lexer_state τ) (c : constant)
    (label : cstring) (i : Int) (n : Double) (s : cstring)
    (hc : c = new_const .INT_TYPE (.ival i) ∨ c = new_const .NUM_TYPE (.nval n)
      ∨ c = new_const .STRING_TYPE (.sval s)) :
    ∃ v, evaluate_c c = .ok v ∧ (v = 0 ∨ v = 1) ∧
      yyparse_case_134 lexer yyparse_case_156 c label
        = .ok (if v = 1 then
            { instr := str "branch", operands := lexer.operands ++ [.EXPR_IDENT label],
              errors := lexer.errors }
          else { instr := str "noop", operands := lexer.operands,
                 errors := lexer.errors }) ∧
      yyparse_case_134 lexer yyparse_case_157 c label
        = .ok (if v = 1 then
            { instr := str "noop", operands := lexer.operands, errors := lexer.errors }
          else
            { instr := str "branch", operands := lexer.operands ++ [.EXPR_IDENT label],
              errors := lexer.errors }) := by
  obtain ⟨v, hv, h01⟩ := evaluate_c_zero_or_one c i n s hc
  refine ⟨v, hv, h01, ?_, ?_⟩ <;>
    rcases h01 with h | h <;> subst h <;>
    simp [yyparse_case_134, hv, yyparse_case_156, yyparse_case_157, b2i, set_instrf,
      set_instr, push_operand]

/-- C28 at the constant 1 and the label L, in a lexer without operands: if 1 goto L
leaves branch L and unless 1 goto L leaves noop. -/
theorem constant_condition_witness :
    ∃ v, evaluate_c (new_const .INT_TYPE (.ival 1)) = .ok v ∧ (v = 0 ∨ v = 1) ∧
      yyparse_case_134 fresh_lexer yyparse_case_156 (new_const .INT_TYPE (.ival 1)) (str "L")
        = .ok (if v = 1 then
            { instr := str "branch",
              operands := fresh_lexer.operands ++ [.EXPR_IDENT (str "L")],
              errors := fresh_lexer.errors }
          else { instr := str "noop", operands := fresh_lexer.operands,
                 errors := fresh_lexer.errors }) ∧
      yyparse_case_134 fresh_lexer yyparse_case_157 (new_const .INT_TYPE (.ival 1)) (str "L")
        = .ok (if v = 1 then
            { instr := str "noop", operands := fresh_lexer.operands,
              errors := fresh_lexer.errors }
          else
            { instr := str "branch",
              operands := fresh_lexer.operands ++ [.EXPR_IDENT (str "L")],
              errors := fresh_lexer.errors }) :=
  constant_condition fresh_lexer (new_const .INT_TYPE (.ival 1)) (str "L") 1 .nan []
    (Or.inl rfl)

/-- The statements if 1 goto L and unless 1 goto L, evaluated: branch L and noop. -/
theorem if_one_goto :
    yyparse_case_134 fresh_lexer yyparse_case_156 (new_const .INT_TYPE (.ival 1)) (str "L")
      = .ok { instr := str "branch", operands := [.EXPR_IDENT (str "L")], errors := [] } ∧
    yyparse_case_134 fresh_lexer yyparse_case_157 (new_const .INT_TYPE (.ival 1)) (str "L")
      = .ok { instr := str "noop", operands := [], errors := [] } :=
  ⟨rfl, rfl⟩

/-- The function evaluate_n_n answers, for the operator of a token of rel_op, whether
the order of its operands is the one the token asks for. -/
theorem evaluate_n_n_holds (tok : rel_op_token) (a b : Double) :
    evaluate_n_n a (yyparse_rel_op tok).val b = b2i (rel_holds tok (a.order b)) := by
  cases tok <;>
    simp only [evaluate_n_n, yyparse_rel_op, pir_rel_operator.val, pir_math_operator.val,
      rel_holds, d_ne, d_eq, d_lt, d_le, d_gt, d_ge] <;>
    cases a.order b <;> simp [b2i]

/-- The order of two strings read off strcmp. -/
theorem string_order_strcmp (a b : cstring) :
    (strcmp a b < 0 ↔ string_order a b = .lt) ∧
    (strcmp a b = 0 ↔ string_order a b = .eq) ∧
    (0 < strcmp a b ↔ string_order a b = .gt) ∧
    string_order a b ≠ .unordered := by
  have hn := strcmp_neg_iff a b
  have hz := strcmp_eq_zero_iff a b
  unfold string_order
  by_cases h1 : List.Lex (fun x y : Nat => x < y) a b
  · have : strcmp a b < 0 := hn.mpr h1
    simp [h1]
    omega
  · have h1' : ¬ strcmp a b < 0 := fun h => h1 (hn.mp h)
    by_cases h2 : a = b
    · subst h2
      have h0 : strcmp a a = 0 := hz.mpr rfl
      simp [h1, h0]
    · have h2' : ¬ strcmp a b = 0 := fun h => h2 (hz.mp h)
      simp [h1, h2]
      omega

/-- The function evaluate_s_s answers, for the operator of a token of rel_op, whether
the order of its operands is the one the token asks for. -/
theorem evaluate_s_s_holds (tok : rel_op_token) (a b : cstring) :
    evaluate_s_s a (yyparse_rel_op tok).val b = b2i (rel_holds tok (string_order a b)) := by
  obtain ⟨hlt, heq, hgt, hun⟩ := string_order_strcmp a b
  have htri : strcmp a b < 0 ∨ strcmp a b = 0 ∨ 0 < strcmp a b := by omega
  cases tok <;>
    simp only [evaluate_s_s, yyparse_rel_op, pir_rel_operator.val, pir_math_operator.val,
      rel_holds] <;>
    rcases htri with h | h | h
  all_goals first
    | (have ho := hlt.mp h; rw [ho]; simp [b2i]; omega)
    | (have ho := heq.mp h; rw [ho]; simp [b2i, h])
    | (have ho := hgt.mp h; rw [ho]; simp [b2i]; omega)

/-- Case 146 on a condition that was evaluated to a truth value: if leaves branch when
it holds, unless when it does not. -/
theorem yyparse_case_146_known {τ : Type} (invert_instr : lexer_state τ → lexer_state τ)
    (lexer : lexer_state τ) (label : cstring) (holds : Bool) :
    yyparse_case_146 invert_instr lexer yyparse_case_156 (b2i holds) label
      = branch_or_noop lexer label holds ∧
    yyparse_case_146 invert_instr lexer yyparse_case_157 (b2i holds) label
      = branch_or_noop lexer label (!holds) := by
  cases holds <;>
    simp [yyparse_case_146, yyparse_case_156, yyparse_case_157, b2i, branch_or_noop]

/-- C29: for constants a and b of each of the five pairs of literal types and each
token of rel_op, the statement if a op b goto L leaves branch L when the comparison
holds and noop when it does not, and unless a op b goto L leaves branch L when it does
not hold and noop when it does. The comparison is that of the ints, of the doubles
(an int converted), or of the strings in the order of their bytes. -/
theorem compare_condition {τ : Type} (invert_instr : lexer_state τ → lexer_state τ)
    (lexer : lexer_state τ) (label : cstring) (tok : rel_op_token) (ai bi : Int)
    (ad bd : Double) (sa sb : cstring) :
    yyparse_case_146 invert_instr lexer yyparse_case_156
        (yyparse_case_151 ai (yyparse_rel_op tok) bi) label
      = branch_or_noop lexer label (rel_holds tok (int_order ai bi)) ∧
    yyparse_case_146 invert_instr lexer yyparse_case_157
        (yyparse_case_151 ai (yyparse_rel_op tok) bi) label
      = branch_or_noop lexer label (!rel_holds tok (int_order ai bi)) ∧
    yyparse_case_146 invert_instr lexer yyparse_case_156
        (yyparse_case_152 ai (yyparse_rel_op tok) bd) label
      = branch_or_noop lexer label (rel_holds tok ((Double.of_int ai).order bd)) ∧
    yyparse_case_146 invert_instr lexer yyparse_case_157
        (yyparse_case_152 ai (yyparse_rel_op tok) bd) label
      = branch_or_noop lexer label (!rel_holds tok ((Double.of_int ai).order bd)) ∧
    yyparse_case_146 invert_instr lexer yyparse_case_156
        (yyparse_case_153 ad (yyparse_rel_op tok) bi) label
      = branch_or_noop lexer label (rel_holds tok (ad.order (Double.of_int bi))) ∧
    yyparse_case_146 invert_instr lexer yyparse_case_157
        (yyparse_case_153 ad (yyparse_rel_op tok) bi) label
      = branch_or_noop lexer label (!rel_holds tok (ad.order (Double.of_int bi))) ∧
    yyparse_case_146 invert_instr lexer yyparse_case_156
        (yyparse_case_154 ad (yyparse_rel_op tok) bd) label
      = branch_or_noop lexer label (rel_holds tok (ad.order bd)) ∧
    yyparse_case_146 invert_instr lexer yyparse_case_157
        (yyparse_case_154 ad (yyparse_rel_op tok) bd) label
      = branch_or_noop lexer label (!rel_holds tok (ad.order bd)) ∧
    yyparse_case_146 invert_instr lexer yyparse_case_156
        (yyparse_case_155 sa (yyparse_rel_op tok) sb) label
      = branch_or_noop lexer label (rel_holds tok (string_order sa sb)) ∧
    yyparse_case_146 invert_instr lexer yyparse_case_157
        (yyparse_case_155 sa (yyparse_rel_op tok) sb) label
      = branch_or_noop lexer label (!rel_holds tok (string_order sa sb)) := by
  simp only [yyparse_case_151, yyparse_case_152, yyparse_case_153, yyparse_case_154,
    yyparse_case_155, evaluate_i_i, evaluate_i_n, evaluate_n_i, evaluate_n_n_holds,
    evaluate_s_s_holds, order_of_int]
  exact ⟨(yyparse_case_146_known invert_instr lexer label _).1,
    (yyparse_case_146_known invert_instr lexer label _).2,
    (yyparse_case_146_known invert_instr lexer label _).1,
    (yyparse_case_146_known invert_instr lexer label _).2,
    (yyparse_case_146_known invert_instr lexer label _).1,
    (yyparse_case_146_known invert_instr lexer label _).2,
    (yyparse_case_146_known invert_instr lexer label _).1,
    (yyparse_case_146_known invert_instr lexer label _).2,
    (yyparse_case_146_known invert_instr lexer label _).1,
    (yyparse_case_146_known invert_instr lexer label _).2⟩

/-- The statements if 3 >= 3 goto L and unless "abc" < "abd" goto L, evaluated: branch
L and noop. -/
theorem compare_condition_examples :
    yyparse_case_146 (fun l => l) fresh_lexer yyparse_case_156
        (yyparse_case_151 3 (yyparse_rel_op .TK_GE) 3) (str "L")
      = { instr := str "branch", operands := [.EXPR_IDENT (str "L")], errors := [] } ∧
    yyparse_case_146 (fun l => l) fresh_lexer yyparse_case_157
        (yyparse_case_155 (str "abc") (yyparse_rel_op .TK_LT) (str "abd")) (str "L")
      = { instr := str "noop", operands := [], errors := [] } :=
  ⟨rfl, rfl⟩

/-! ## The conditional instruction of a variable -/

/-- C30: for every name and label, in a lexer without operands, create_if_instr leaves
one instruction; its opcode is if when invert and hasnull are 0, unless when only
hasnull is 0, if_null when only invert is 0 and unless_null when neither is 0, and it
has two operands: the target of the symbol of the name (the symbol found, or the one
made when none is found), then the label. -/
theorem create_if_instr_emits {σ τ : Type} (sf : symbol_functions σ τ)
    (lexer : lexer_state τ) (invert hasnull : Int) (name label : cstring)
    (h : lexer.operands = []) :
    (create_if_instr sf lexer invert hasnull name label).instr
      = (if hasnull = 0 then (if invert = 0 then str "if" else str "unless")
        else (if invert = 0 then str "if_null" else str "unless_null")) ∧
    (create_if_instr sf lexer invert hasnull name label).operands
      = [.EXPR_TARGET (sf.target_from_symbol
            ((sf.find_symbol name).getD (sf.new_symbol name .UNKNOWN_TYPE))),
         .EXPR_IDENT label] := by
  unfold create_if_instr
  by_cases hn : hasnull = 0 <;> by_cases hi : invert = 0 <;>
    cases hf : sf.find_symbol name <;>
    simp [hn, hi, set_instrf, set_instr, push_operand, lexer_yyerror, h]

/-- C30 at the declared symbol x of type pmc and the label L: the four pairs of invert
and hasnull give if, unless, if_null and unless_null, each with the target of x and
the label. -/
theorem create_if_instr_emits_witness :
    ((create_if_instr (table_functions [{ name := str "x", type := .PMC_TYPE }])
        fresh_lexer_targets 0 0 (str "x") (str "L")).instr = str "if" ∧
     (create_if_instr (table_functions [{ name := str "x", type := .PMC_TYPE }])
        fresh_lexer_targets 0 0 (str "x") (str "L")).operands
        = [.EXPR_TARGET (.of_symbol { name := str "x", type := .PMC_TYPE }),
           .EXPR_IDENT (str "L")]) ∧
    (create_if_instr (table_functions [{ name := str "x", type := .PMC_TYPE }])
        fresh_lexer_targets 1 0 (str "x") (str "L")).instr = str "unless" ∧
    (create_if_instr (table_functions [{ name := str "x", type := .PMC_TYPE }])
        fresh_lexer_targets 0 1 (str "x") (str "L")).instr = str "if_null" ∧
    (create_if_instr (table_functions [{ name := str "x", type := .PMC_TYPE }])
        fresh_lexer_targets 1 1 (str "x") (str "L")).instr = str "unless_null" :=
  ⟨create_if_instr_emits (table_functions [{ name := str "x", type := .PMC_TYPE }])
      fresh_lexer_targets 0 0 (str "x") (str "L") rfl,
   (create_if_instr_emits (table_functions [{ name := str "x", type := .PMC_TYPE }])
      fresh_lexer_targets 1 0 (str "x") (str "L") rfl).1,
   (create_if_instr_emits (table_functions [{ name := str "x", type := .PMC_TYPE }])
      fresh_lexer_targets 0 1 (str "x") (str "L") rfl).1,
   (create_if_instr_emits (table_functions [{ name := str "x", type := .PMC_TYPE }])
      fresh_lexer_targets 1 1 (str "x") (str "L") rfl).1⟩


/-! ## The variable of a conditional instruction that is not declared -/

/-- C31: when find_symbol does not find the name, create_if_instr reports the one
diagnostic symbol not declared for it and still leaves the conditional instruction,
whose target is that of a new symbol of the name and of the type UNKNOWN; when
find_symbol finds a symbol, nothing is reported and the target is that of the symbol
found. -/
theorem create_if_instr_undeclared {σ τ : Type} (sf : symbol_functions σ τ)
    (lexer : lexer_state τ) (invert hasnull : Int) (name label : cstring) :
    (sf.find_symbol name = none →
      (create_if_instr sf lexer invert hasnull name label).errors
        = lexer.errors ++ ["symbol '" ++ cstring_text name ++ "' not declared'"] ∧
      (create_if_instr sf lexer invert hasnull name label).operands
        = lexer.operands ++
          [.EXPR_TARGET (sf.target_from_symbol (sf.new_symbol name .UNKNOWN_TYPE)),
           .EXPR_IDENT label] ∧
      (create_if_instr sf lexer invert hasnull name label).instr
        = (if hasnull = 0 then (if invert = 0 then str "if" else str "unless")
          else (if invert = 0 then str "if_null" else str "unless_null"))) ∧
    (∀ sym, sf.find_symbol name = some sym →
      (create_if_instr sf lexer invert hasnull name label).errors = lexer.errors ∧
      (create_if_instr sf lexer invert hasnull name label).operands
        = lexer.operands ++
          [.EXPR_TARGET (sf.target_from_symbol sym), .EXPR_IDENT label] ∧
      (create_if_instr sf lexer invert hasnull name label).instr
        = (if hasnull = 0 then (if invert = 0 then str "if" else str "unless")
          else (if invert = 0 then str "if_null" else str "unless_null"))) := by
  unfold create_if_instr
  refine ⟨fun hf => ?_, fun sym hf => ?_⟩ <;>
    by_cases hn : hasnull = 0 <;> by_cases hi : invert = 0 <;>
    simp [hf, hn, hi, set_instrf, set_instr, push_operand, lexer_yyerror]

/-- C31 at the table that holds the int x alone: if y goto L reports that y is not
declared and leaves if with the target of an unknown y; if x goto L reports nothing
and leaves if with the target of the int x. -/
theorem create_if_instr_undeclared_witness :
    ((table_functions [{ name := str "x", type := .INT_TYPE }]).find_symbol (str "y") = none ∧
      (create_if_instr (table_functions [{ name := str "x", type := .INT_TYPE }])
        fresh_lexer_targets 0 0 (str "y") (str "L")).errors
        = ["symbol 'y' not declared'"] ∧
      (create_if_instr (table_functions [{ name := str "x", type := .INT_TYPE }])
        fresh_lexer_targets 0 0 (str "y") (str "L")).operands
        = [.EXPR_TARGET (.of_symbol { name := str "y", type := .UNKNOWN_TYPE }),
           .EXPR_IDENT (str "L")] ∧
      (create_if_instr (table_functions [{ name := str "x", type := .INT_TYPE }])
        fresh_lexer_targets 0 0 (str "y") (str "L")).instr = str "if") ∧
    ((table_functions [{ name := str "x", type := .INT_TYPE }]).find_symbol (str "x")
        = some { name := str "x", type := .INT_TYPE } ∧
      (create_if_instr (table_functions [{ name := str "x", type := .INT_TYPE }])
        fresh_lexer_targets 0 0 (str "x") (str "L")).errors = [] ∧
      (create_if_instr (table_functions [{ name := str "x", type := .INT_TYPE }])
        fresh_lexer_targets 0 0 (str "x") (str "L")).operands
        = [.EXPR_TARGET (.of_symbol { name := str "x", type := .INT_TYPE }),
           .EXPR_IDENT (str "L")] ∧
      (create_if_instr (table_functions [{ name := str "x", type := .INT_TYPE }])
        fresh_lexer_targets 0 0 (str "x") (str "L")).instr = str "if") :=
  ⟨⟨by decide,
    (create_if_instr_undeclared (table_functions [{ name := str "x", type := .INT_TYPE }])
      fresh_lexer_targets 0 0 (str "y") (str "L")).1 (by decide)⟩,
   ⟨by decide,
    (create_if_instr_undeclared (table_functions [{ name := str "x", type := .INT_TYPE }])
      fresh_lexer_targets 0 0 (str "x") (str "L")).2 _ (by decide)⟩⟩



/-! ## Conditions known at compile time are never the runtime sentinel -/

/-- For a relational operator evaluate_n_n answers with 0 or with 1. -/
theorem evaluate_n_n_zero_or_one (op : pir_rel_operator) (a b : Double) :
    evaluate_n_n a op.val b = 0 ∨ evaluate_n_n a op.val b = 1 := by
  cases op <;>
    simp only [evaluate_n_n, pir_rel_operator.val, pir_math_operator.val] <;>
    simp [b2i]

/-- For a relational operator evaluate_s_s answers with 0 or with 1. -/
theorem evaluate_s_s_zero_or_one (op : pir_rel_operator) (a b : cstring) :
    evaluate_s_s a op.val b = 0 ∨ evaluate_s_s a op.val b = 1 := by
  cases op <;>
    simp only [evaluate_s_s, pir_rel_operator.val, pir_math_operator.val] <;>
    simp [b2i] <;> first | tauto | omega

/-- Case 146 on a condition that is 0 or 1: the instruction is branch or noop, made at
compile time; the path for a condition of the runtime is not taken. -/
theorem yyparse_case_146_compile_time {τ : Type}
    (invert_instr : lexer_state τ → lexer_state τ) (lexer : lexer_state τ)
    (if_unless v : Int) (label : cstring) (h : v = 0 ∨ v = 1) :
    yyparse_case_146 invert_instr lexer if_unless v label
      = branch_or_noop lexer label (xor (decide (v = 1)) (decide (if_unless ≠ 0))) := by
  rcases h with h | h <;> subst h <;> by_cases hu : if_unless = 0 <;>
    simp [yyparse_case_146, branch_or_noop, hu]

/-- C37: for each of the six relational operators and all operands, evaluate_i_i,
evaluate_i_n, evaluate_n_i, evaluate_n_n and evaluate_s_s return 0 or 1 and never -1;
so the action of if_unless condition goto, which takes -1 for a condition of the
runtime, makes branch or noop at compile time from each of these values. -/
theorem evaluate_relational_not_sentinel (op : pir_rel_operator) (ai bi : Int)
    (an bn : Double) (sa sb : cstring) :
    ((evaluate_i_i ai op.val bi = 0 ∨ evaluate_i_i ai op.val bi = 1) ∧
      (evaluate_i_n ai op.val bn = 0 ∨ evaluate_i_n ai op.val bn = 1) ∧
      (evaluate_n_i an op.val bi = 0 ∨ evaluate_n_i an op.val bi = 1) ∧
      (evaluate_n_n an op.val bn = 0 ∨ evaluate_n_n an op.val bn = 1) ∧
      (evaluate_s_s sa op.val sb = 0 ∨ evaluate_s_s sa op.val sb = 1)) ∧
    (evaluate_i_i ai op.val bi ≠ -1 ∧ evaluate_i_n ai op.val bn ≠ -1 ∧
      evaluate_n_i an op.val bi ≠ -1 ∧ evaluate_n_n an op.val bn ≠ -1 ∧
      evaluate_s_s sa op.val sb ≠ -1) ∧
    (∀ (τ : Type) (invert_instr : lexer_state τ → lexer_state τ) (lexer : lexer_state τ)
        (if_unless : Int) (label : cstring),
      yyparse_case_146 invert_instr lexer if_unless (yyparse_case_151 ai op bi) label
        = branch_or_noop lexer label
            (xor (decide (evaluate_i_i ai op.val bi = 1)) (decide (if_unless ≠ 0))) ∧
      yyparse_case_146 invert_instr lexer if_unless (yyparse_case_152 ai op bn) label
        = branch_or_noop lexer label
            (xor (decide (evaluate_i_n ai op.val bn = 1)) (decide (if_unless ≠ 0))) ∧
      yyparse_case_146 invert_instr lexer if_unless (yyparse_case_153 an op bi) label
        = branch_or_noop lexer label
            (xor (decide (evaluate_n_i an op.val bi = 1)) (decide (if_unless ≠ 0))) ∧
      yyparse_case_146 invert_instr lexer if_unless (yyparse_case_154 an op bn) label
        = branch_or_noop lexer label
            (xor (decide (evaluate_n_n an op.val bn = 1)) (decide (if_unless ≠ 0))) ∧
      yyparse_case_146 invert_instr lexer if_unless (yyparse_case_155 sa op sb) label
        = branch_or_noop lexer label
            (xor (decide (evaluate_s_s sa op.val sb = 1)) (decide (if_unless ≠ 0)))) := by
  have h1 : evaluate_i_i ai op.val bi = 0 ∨ evaluate_i_i ai op.val bi = 1 :=
    evaluate_n_n_zero_or_one op _ _
  have h2 : evaluate_i_n ai op.val bn = 0 ∨ evaluate_i_n ai op.val bn = 1 :=
    evaluate_n_n_zero_or_one op _ _
  have h3 : evaluate_n_i an op.val bi = 0 ∨ evaluate_n_i an op.val bi = 1 :=
    evaluate_n_n_zero_or_one op _ _
  have h4 := evaluate_n_n_zero_or_one op an bn
  have h5 := evaluate_s_s_zero_or_one op sa sb
  refine ⟨⟨h1, h2, h3, h4, h5⟩, ⟨?_, ?_, ?_, ?_, ?_⟩, ?_⟩
  · omega
  · omega
  · omega
  · omega
  · omega
  · intro τ invert_instr lexer if_unless label
    exact ⟨yyparse_case_146_compile_time invert_instr lexer if_unless _ label h1,
      yyparse_case_146_compile_time invert_instr lexer if_unless _ label h2,
      yyparse_case_146_compile_time invert_instr lexer if_unless _ label h3,
      yyparse_case_146_compile_time invert_instr lexer if_unless _ label h4,
      yyparse_case_146_compile_time invert_instr lexer if_unless _ label h5⟩

/-! ## Floor division of two ints -/

/-- C36 at -7 // 2: fold_i_i gives the int -3, the quotient cut towards zero, where
rounding down gives -4, the whole number that fold_n_n gives for -7.0 // 2.0 through
floor; at 7 // 2 both give 3. -/
theorem fold_i_i_fdiv_negative :
    fold_i_i exact_machine 0 (-7) .OP_FDIV 2
      = .ok { const := new_const .INT_TYPE (.ival (-3)), errors := [] } ∧
    Int.fdiv (-7) 2 = -4 ∧
    fold_n_n exact_machine .nan (Double.of_int (-7)) .OP_FDIV (Double.of_int 2)
      = .ok { const := new_const .NUM_TYPE (.nval (Double.of_int (-4))), errors := [] } ∧
    fold_i_i exact_machine 0 7 .OP_FDIV 2
      = .ok { const := new_const .INT_TYPE (.ival 3), errors := [] } ∧
    fold_n_n exact_machine .nan (Double.of_int 7) .OP_FDIV (Double.of_int 2)
      = .ok { const := new_const .NUM_TYPE (.nval (Double.of_int 3)), errors := [] } := by
  decide

/-! ## Too many errors -/

/-- C32: the action of error_stat ends the compilation with the message Too many
errors exactly when the count of errors is greater than 10; with a count of 10 or less
it resumes. -/
theorem yyparse_case_73_aborts_iff (parse_errors : Int) :
    (yyparse_case_73 parse_errors = .aborted "Too many errors. Compilation aborted.\n"
      ↔ parse_errors > 10) ∧
    (yyparse_case_73 parse_errors = .resumed ↔ parse_errors ≤ 10) := by
  unfold yyparse_case_73 MAX_NUM_ERRORS
  by_cases h : parse_errors > 10
  · simp [h]
  · simp [h]
    omega



/-! ## Assignments of a folded constant -/

/-- The action of binary_expr and then that of the assignment, on the outcome of a
fold function, in a lexer without operands: the instruction set with the target and
the constant. -/
theorem assign_folded {τ : Type} (lexer : lexer_state τ) (t : τ) (r : Except fault folded)
    (h : lexer.operands = []) :
    yyparse_case_97 (yyparse_binary_expr lexer r) t = r.map (set_folded lexer t) := by
  cases r with
  | error e => rfl
  | ok f =>
      simp [yyparse_case_97, yyparse_binary_expr, report_folded, set_instrf, set_instr,
        push_operand, unshift_operand, set_folded, Except.map, h]

/-- The assignments $I0 = 3 - 5 and $S0 = "a" . "b", whose folds return: they leave
set $I0, -2 and set $S0, "ab". -/
theorem assign_three_minus_five :
    yyparse_case_97 (yyparse_case_120 exact_machine 0 fresh_lexer 3 .OP_SUB 5)
        { type := .INT_TYPE, regno := 0 }
      = .ok { instr := str "set",
              operands := [.EXPR_TARGET { type := .INT_TYPE, regno := 0 },
                           .EXPR_CONSTANT (new_const .INT_TYPE (.ival (-2)))],
              errors := [] } ∧
    yyparse_case_97 (yyparse_case_119 fresh_lexer (str "a") .OP_CONCAT (str "b"))
        { type := .STRING_TYPE, regno := 0 }
      = .ok { instr := str "set",
              operands := [.EXPR_TARGET { type := .STRING_TYPE, regno := 0 },
                           .EXPR_CONSTANT (new_const .STRING_TYPE (.sval (str "ab")))],
              errors := [] } :=
  ⟨rfl, rfl⟩

/-- C33 at t = a % 0 and at t = a // 0 over int constants, such as $I0 = 1 % 0: for
every left operand, target, lexer and machine, fold_i_i divides by zero, which ends
the run, and the assignment leaves no instruction at all, where the case OP_DIV next
to them tests for the zero, reports it and lets the assignment leave its set. -/
theorem assign_mod_by_zero_no_set {τ : Type} (mc : machine) (uninit a : Int)
    (lexer : lexer_state τ) (t : τ) :
    fold_i_i mc uninit a .OP_MOD 0 = .error (.undefined "integer division by zero") ∧
    yyparse_case_97 (yyparse_case_120 mc uninit lexer a .OP_MOD 0) t
      = .error (.undefined "integer division by zero") ∧
    fold_i_i mc uninit a .OP_FDIV 0 = .error (.undefined "integer division by zero") ∧
    yyparse_case_97 (yyparse_case_120 mc uninit lexer a .OP_FDIV 0) t
      = .error (.undefined "integer division by zero") ∧
    (∃ l, yyparse_case_97 (yyparse_case_120 mc uninit lexer a .OP_DIV 0) t = .ok l ∧
      l.instr = str "set") := by
  refine ⟨?_, ?_, ?_, ?_, ?_⟩ <;>
    simp [yyparse_case_97, yyparse_case_120, yyparse_binary_expr, report_folded, fold_i_i,
      c_mod, c_div, yyerror, Except.map, set_instrf, set_instr, push_operand,
      unshift_operand]

/-! ## A plain instruction over two constants -/

/-- C34 at add $I0, 10, 20: after the actions of parrot_op, of the three operands and
of opt_op_args the lexer holds add with its three operands, not set $I0, 30, whatever
is_parrot_op answers (when it accepts add nothing is reported and
do_strength_reduction returns the instruction it got). The text at the head of the
file says that the parser folds add $I0, 10, 20 into set $I0, 30. -/
theorem add_of_two_constants_not_folded (is_parrot_op : cstring → Bool) :
    ∃ errs : List String,
      yyparse_case_79 is_parrot_op registers_equal
        (yyparse_case_86
          (yyparse_case_86
            (yyparse_case_86 (yyparse_case_78 fresh_lexer (str "add"))
              (.EXPR_TARGET { type := .INT_TYPE, regno := 0 }))
            (.EXPR_CONSTANT (new_const .INT_TYPE (.ival 10))))
          (.EXPR_CONSTANT (new_const .INT_TYPE (.ival 20))))
      = .ok { instr := str "add",
              operands := [.EXPR_TARGET { type := .INT_TYPE, regno := 0 },
                           .EXPR_CONSTANT (new_const .INT_TYPE (.ival 10)),
                           .EXPR_CONSTANT (new_const .INT_TYPE (.ival 20))],
              errors := errs } ∧
      (is_parrot_op (str "add") = true ↔ errs = []) := by
  cases h : is_parrot_op (str "add") with
  | false =>
      refine ⟨["'add' is not a parrot instruction"], ?_, by simp⟩
      simp only [yyparse_case_79, yyparse_case_86, yyparse_case_78, push_operand,
        set_instr, get_instr, fresh_lexer, h]
      rfl
  | true =>
      refine ⟨[], ?_, by simp⟩
      simp only [yyparse_case_79, yyparse_case_86, yyparse_case_78, push_operand,
        set_instr, get_instr, fresh_lexer, h]
      exact strength_reduction_not_elided registers_equal (str "add")
        (.EXPR_TARGET { type := .INT_TYPE, regno := 0 })
        (.EXPR_CONSTANT (new_const .INT_TYPE (.ival 10)))
        (.EXPR_CONSTANT (new_const .INT_TYPE (.ival 20))) [] []
        (fun t1 t2 _ h2 => by cases h2)



/-! ## A local that is declared again -/

/-- A symbol that the lookup finds is the one it finds after one more declaration. -/
theorem symbol_lookup_declare_symbol
    (next_register : List declared_symbol → pir_type → Int) (table : List declared_symbol)
    (type : pir_type) (id : local_id) (name : cstring) (sym : declared_symbol)
    (h : symbol_lookup table name = some sym) :
    symbol_lookup (declare_symbol next_register table type id) name = some sym := by
  unfold declare_symbol
  cases symbol_lookup table id.name with
  | some _ => exact h
  | none =>
      unfold symbol_lookup at h ⊢
      simp [List.find?_append, h]

/-- A symbol that the lookup finds is the one it finds after declare_local. -/
theorem symbol_lookup_declare_local
    (next_register : List declared_symbol → pir_type → Int) (type : pir_type)
    (name : cstring) (sym : declared_symbol) (list : List local_id) :
    ∀ table : List declared_symbol, symbol_lookup table name = some sym →
      symbol_lookup (declare_local next_register table type list) name = some sym := by
  induction list with
  | nil => intro table h; exact h
  | cons id rest ih =>
      intro table h
      exact ih _ (symbol_lookup_declare_symbol next_register table type id name sym h)

/-- C35: when the symbol table of the subroutine holds a symbol of the name, a .local
directive for that name reports symbol is already declared, and the lookup of the name
after the directive gives the symbol it gave before, with its type and register; the
same holds when the directive declares other names before and after it. -/
theorem redeclared_local_keeps_first {τ : Type}
    (next_register : List declared_symbol → pir_type → Int) (table : List declared_symbol)
    (lexer : lexer_state τ) (type : pir_type) (ident : cstring) (has_unique_reg : Int)
    (sym : declared_symbol) (h : symbol_lookup table ident = some sym) :
    (yyparse_case_165 table lexer ident).1.errors
      = lexer.errors ++ ["symbol '" ++ cstring_text ident ++ "' is already declared"] ∧
    (local_decl_one next_register table lexer type ident has_unique_reg).1.errors
      = lexer.errors ++ ["symbol '" ++ cstring_text ident ++ "' is already declared"] ∧
    (local_decl_one next_register table lexer type ident has_unique_reg).2 = table ∧
    symbol_lookup (local_decl_one next_register table lexer type ident has_unique_reg).2
      ident = some sym ∧
    (∀ before after : List local_id,
      symbol_lookup
        (yyparse_case_161 next_register table type
          (before ++ [yyparse_case_164 (yyparse_case_165 table lexer ident).2
            has_unique_reg] ++ after))
        ident = some sym) := by
  have h165 : yyparse_case_165 table lexer ident
      = (lexer_yyerror lexer ("symbol '" ++ cstring_text ident ++ "' is already declared"),
          ident) := by
    simp [yyparse_case_165, h]
  have htable : (local_decl_one next_register table lexer type ident has_unique_reg).2
      = table := by
    simp [local_decl_one, h165, yyparse_case_161, yyparse_case_162, yyparse_case_164,
      new_local, declare_local, declare_symbol, h]
  refine ⟨by rw [h165]; rfl, by simp [local_decl_one, h165, lexer_yyerror], htable,
    by rw [htable]; exact h, fun before after => ?_⟩
  exact symbol_lookup_declare_local next_register type ident sym _ table h

/-- C35 at a table that holds the int x in register 0, and the directive .local num x:
the error is reported and the lookup of x still gives the int in register 0. -/
theorem redeclared_local_keeps_first_witness :
    symbol_lookup [{ name := str "x", type := .INT_TYPE, color := 0, unique_reg := false }]
        (str "x")
      = some { name := str "x", type := .INT_TYPE, color := 0, unique_reg := false } ∧
    (local_decl_one (fun tb _ => (tb.length : Int))
        [{ name := str "x", type := .INT_TYPE, color := 0, unique_reg := false }]
        fresh_lexer .NUM_TYPE (str "x") 0).1.errors
      = ["symbol 'x' is already declared"] ∧
    symbol_lookup
        (local_decl_one (fun tb _ => (tb.length : Int))
          [{ name := str "x", type := .INT_TYPE, color := 0, unique_reg := false }]
          fresh_lexer .NUM_TYPE (str "x") 0).2 (str "x")
      = some { name := str "x", type := .INT_TYPE, color := 0, unique_reg := false } :=
  ⟨by decide,
   (redeclared_local_keeps_first (fun tb _ => (tb.length : Int))
      [{ name := str "x", type := .INT_TYPE, color := 0, unique_reg := false }]
      fresh_lexer .NUM_TYPE (str "x") 0
      { name := str "x", type := .INT_TYPE, color := 0, unique_reg := false }
      (by decide)).2.1,
   (redeclared_local_keeps_first (fun tb _ => (tb.length : Int))
      [{ name := str "x", type := .INT_TYPE, color := 0, unique_reg := false }]
      fresh_lexer .NUM_TYPE (str "x") 0
      { name := str "x", type := .INT_TYPE, color := 0, unique_reg := false }
      (by decide)).2.2.2.1⟩



/-! ## Assignments that the grammar reduces by itself -/

/-- The operators of the five opcodes that do_strength_reduction looks at, and the
names that opnames holds for them. -/
theorem strength_operator_names :
    strength_operator (str "add") = some .OP_ADD ∧
    strength_operator (str "sub") = some .OP_SUB ∧
    strength_operator (str "mul") = some .OP_MUL ∧
    strength_operator (str "div") = some .OP_DIV ∧
    strength_operator (str "fdiv") = some .OP_FDIV ∧
    opnames_at pir_math_operator.OP_ADD.val = str "add" ∧
    opnames_at pir_math_operator.OP_SUB.val = str "sub" ∧
    opnames_at pir_math_operator.OP_MUL.val = str "mul" ∧
    opnames_at pir_math_operator.OP_DIV.val = str "div" ∧
    opnames_at pir_math_operator.OP_FDIV.val = str "fdiv" := by decide

/-- The switch of do_strength_reduction for add and sub on a constant int. -/
theorem strength_switch_add_sub_int {τ : Type} (op : pir_math_operator)
    (hop : op = .OP_ADD ∨ op = .OP_SUB) (l : lexer_state τ) (n : Int) :
    strength_switch op l (.EXPR_CONSTANT (new_const .INT_TYPE (.ival n)))
      = .ok (if n = 1 then remove_operand (update_instr l (opnames_at (op.val + 1))) 2
        else if n = 0 then remove_all_operands (update_instr l (str "noop"))
        else l) := by
  rcases hop with h | h <;> subst h <;>
    by_cases h0 : n = 0 <;> by_cases h1 : n = 1 <;>
    simp [strength_switch, strength_constant, check_value, new_const, b2i, h0, h1]

/-- The switch of do_strength_reduction for add and sub on a constant num. -/
theorem strength_switch_add_sub_num {τ : Type} (op : pir_math_operator)
    (hop : op = .OP_ADD ∨ op = .OP_SUB) (l : lexer_state τ) (n : Double) :
    strength_switch op l (.EXPR_CONSTANT (new_const .NUM_TYPE (.nval n)))
      = .ok (if d_eq n (Double.of_int 0) then
          remove_all_operands (update_instr l (str "noop"))
        else if d_eq n (Double.of_int 1) then
          remove_operand (update_instr l (opnames_at (op.val + 1))) 2
        else l) := by
  rcases hop with h | h <;> subst h <;>
    cases h0 : d_eq n (Double.of_int 0) <;> cases h1 : d_eq n (Double.of_int 1) <;>
    simp [strength_switch, strength_constant, check_value, new_const, b2i, h0, h1]

/-- A double that compares equal to 0 does not compare equal to 1. -/
theorem d_eq_zero_not_one (n : Double) (h : d_eq n (Double.of_int 0) = true) :
    d_eq n (Double.of_int 1) = false := by
  obtain ⟨s, e, rfl⟩ := (d_eq_zero_iff n).mp h
  cases s <;> simp [d_eq, Double.order, Double.of_int, int_order, signed]

/-- C38: for every target t and int n, in a lexer without operands, the instruction
that the action of t += n leaves (inc t for 1, noop for 0, else add t, n) is, with
opcode, operands and reports, the one that do_strength_reduction returns for the
instruction add t, n of two operands; and that of t -= n (dec t, noop, sub t, n) is
the one it returns for sub t, n. The same holds for a num n. -/
theorem augmented_assignment_reduced {τ : Type} (targets_equal : τ → τ → Bool)
    (lexer : lexer_state τ) (t : τ) (n : Int) (x : Double) (h : lexer.operands = []) :
    do_strength_reduction targets_equal
        (set_instrf lexer (str "add")
          [.EXPR_TARGET t, .EXPR_CONSTANT (new_const .INT_TYPE (.ival n))])
      = .ok (yyparse_case_106 lexer t n) ∧
    do_strength_reduction targets_equal
        (set_instrf lexer (str "sub")
          [.EXPR_TARGET t, .EXPR_CONSTANT (new_const .INT_TYPE (.ival n))])
      = .ok (yyparse_case_108 lexer t n) ∧
    do_strength_reduction targets_equal
        (set_instrf lexer (str "add")
          [.EXPR_TARGET t, .EXPR_CONSTANT (new_const .NUM_TYPE (.nval x))])
      = .ok (yyparse_case_107 lexer t x) ∧
    do_strength_reduction targets_equal
        (set_instrf lexer (str "sub")
          [.EXPR_TARGET t, .EXPR_CONSTANT (new_const .NUM_TYPE (.nval x))])
      = .ok (yyparse_case_109 lexer t x) := by
  obtain ⟨instr, operands, errs⟩ := lexer
  simp only at h
  subst h
  have hx := d_eq_zero_not_one x
  simp only [set_instrf, set_instr, push_operand, List.foldl, List.nil_append,
    List.cons_append, yyparse_case_106, yyparse_case_107, yyparse_case_108,
    yyparse_case_109]
  rw [strength_reduction_two_operands targets_equal (str "add") _ _ errs .OP_ADD
      strength_operator_names.1,
    strength_reduction_two_operands targets_equal (str "sub") _ _ errs .OP_SUB
      strength_operator_names.2.1,
    strength_reduction_two_operands targets_equal (str "add") _ _ errs .OP_ADD
      strength_operator_names.1,
    strength_reduction_two_operands targets_equal (str "sub") _ _ errs .OP_SUB
      strength_operator_names.2.1,
    strength_switch_add_sub_int .OP_ADD (Or.inl rfl),
    strength_switch_add_sub_int .OP_SUB (Or.inr rfl),
    strength_switch_add_sub_num .OP_ADD (Or.inl rfl),
    strength_switch_add_sub_num .OP_SUB (Or.inr rfl),
    opnames_after_add_sub.1, opnames_after_add_sub.2]
  refine ⟨?_, ?_, ?_, ?_⟩
  · by_cases h1 : n = 1 <;> by_cases h0 : n = 0 <;>
      simp [h0, h1, remove_operand, remove_all_operands, update_instr]
  · by_cases h1 : n = 1 <;> by_cases h0 : n = 0 <;>
      simp [h0, h1, remove_operand, remove_all_operands, update_instr]
  · cases h0 : d_eq x (Double.of_int 0) <;> cases h1 : d_eq x (Double.of_int 1) <;>
      simp [h0, h1, remove_operand, remove_all_operands, update_instr] at hx ⊢
  · cases h0 : d_eq x (Double.of_int 0) <;> cases h1 : d_eq x (Double.of_int 1) <;>
      simp [h0, h1, remove_operand, remove_all_operands, update_instr] at hx ⊢

/-- C38 at $I0 += 1, $I0 += 0, $I0 += 5 and $I0 -= 1: the actions leave inc $I0,
noop, add $I0, 5 and dec $I0, which is what do_strength_reduction makes of add $I0, 1,
add $I0, 0, add $I0, 5 and sub $I0, 1. -/
theorem augmented_assignment_reduced_witness :
    (do_strength_reduction registers_equal
        (set_instrf fresh_lexer (str "add")
          [.EXPR_TARGET { type := .INT_TYPE, regno := 0 },
           .EXPR_CONSTANT (new_const .INT_TYPE (.ival 1))])
      = .ok { instr := str "inc",
              operands := [.EXPR_TARGET { type := .INT_TYPE, regno := 0 }],
              errors := [] } ∧
      yyparse_case_106 fresh_lexer { type := .INT_TYPE, regno := 0 } 1
        = { instr := str "inc",
            operands := [.EXPR_TARGET { type := .INT_TYPE, regno := 0 }],
            errors := [] }) ∧
    do_strength_reduction registers_equal
        (set_instrf fresh_lexer (str "add")
          [.EXPR_TARGET { type := .INT_TYPE, regno := 0 },
           .EXPR_CONSTANT (new_const .INT_TYPE (.ival 0))])
      = .ok { instr := str "noop", operands := [], errors := [] } ∧
    do_strength_reduction registers_equal
        (set_instrf fresh_lexer (str "add")
          [.EXPR_TARGET { type := .INT_TYPE, regno := 0 },
           .EXPR_CONSTANT (new_const .INT_TYPE (.ival 5))])
      = .ok { instr := str "add",
              operands := [.EXPR_TARGET { type := .INT_TYPE, regno := 0 },
                           .EXPR_CONSTANT (new_const .INT_TYPE (.ival 5))],
              errors := [] } ∧
    do_strength_reduction registers_equal
        (set_instrf fresh_lexer (str "sub")
          [.EXPR_TARGET { type := .INT_TYPE, regno := 0 },
           .EXPR_CONSTANT (new_const .INT_TYPE (.ival 1))])
      = .ok { instr := str "dec",
              operands := [.EXPR_TARGET { type := .INT_TYPE, regno := 0 }],
              errors := [] } :=
  ⟨⟨(augmented_assignment_reduced registers_equal fresh_lexer
        { type := .INT_TYPE, regno := 0 } 1 .nan rfl).1, rfl⟩,
   (augmented_assignment_reduced registers_equal fresh_lexer
      { type := .INT_TYPE, regno := 0 } 0 .nan rfl).1,
   (augmented_assignment_reduced registers_equal fresh_lexer
      { type := .INT_TYPE, regno := 0 } 5 .nan rfl).1,
   (augmented_assignment_reduced registers_equal fresh_lexer
      { type := .INT_TYPE, regno := 0 } 1 .nan rfl).2.1⟩

/-- C39: for each of the operators + - * / // and all targets t, a and b, in a lexer
without operands, the instruction that the action of t = a op b leaves (the opcode of
op with the operands t and b when targets_equal says that t and a are equal, with t, a
and b when it does not) is, with opcode, operands and reports, the one that
do_strength_reduction returns for the instruction of the three operands t, a and b. -/
theorem target_binop_target_reduced {τ : Type} (targets_equal : τ → τ → Bool)
    (lexer : lexer_state τ) (t a b : τ) (op : pir_math_operator)
    (hop : op = .OP_ADD ∨ op = .OP_SUB ∨ op = .OP_MUL ∨ op = .OP_DIV ∨ op = .OP_FDIV)
    (h : lexer.operands = []) :
    do_strength_reduction targets_equal
        (set_instrf lexer (opnames_at op.val)
          [.EXPR_TARGET t, .EXPR_TARGET a, .EXPR_TARGET b])
      = .ok (yyparse_case_113 targets_equal lexer t a op b) ∧
    yyparse_case_113 targets_equal lexer t a op b
      = { instr := opnames_at op.val,
          operands := if targets_equal t a then [.EXPR_TARGET t, .EXPR_TARGET b]
            else [.EXPR_TARGET t, .EXPR_TARGET a, .EXPR_TARGET b],
          errors := lexer.errors } := by
  obtain ⟨instr, operands, errs⟩ := lexer
  simp only at h
  subst h
  have hso : strength_operator (opnames_at op.val) = some op := by
    rcases hop with h | h | h | h | h <;> subst h <;> decide
  simp only [set_instrf, set_instr, push_operand, List.foldl, List.nil_append,
    List.cons_append, yyparse_case_113]
  cases hte : targets_equal t a with
  | true =>
      refine ⟨?_, by simp⟩
      rw [strength_reduction_elided_three targets_equal _ t a _ errs op hso hte,
        strength_reduction_two_operands targets_equal _ _ _ errs op hso]
      simp [strength_switch]
  | false =>
      refine ⟨?_, by simp⟩
      simpa using strength_reduction_not_elided targets_equal (opnames_at op.val)
        (.EXPR_TARGET t) (.EXPR_TARGET a) (.EXPR_TARGET b) [] errs
        (fun t1 t2 h1 h2 => by cases h1; cases h2; exact hte)

/-- C39 at $I0 = $I0 + $I1 and at $I0 = $I1 * $I2: the actions leave add $I0, $I1 and
mul $I0, $I1, $I2, which is what do_strength_reduction makes of add $I0, $I0, $I1 and
of mul $I0, $I1, $I2. -/
theorem target_binop_target_reduced_witness :
    (do_strength_reduction registers_equal
        (set_instrf fresh_lexer (str "add")
          [.EXPR_TARGET { type := .INT_TYPE, regno := 0 },
           .EXPR_TARGET { type := .INT_TYPE, regno := 0 },
           .EXPR_TARGET { type := .INT_TYPE, regno := 1 }])
      = .ok (yyparse_case_113 registers_equal fresh_lexer
          { type := .INT_TYPE, regno := 0 } { type := .INT_TYPE, regno := 0 } .OP_ADD
          { type := .INT_TYPE, regno := 1 }) ∧
      yyparse_case_113 registers_equal fresh_lexer
          { type := .INT_TYPE, regno := 0 } { type := .INT_TYPE, regno := 0 } .OP_ADD
          { type := .INT_TYPE, regno := 1 }
        = { instr := str "add",
            operands := [.EXPR_TARGET { type := .INT_TYPE, regno := 0 },
                         .EXPR_TARGET { type := .INT_TYPE, regno := 1 }],
            errors := [] }) ∧
    (do_strength_reduction registers_equal
        (set_instrf fresh_lexer (str "mul")
          [.EXPR_TARGET { type := .INT_TYPE, regno := 0 },
           .EXPR_TARGET { type := .INT_TYPE, regno := 1 },
           .EXPR_TARGET { type := .INT_TYPE, regno := 2 }])
      = .ok (yyparse_case_113 registers_equal fresh_lexer
          { type := .INT_TYPE, regno := 0 } { type := .INT_TYPE, regno := 1 } .OP_MUL
          { type := .INT_TYPE, regno := 2 }) ∧
      yyparse_case_113 registers_equal fresh_lexer
          { type := .INT_TYPE, regno := 0 } { type := .INT_TYPE, regno := 1 } .OP_MUL
          { type := .INT_TYPE, regno := 2 }
        = { instr := str "mul",
            operands := [.EXPR_TARGET { type := .INT_TYPE, regno := 0 },
                         .EXPR_TARGET { type := .INT_TYPE, regno := 1 },
                         .EXPR_TARGET { type := .INT_TYPE, regno := 2 }],
            errors := [] }) :=
  ⟨target_binop_target_reduced registers_equal fresh_lexer
      { type := .INT_TYPE, regno := 0 } { type := .INT_TYPE, regno := 0 }
      { type := .INT_TYPE, regno := 1 } .OP_ADD (Or.inl rfl) rfl,
   target_binop_target_reduced registers_equal fresh_lexer
      { type := .INT_TYPE, regno := 0 } { type := .INT_TYPE, regno := 1 }
      { type := .INT_TYPE, regno := 2 } .OP_MUL (Or.inr (Or.inr (Or.inl rfl))) rfl⟩


end Pirc
